import Mathlib

/-! ARTOS C API (`src/libartos.cc`): session registry, learning and evaluation entry points.

A shallow embedding of the entry points of `libartos.cc`.

* The four globals of the translation unit (`detectors`, `learners`,
  `eval_positive_samples`, `eval_negative_samples`) are the fields of `World`,
  together with a `trace` that records every collaborator method invoked and every
  invocation of a user supplied progress callback.
* The classes `ModelEvaluator`, `ImageNetModelLearner`, `StationaryBackground`,
  `ImageRepository`, `JPEGImage`, `Scene` are declared in headers that are not part of
  `src/`.  Their objects are values of the type parameters `E` (evaluator), `L` (learner)
  and `B` (background statistics); their member functions are the fields of `Collab`,
  which every entry point takes as a parameter.
* A routine that is handed a progress callback is a `Stage`, a tree of its calls of the
  callback; exceptions are the `raise` outcomes of `Ret`.
* Values of type `unsigned int` are natural numbers; the narrowing conversion of `size()`
  in the `return` of `create_detector` and `create_learner` is the explicit
  `% UINT_SIZE`.
-/

namespace Artos

/-! ## Status codes (`libartos_def.h`) -/

def ARTOS_RES_OK : Int := 0
def ARTOS_RES_INVALID_HANDLE : Int := -1
def ARTOS_RES_DIRECTORY_NOT_FOUND : Int := -2
def ARTOS_RES_FILE_NOT_FOUND : Int := -3
def ARTOS_RES_FILE_ACCESS_DENIED : Int := -4
def ARTOS_RES_ABORTED : Int := -5
def ARTOS_RES_INDEX_OUT_OF_BOUNDS : Int := -6
def ARTOS_RES_INVALID_IMG_DATA : Int := -7
def ARTOS_RES_BUFFER_TOO_SMALL : Int := -8
def ARTOS_RES_INTERNAL_ERROR : Int := -999

def ARTOS_DETECT_RES_INVALID_IMG_DATA : Int := -101
def ARTOS_DETECT_RES_INVALID_MODEL_FILE : Int := -102
def ARTOS_DETECT_RES_INVALID_MODEL_LIST_FILE : Int := -103
def ARTOS_DETECT_RES_NO_MODELS : Int := -104
def ARTOS_DETECT_RES_INVALID_IMAGE : Int := -105
def ARTOS_DETECT_RES_NO_IMAGES : Int := -106
def ARTOS_DETECT_RES_NO_RESULTS : Int := -107
def ARTOS_DETECT_RES_INVALID_ANNOTATIONS : Int := -108
def ARTOS_DETECT_RES_TOO_MANY_MODELS : Int := -109
def ARTOS_DETECT_RES_INVALID_FEATURES : Int := -110
def ARTOS_DETECT_RES_MIXED_FEATURES : Int := -111

def ARTOS_LEARN_RES_FAILED : Int := -201
def ARTOS_LEARN_RES_INVALID_BG_FILE : Int := -202
def ARTOS_LEARN_RES_INVALID_IMG_DATA : Int := -203
def ARTOS_LEARN_RES_NO_SAMPLES : Int := -204
def ARTOS_LEARN_RES_MODEL_NOT_LEARNED : Int := -205
def ARTOS_LEARN_RES_FEATURE_EXTRACTOR_NOT_READY : Int := -206

def ARTOS_IMGREPO_RES_INVALID_REPOSITORY : Int := -301
def ARTOS_IMGREPO_RES_SYNSET_NOT_FOUND : Int := -302
def ARTOS_IMGREPO_RES_EXTRACTION_FAILED : Int := -303

def ARTOS_THOPT_NONE : Nat := 0
def ARTOS_THOPT_OVERLAPPING : Nat := 1
def ARTOS_THOPT_LOOCV : Nat := 2

/-- Number of values of a 32 bit `unsigned int`. -/
def UINT_SIZE : Nat := 2 ^ 32

/-! ## Plain data -/

/-- Values of type `double` and `float`, as the rationals they stand for: the entry
points pass them on, and `evaluator_add_positive_file` divides and multiplies them, where
every result is rounded to a `double` by `to_double`. -/
abbrev double := Rat

/-- Rectangle `(x, y, width, height)`. -/
structure Rectangle where
  x : Int
  y : Int
  width : Int
  height : Int
deriving DecidableEq, Repr

/-- FlatBoundingBox of the C interface. -/
structure FlatBoundingBox where
  left : Nat
  top : Nat
  width : Nat
  height : Nat
deriving DecidableEq, Repr

/-- The value an `unsigned int` has after its conversion to `int` (32 bits, two's
complement): a value of 2^31 or more becomes the value minus 2^32. -/
def int_of_unsigned (v : Nat) : Int :=
  if v % 2 ^ 32 < 2 ^ 31 then ((v % 2 ^ 32 : Nat) : Int) else ((v % 2 ^ 32 : Nat) : Int) - 2 ^ 32

/-- The expression `Rectangle(flat_bbox->left, flat_bbox->top, flat_bbox->width,
flat_bbox->height)`: the fields of FlatBoundingBox are `unsigned int`, the parameters of
the constructor are `int`. -/
def Rectangle_of_flat (flat_bbox : FlatBoundingBox) : Rectangle :=
  { x := int_of_unsigned flat_bbox.left
    y := int_of_unsigned flat_bbox.top
    width := int_of_unsigned flat_bbox.width
    height := int_of_unsigned flat_bbox.height }

/-- JPEGImage, seen through the observers the entry points use: `empty()`, `width()`,
`height()`. -/
structure JPEGImage where
  empty : Bool
  width : Nat
  height : Nat
deriving DecidableEq, Repr

/-- SynsetImage of a repository, seen through `getImage()`, `loadBoundingBoxes()` and
`bboxes`. -/
structure SynsetImage where
  image : JPEGImage
  loadBoundingBoxes : Bool
  bboxes : List Rectangle
deriving DecidableEq, Repr

/-- Synset of a repository: its `id`, the images of `getImageIterator(false)` and the
images of `getImageIterator()`. -/
structure Synset where
  id : String
  imagesNoBoxes : List SynsetImage
  images : List SynsetImage
deriving DecidableEq, Repr

/-- Sample, with the fields the entry points assign (`data` is always `NULL` there). -/
structure Sample where
  m_img : Option JPEGImage
  m_simg : Option SynsetImage
  m_bboxes : List Rectangle
  modelAssoc : List Nat
deriving DecidableEq, Repr

/-- A `std::string` that is copied char by char: the sequence of its chars, each a byte
value. -/
abbrev std_string := List Nat

/-- Detection: class name, synset id, score and box. -/
structure Detection where
  classname : std_string
  synsetId : std_string
  score : double
  box : Rectangle
deriving DecidableEq, Repr

/-- TestResult of `ModelEvaluator`: one row of a result curve. -/
structure TestResult where
  threshold : double
  tp : Nat
  fp : Nat
  np : Nat
deriving DecidableEq, Repr

/-- Object of a scene annotation, seen through `bndbox()`. -/
structure SceneObject where
  bndbox : Rectangle
deriving DecidableEq, Repr

/-- Scene of an annotation file, seen through `empty()`, `width()` and `objects()`. -/
structure Scene where
  empty : Bool
  width : Int
  objects : List SceneObject
deriving DecidableEq, Repr

/-- Mixture as `add_model_from_learner` assembles it: the feature extractor it is
constructed with and the `(model, threshold)` pairs added by `addModel`. -/
structure Mixture (F M : Type) where
  featureExtractor : F
  models : List (M × double)

/-! ## Exceptions, traces and progress callbacks -/

/-- The C++ exceptions a collaborator may raise. -/
inductive Exn where
  | UseBeforeSetupException
  | other
deriving DecidableEq, Repr

/-- Outcome of a C++ call: it returns a value or an exception leaves it. -/
inductive Ret (α : Type) where
  | ok (v : α)
  | raise (e : Exn)
deriving DecidableEq, Repr

/-- The member functions of the collaborators that have an effect, and the `delete`
expressions of the entry points. -/
inductive Method where
  | addModel
  | addModels
  | addModelMixture
  | detectMax
  | detect
  | setEqOverlap
  | testModels
  | dumpTestResults
  | addPositiveSamplesFromSynset
  | addPositiveSample
  | learn
  | optimizeThreshold
  | save
  | reset
  | learnMean
  | learnCovariance
  | learnCovariance_accurate
  | writeToFile
  | deleteDetector
  | deleteLearner
  | deleteSample
deriving DecidableEq, Repr

/-- What the trace records: a collaborator method is entered, the user callback of type
`progress_cb_t` is invoked, the user callback of type `overall_progress_cb_t` is
invoked (each with its arguments and the value it returned). -/
inductive Event where
  | call (m : Method)
  | progress (current total : Nat) (answer : Bool)
  | overall (overall_step overall_total current total : Nat) (answer : Bool)
deriving DecidableEq, Repr

/-- A user callback `bool (*)(unsigned int, unsigned int)`: its answer may depend on
everything that happened before (the trace) and on its arguments. -/
abbrev progress_cb_t := List Event → Nat → Nat → Bool

/-- A user callback `bool (*)(unsigned int, unsigned int, unsigned int, unsigned int)`. -/
abbrev overall_progress_cb_t := List Event → Nat → Nat → Nat → Nat → Bool

/-- A long running collaborator routine that is given a `ProgressCallback`: it either
finishes with a result, or calls the callback with `(current, total)` and goes on
according to the answer. -/
inductive Stage (ρ : Type) where
  | done (r : ρ)
  | report (current total : Nat) (next : Bool → Stage ρ)

/-- Run a routine with the callback `cb`, which works on the mutable data `σ`. -/
def Stage.run {ρ σ : Type} (cb : Nat → Nat → σ → Bool × σ) : Stage ρ → σ → ρ × σ
  | .done r, d => (r, d)
  | .report c t next, d => Stage.run cb (next (cb c t d).1) (cb c t d).2

/-- Run a routine that was given `NULL` as callback: nothing is called, the routine goes
on as after the answer `true`. -/
def Stage.runNull {ρ : Type} : Stage ρ → ρ
  | .done r => r
  | .report _ _ next => Stage.runNull (next true)

/-! ## Collaborators and the global state -/

/-- MixedImageIterator over a repository, as `learn_bg` constructs and hands it on. -/
structure MixedImageIterator where
  repo_directory : String
  per_synset : Nat
  pos : Nat
deriving DecidableEq, Repr

/-- The member functions of the classes declared outside `src/`, on objects of the types
`E` (ModelEvaluator), `L` (ModelLearner, ImageNetModelLearner), `B`
(StationaryBackground), `F` (feature extractor) and `M` (model data).  A function that
changes its object returns the changed object; a function that is given a
`ProgressCallback` is a `Stage`; a training routine, which may raise the
`UseBeforeSetupException` of the feature extractor, returns a `Ret`, and the constructor
inside the `try` of `create_detector` returns `none` when it raises. -/
structure Collab (E L B F M : Type) where
  /-- The expression `new ModelEvaluator(overlap, overlap, interval, debug)`; `none` when
  it raises a `std::exception`. -/
  new_ModelEvaluator : double → double → Int → Bool → Option E
  /-- Whether `detectors.push_back` returns (`false`: it raises `std::bad_alloc`), given
  the size of the vector. -/
  push_back_ok : Nat → Bool
  addModel : E → String → String → double → String → Int × E
  addModels : E → String → Int × E
  addModelMixture : E → String → Mixture F M → double → String → Int × E
  differentFeatureExtractors : E → Int
  detectMax : E → JPEGImage → Int × Detection × E
  detect : E → JPEGImage → Int × List Detection × E
  getNumModels : E → Nat
  setEqOverlap : E → double → E
  testModels : E → List Sample → Nat → Option (List JPEGImage) → Nat → Stage E
  getResults : E → Nat → List TestResult
  getAllResults : E → List (List TestResult)
  getMaxFMeasure : E → Nat → double × double
  getFMeasureAt : E → double → Nat → double
  computeAveragePrecision : E → Nat → double
  dumpTestResults : E → String → Bool
  /-- The expression `new ImageNetModelLearner(bg_file, repo_directory, nullptr,
  th_opt_loocv, debug)`. -/
  new_ImageNetModelLearner : String → String → Bool → Bool → L
  /-- The local object `ImageNetModelLearner learner(bg, repo, nullptr, loocv, debug)`. -/
  mk_ImageNetModelLearner : B → String → Bool → Bool → L
  /-- The local object `ModelLearner learner(bg, nullptr, loocv, debug)`. -/
  mk_ModelLearner : B → Bool → Bool → L
  /-- The value of `getBackground().empty()`. -/
  getBackground_empty : L → Bool
  /-- The value of `getRepository().getRepoDirectory()`. -/
  getRepoDirectory : L → String
  getFeatureExtractor : L → F
  getModels : L → List M
  getThresholds : L → List double
  getNumSamples : L → Nat
  /-- Member `addPositiveSamplesFromSynset(synset, max_samples)`; `none` is the default
  argument. -/
  addPositiveSamplesFromSynset : L → Synset → Option Nat → Nat × L
  /-- Member `addPositiveSample(img, bboxes)` with a vector of boxes. -/
  addPositiveSample : L → JPEGImage → List Rectangle → L
  /-- Member `addPositiveSample(img, bbox)` with one box. -/
  addPositiveSample1 : L → JPEGImage → Rectangle → L
  learn : L → Nat → Nat → Stage (Ret Int × L)
  /-- Member `optimizeThreshold(max_positive, num_negative, 1.0f, cb, data)` of
  ImageNetModelLearner. -/
  optimizeThreshold : L → Nat → Nat → Stage (Ret Unit × L)
  /-- Member `optimizeThreshold()` and `optimizeThreshold(0, NULL, 1.0f, cb, data)` of
  ModelLearner. -/
  optimizeThreshold0 : L → Stage (Ret Unit × L)
  save : L → String → Bool → Bool
  reset : L → L
  /-- The static `ImageRepository::hasRepositoryStructure`. -/
  hasRepositoryStructure : String → Bool
  /-- The value of `ImageRepository(repo_directory).getSynset(synset_id)`. -/
  getSynset : String → String → Synset
  /-- The synsets of `ImageRepository(repo_directory).getSynsetIterator()`. -/
  getSynsets : String → List Synset
  /-- The constructor `JPEGImage(imagefile)`. -/
  JPEGImage_file : String → JPEGImage
  /-- The constructor `JPEGImage(width, height, depth, data)`. -/
  JPEGImage_raw : Nat → Nat → Nat → List Nat → JPEGImage
  /-- The constructor `Scene(annotation_file)`. -/
  Scene_file : String → Scene
  /-- The constructor `StationaryBackground(bg_file)`. -/
  StationaryBackground_file : String → B
  /-- The default constructor `StationaryBackground()`. -/
  StationaryBackground_new : B
  bg_empty : B → Bool
  learnMean : B → MixedImageIterator → Nat → Stage (Ret Unit × B × MixedImageIterator)
  learnCovariance : B → MixedImageIterator → Nat → Nat →
    Stage (Ret Unit × B × MixedImageIterator)
  learnCovariance_accurate : B → MixedImageIterator → Nat → Nat →
    Stage (Ret Unit × B × MixedImageIterator)
  writeToFile : B → String → Bool
  /-- The default constructor `Rectangle()`, an empty bounding box. -/
  Rectangle_new : Rectangle
  /-- The constant `Sample::noAssoc`. -/
  noAssoc : Nat
  /-- The value of `sizeof(detection_buf->classname)`. -/
  sizeof_classname : Nat
  /-- The value of `sizeof(detection_buf->synset_id)`. -/
  sizeof_synset_id : Nat
  /-- The arrangement of a vector of detections from which `std::sort` ends up: `std::sort`
  is not stable, so the order it leaves among detections that compare equal is that of
  some rearrangement of the input, which the language does not fix. -/
  sort_ties : List Detection → List Detection

/-- The globals of `libartos.cc` and the trace of what was called. -/
structure World (E L : Type) where
  detectors : List (Option E)
  learners : List (Option L)
  eval_positive_samples : List (Nat × List Sample)
  eval_negative_samples : List (Nat × List JPEGImage)
  trace : List Event

section Registry

variable {E L B F M : Type}

/-- Append an event to the trace. -/
def World.log (w : World E L) (e : Event) : World E L :=
  { w with trace := w.trace ++ [e] }

/-- The lookup `m.find(key)` of a `std::map`. -/
def mapFind {α : Type} (m : List (Nat × List α)) (key : Nat) : Option (List α) :=
  (m.find? (fun e => e.1 == key)).map (fun e => e.2)

/-- The map after `m[key]` was evaluated: a missing key gets an empty vector. -/
def mapTouch {α : Type} (m : List (Nat × List α)) (key : Nat) : List (Nat × List α) :=
  if (mapFind m key).isSome then m else m ++ [(key, [])]

/-- The vector `m[key]` refers to. -/
def mapGet {α : Type} (m : List (Nat × List α)) (key : Nat) : List α :=
  (mapFind m key).getD []

/-- The map after the vector `m[key]` was replaced by `v`. -/
def mapSet {α : Type} (m : List (Nat × List α)) (key : Nat) (v : List α) :
    List (Nat × List α) :=
  (mapTouch m key).map (fun e => if e.1 == key then (e.1, v) else e)

/-- The map after `m.erase(key)`. -/
def mapErase {α : Type} (m : List (Nat × List α)) (key : Nat) : List (Nat × List α) :=
  m.filter (fun e => !(e.1 == key))

/-- The element `detectors[detector - 1]`. -/
def World.detector (w : World E L) (detector : Nat) : Option E :=
  w.detectors.getD (detector - 1) none

/-- The element `learners[learner - 1]`. -/
def World.learner (w : World E L) (learner : Nat) : Option L :=
  w.learners.getD (learner - 1) none

/-- The world after the object `detectors[detector - 1]` points to became `det`. -/
def World.setDetector (w : World E L) (detector : Nat) (det : E) : World E L :=
  { w with detectors := w.detectors.set (detector - 1) (some det) }

/-- The world after the object `learners[learner - 1]` points to became `l`. -/
def World.setLearner (w : World E L) (learner : Nat) (l : L) : World E L :=
  { w with learners := w.learners.set (learner - 1) (some l) }

/-- Function `is_valid_detector_handle` (line 170). -/
def is_valid_detector_handle (w : World E L) (detector : Nat) : Bool :=
  decide (detector > 0) && decide (detector ≤ w.detectors.length)
    && (w.detector detector).isSome

/-- Function `is_valid_learner_handle` (line 429). -/
def is_valid_learner_handle (w : World E L) (learner : Nat) : Bool :=
  decide (learner > 0) && decide (learner ≤ w.learners.length)
    && (w.learner learner).isSome

/-- Function `create_detector` (line 36): the handle returned and the world after. -/
def create_detector (env : Collab E L B F M) (overlap : double) (interval : Int)
    (debug : Bool) (w : World E L) : Nat × World E L :=
  match env.new_ModelEvaluator overlap overlap interval debug with
  | some newDetector =>
    if env.push_back_ok w.detectors.length then
      let w1 := { w with detectors := w.detectors ++ [some newDetector] }
      (w1.detectors.length % UINT_SIZE, w1)
    else
      (0, w.log (.call .deleteDetector))
  | none => (0, w)

/-- Function `destroy_detector` (line 53).  The statements of the `try` block are taken
not to raise (its `catch` block is empty). -/
def destroy_detector (detector : Nat) (w : World E L) : World E L :=
  if is_valid_detector_handle w detector then
    let w1 := w.log (.call .deleteDetector)
    let w2 := { w1 with detectors := w1.detectors.set (detector - 1) none }
    let w3 := { w2 with eval_positive_samples := mapTouch w2.eval_positive_samples detector }
    let w4 := { w3 with trace := w3.trace ++
      (mapGet w3.eval_positive_samples detector).map (fun _ => Event.call .deleteSample) }
    let w5 := { w4 with eval_positive_samples := mapErase w4.eval_positive_samples detector }
    { w5 with eval_negative_samples := mapErase w5.eval_negative_samples detector }
  else w

/-- Function `create_learner` (line 323): the handle returned and the world after. -/
def create_learner (env : Collab E L B F M) (bg_file repo_directory : String)
    (th_opt_loocv debug : Bool) (w : World E L) : Nat × World E L :=
  let repo_directory := if !env.hasRepositoryStructure repo_directory then "" else repo_directory
  let newLearner := env.new_ImageNetModelLearner bg_file repo_directory th_opt_loocv debug
  if env.getBackground_empty newLearner then
    (0, w.log (.call .deleteLearner))
  else
    let w1 := { w with learners := w.learners ++ [some newLearner] }
    (w1.learners.length % UINT_SIZE, w1)

/-- Function `destroy_learner` (line 337).  The statements of the `try` block are taken
not to raise (its `catch` block is empty). -/
def destroy_learner (learner : Nat) (w : World E L) : World E L :=
  if is_valid_learner_handle w learner then
    let w1 := w.log (.call .deleteLearner)
    { w1 with learners := w1.learners.set (learner - 1) none }
  else w

end Registry

/-! ## Detection entry points (lines 68 to 168) -/

/-- FlatDetection of the C interface; `classname` and `synset_id` are the char arrays,
listed char by char. -/
structure FlatDetection where
  classname : List Nat
  synset_id : List Nat
  score : double
  left : Int
  top : Int
  right : Int
  bottom : Int
deriving DecidableEq, Repr

/-- Modelled from the spec: the class Rectangle is declared outside `src/`; its `left()`
is `x`. -/
def Rectangle.left (r : Rectangle) : Int := r.x

/-- Modelled from the spec: the class Rectangle is declared outside `src/`; its `top()`
is `y`. -/
def Rectangle.top (r : Rectangle) : Int := r.y

/-- Modelled from the spec: the class Rectangle is declared outside `src/`; its `right()`
is the inclusive bound `x + width - 1`. -/
def Rectangle.right (r : Rectangle) : Int := r.x + r.width - 1

/-- Modelled from the spec: the class Rectangle is declared outside `src/`; its
`bottom()` is the inclusive bound `y + height - 1`. -/
def Rectangle.bottom (r : Rectangle) : Int := r.y + r.height - 1

section Detecting

variable {E L B F M : Type}

/-- Modelled from the spec: `operator<` of Detection is declared outside `src/`; the
order ranks a higher score first.  This is `std::sort` on a vector of detections: the
result is a rearrangement of the input in that order, and among detections of equal score
it keeps the order of `env.sort_ties`, whatever rearrangement of the input that is (an
answer of `env.sort_ties` that is no rearrangement of the input is not used). -/
def sortDetections (env : Collab E L B F M) (detections : List Detection) : List Detection :=
  (if (env.sort_ties detections).Perm detections then env.sort_ties detections
    else detections).insertionSort (fun a b => b.score ≤ a.score)

/-- The statements `memset(buf, 0, size); s.copy(buf, size - 1)` on a char array of `size`
chars (at least one): the chars of the array afterwards. -/
def copy_to_array (size : Nat) (s : std_string) : List Nat :=
  s.take (size - 1) ++ List.replicate (size - (s.take (size - 1)).length) 0

/-- The body of the loop of `write_results_to_buffer`: the entry written for one
detection.  The member `score` of Detection is declared outside `src/` and taken to be of
type `float`, like the member of FlatDetection, so that `static_cast<float>` leaves its
value as it is. -/
def flatten (env : Collab E L B F M) (dit : Detection) : FlatDetection :=
  { classname := copy_to_array env.sizeof_classname dit.classname
    synset_id := copy_to_array env.sizeof_synset_id dit.synsetId
    score := dit.score
    left := dit.box.left
    top := dit.box.top
    right := dit.box.right + 1
    bottom := dit.box.bottom + 1 }

/-- The loop of `write_results_to_buffer` from index `bi` on: the buffer and the final
value of `bi`. -/
def write_results_loop (env : Collab E L B F M) (detection_buf_size : Nat) :
    List Detection → Nat → (Nat → FlatDetection) → (Nat → FlatDetection) × Nat
  | [], bi, buf => (buf, bi)
  | dit :: rest, bi, buf =>
    if bi < detection_buf_size then
      write_results_loop env detection_buf_size rest (bi + 1)
        (Function.update buf bi (flatten env dit))
    else (buf, bi)

/-- Function `write_results_to_buffer` (line 150): the buffer and `*detection_buf_size`
after the call. -/
def write_results_to_buffer (env : Collab E L B F M) (detections : List Detection)
    (detection_buf : Nat → FlatDetection) (detection_buf_size : Nat) :
    (Nat → FlatDetection) × Nat :=
  write_results_loop env detection_buf_size detections 0 detection_buf

/-- Function `add_model` (line 68); `synset_id` is `none` for `NULL`. -/
def add_model (env : Collab E L B F M) (detector : Nat) (classname modelfile : String)
    (threshold : double) (synset_id : Option String) (w : World E L) : Int × World E L :=
  if is_valid_detector_handle w detector then
    match w.detector detector with
    | some det =>
      let r := env.addModel det classname modelfile threshold (synset_id.getD "")
      (r.1, ((w.log (.call .addModel)).setDetector detector r.2))
    | none => (ARTOS_RES_INVALID_HANDLE, w)
  else (ARTOS_RES_INVALID_HANDLE, w)

/-- Function `add_models` (line 76). -/
def add_models (env : Collab E L B F M) (detector : Nat) (modellistfile : String)
    (w : World E L) : Int × World E L :=
  if is_valid_detector_handle w detector then
    match w.detector detector with
    | some det =>
      let r := env.addModels det modellistfile
      (r.1, ((w.log (.call .addModels)).setDetector detector r.2))
    | none => (ARTOS_RES_INVALID_HANDLE, w)
  else (ARTOS_RES_INVALID_HANDLE, w)

/-- The mixture `add_model_from_learner` builds from the learner object: one model per
index `i` of `getModels()`, with threshold `-1 * getThresholds()[i]`. -/
def mixtureOfLearner (env : Collab E L B F M) (learner_obj : L) : Mixture F M :=
  { featureExtractor := env.getFeatureExtractor learner_obj
    models := (env.getModels learner_obj).enum.map
      (fun im => (im.2, -1 * (env.getThresholds learner_obj).getD im.1 0)) }

/-- Function `add_model_from_learner` (line 84). -/
def add_model_from_learner (env : Collab E L B F M) (detector : Nat) (classname : String)
    (learner : Nat) (threshold : double) (synset_id : Option String) (w : World E L) :
    Int × World E L :=
  if is_valid_detector_handle w detector && is_valid_learner_handle w learner then
    match w.detector detector, w.learner learner with
    | some det, some learner_obj =>
      let mix := mixtureOfLearner env learner_obj
      let r := env.addModelMixture det classname mix threshold (synset_id.getD "")
      (r.1, ((w.log (.call .addModelMixture)).setDetector detector r.2))
    | _, _ => (ARTOS_RES_INVALID_HANDLE, w)
  else (ARTOS_RES_INVALID_HANDLE, w)

/-- Function `num_feature_extractors_in_detector` (line 98). -/
def num_feature_extractors_in_detector (env : Collab E L B F M) (detector : Nat)
    (w : World E L) : Int × World E L :=
  if is_valid_detector_handle w detector then
    match w.detector detector with
    | some det => (env.differentFeatureExtractors det, w)
    | none => (-1, w)
  else (-1, w)

/-- Function `detect_jpeg` (line 121): the status, the buffer and `*detection_buf_size`
after the call, and the world. -/
def detect_jpeg (env : Collab E L B F M) (detector : Nat) (img : JPEGImage)
    (detection_buf : Nat → FlatDetection) (detection_buf_size : Nat) (w : World E L) :
    Int × (Nat → FlatDetection) × Nat × World E L :=
  if is_valid_detector_handle w detector then
    match w.detector detector with
    | some det =>
      if img.empty then
        (ARTOS_DETECT_RES_INVALID_IMG_DATA, detection_buf, detection_buf_size, w)
      else
        let r : Int × List Detection × World E L :=
          if detection_buf_size = 1 then
            let m := env.detectMax det img
            (m.1, [m.2.1], (w.log (.call .detectMax)).setDetector detector m.2.2)
          else
            let m := env.detect det img
            (m.1, m.2.1, (w.log (.call .detect)).setDetector detector m.2.2)
        if r.1 = ARTOS_RES_OK then
          let out := write_results_to_buffer env (sortDetections env r.2.1) detection_buf
            detection_buf_size
          (r.1, out.1, out.2, r.2.2)
        else
          (r.1, detection_buf, 0, r.2.2)
    | none => (ARTOS_RES_INVALID_HANDLE, detection_buf, detection_buf_size, w)
  else (ARTOS_RES_INVALID_HANDLE, detection_buf, detection_buf_size, w)

/-- Function `detect_file_jpeg` (line 106). -/
def detect_file_jpeg (env : Collab E L B F M) (detector : Nat) (imagefile : String)
    (detection_buf : Nat → FlatDetection) (detection_buf_size : Nat) (w : World E L) :
    Int × (Nat → FlatDetection) × Nat × World E L :=
  detect_jpeg env detector (env.JPEGImage_file imagefile) detection_buf detection_buf_size w

/-- Function `detect_raw` (line 113). -/
def detect_raw (env : Collab E L B F M) (detector : Nat) (img_data : List Nat)
    (img_width img_height : Nat) (grayscale : Bool)
    (detection_buf : Nat → FlatDetection) (detection_buf_size : Nat) (w : World E L) :
    Int × (Nat → FlatDetection) × Nat × World E L :=
  detect_jpeg env detector
    (env.JPEGImage_raw img_width img_height (if grayscale then 1 else 3) img_data)
    detection_buf detection_buf_size w

end Detecting

/-! ## Training entry points (lines 181 to 495) -/

/-- The struct `progress_params` (line 181); `cb` is `none` for `NULL`. -/
structure progress_params where
  cb : Option overall_progress_cb_t
  overall_step : Nat
  overall_steps_total : Nat
  aborted : Bool

/-- Function `populate_progress` (line 188).  The mutable data are the struct `data`
points to and the trace; a call through a `NULL` member `cb` does not occur in the entry
points and is modelled as an abort without an invocation. -/
def populate_progress (cur total : Nat) (_data : Unit) (d : progress_params × List Event) :
    Bool × (progress_params × List Event) :=
  if !d.1.aborted then
    match d.1.cb with
    | some cb =>
      let answer := cb d.2 d.1.overall_step d.1.overall_steps_total cur total
      let params := { d.1 with aborted := !answer }
      (!params.aborted, (params,
        d.2 ++ [Event.overall d.1.overall_step d.1.overall_steps_total cur total answer]))
    | none => (false, ({ d.1 with aborted := true }, d.2))
  else (!d.1.aborted, d)

/-- Function `progress_proxy` (line 448): `data` is the user callback; the mutable data
are the trace.  A call with `data == NULL` does not occur in the entry points and is
modelled as the answer `false` without an invocation. -/
def progress_proxy (current total : Nat) (data : Option progress_cb_t) (tr : List Event) :
    Bool × List Event :=
  match data with
  | some cb => (cb tr current total, tr ++ [Event.progress current total (cb tr current total)])
  | none => (false, tr)

/-- A collaborator routine called with the arguments `(progressCB, cbData)`: with a
callback it runs against it, with `NULL` it runs without. -/
def runStage {ρ δ σ : Type} (progressCB : Option (Nat → Nat → δ → σ → Bool × σ)) (cbData : δ)
    (st : Stage ρ) (s : σ) : ρ × σ :=
  match progressCB with
  | some f => st.run (fun c t => f c t cbData) s
  | none => (st.runNull, s)

section Training

variable {E L B F M : Type}

/-- A direct call `progress_cb(a, b, c, d)` of the overall callback, whose value the
entry points discard. -/
def callOverall (cb : overall_progress_cb_t) (a b c d : Nat) (w : World E L) : World E L :=
  w.log (Event.overall a b c d (cb w.trace a b c d))

/-- The statements of `learn_imagenet` and `learn_files_jpeg` from `progParams.overall_step++`
before `learn` to the end (lines 228 to 250 and 290 to 316), which differ only in the call
of `optimizeThreshold`, given as `opt`. -/
def learn_and_save (env : Collab E L B F M) (opt : L → Stage (Ret Unit × L))
    (learner : L) (progParams : progress_params) (progress_cb : Option overall_progress_cb_t)
    (modelfile : String) (add : Bool) (max_aspect_clusters max_who_clusters th_opt_mode : Nat)
    (w : World E L) : Ret Int × World E L :=
  let progParams := { progParams with overall_step := progParams.overall_step + 1 }
  let cbArg := if progress_cb.isSome then some populate_progress else none
  let r1 := runStage cbArg () (env.learn learner max_aspect_clusters max_who_clusters)
    (progParams, (w.log (.call .learn)).trace)
  let w1 : World E L := { w with trace := r1.2.2 }
  let progParams := r1.2.1
  let learner := r1.1.2
  match (match r1.1.1 with
      | .ok res => Ret.ok res
      | .raise .UseBeforeSetupException => Ret.ok ARTOS_LEARN_RES_FEATURE_EXTRACTOR_NOT_READY
      | .raise e => Ret.raise e) with
  | .raise e => (.raise e, w1)
  | .ok res =>
    if res ≠ ARTOS_RES_OK then (.ok res, w1)
    else
      let r2 : (Ret Unit × L) × (progress_params × List Event) :=
        if th_opt_mode ≠ ARTOS_THOPT_NONE then
          runStage cbArg () (opt learner)
            ({ progParams with overall_step := progParams.overall_step + 1 },
              (w1.log (.call .optimizeThreshold)).trace)
        else ((.ok (), learner), (progParams, w1.trace))
      let w2 : World E L := { w1 with trace := r2.2.2 }
      let progParams := r2.2.1
      let learner := r2.1.2
      match r2.1.1 with
      | .raise e => (.raise e, w2)
      | .ok _ =>
        let w3 := w2.log (.call .save)
        if !env.save learner modelfile add then (.ok ARTOS_RES_FILE_ACCESS_DENIED, w3)
        else
          match progress_cb with
          | some cb =>
            (.ok ARTOS_RES_OK, callOverall cb progParams.overall_steps_total
              progParams.overall_steps_total 0 0 w3)
          | none => (.ok ARTOS_RES_OK, w3)

/-- Function `learn_imagenet` (line 197). -/
def learn_imagenet (env : Collab E L B F M) (repo_directory synset_id bg_file modelfile : String)
    (add : Bool) (max_aspect_clusters max_who_clusters th_opt_num_positive
      th_opt_num_negative th_opt_mode : Nat)
    (progress_cb : Option overall_progress_cb_t) (debug : Bool) (w : World E L) :
    Ret Int × World E L :=
  if !env.hasRepositoryStructure repo_directory then
    (.ok ARTOS_IMGREPO_RES_INVALID_REPOSITORY, w)
  else
    let synset := env.getSynset repo_directory synset_id
    if synset.id.isEmpty then (.ok ARTOS_IMGREPO_RES_SYNSET_NOT_FOUND, w)
    else
      let bg := env.StationaryBackground_file bg_file
      if env.bg_empty bg then (.ok ARTOS_LEARN_RES_INVALID_BG_FILE, w)
      else
        let progParams : progress_params :=
          { cb := progress_cb, overall_step := 0,
            overall_steps_total := if th_opt_mode = ARTOS_THOPT_NONE then 2 else 3,
            aborted := false }
        let w1 := match progress_cb with
          | some cb => callOverall cb 0 progParams.overall_steps_total 0 0 w
          | none => w
        let learner := env.mk_ImageNetModelLearner bg repo_directory
          (th_opt_mode == ARTOS_THOPT_LOOCV) debug
        let a := env.addPositiveSamplesFromSynset learner synset none
        let w2 := w1.log (.call .addPositiveSamplesFromSynset)
        if a.1 = 0 then (.ok ARTOS_IMGREPO_RES_EXTRACTION_FAILED, w2)
        else
          learn_and_save env
            (fun l => env.optimizeThreshold l th_opt_num_positive th_opt_num_negative)
            a.2 progParams progress_cb modelfile add max_aspect_clusters max_who_clusters
            th_opt_mode w2

/-- The loop of `learn_files_jpeg` that adds the samples (line 277), over the indices
`i` still to visit: the learner, the variable `bbox` and the world after it. -/
def add_files (env : Collab E L B F M) (imagefiles : Nat → String)
    (bounding_boxes : Option (Nat → FlatBoundingBox)) :
    List Nat → L × Rectangle × World E L → L × Rectangle × World E L
  | [], st => st
  | i :: rest, (learner, bbox, w) =>
    let img := env.JPEGImage_file (imagefiles i)
    if !img.empty then
      let bbox := match bounding_boxes with
        | some boxes => Rectangle_of_flat (boxes i)
        | none => bbox
      add_files env imagefiles bounding_boxes rest
        (env.addPositiveSample1 learner img bbox, bbox, w.log (.call .addPositiveSample))
    else add_files env imagefiles bounding_boxes rest (learner, bbox, w)

/-- Function `learn_files_jpeg` (line 253); `imagefiles` and `bounding_boxes` are the
arrays, `bounding_boxes` is `none` for `NULL`. -/
def learn_files_jpeg (env : Collab E L B F M) (imagefiles : Nat → String)
    (num_imagefiles : Nat) (bounding_boxes : Option (Nat → FlatBoundingBox))
    (bg_file modelfile : String) (add : Bool)
    (max_aspect_clusters max_who_clusters th_opt_mode : Nat)
    (progress_cb : Option overall_progress_cb_t) (debug : Bool) (w : World E L) :
    Ret Int × World E L :=
  let bg := env.StationaryBackground_file bg_file
  if env.bg_empty bg then (.ok ARTOS_LEARN_RES_INVALID_BG_FILE, w)
  else
    let progParams : progress_params :=
      { cb := progress_cb, overall_step := 0,
        overall_steps_total := if th_opt_mode = ARTOS_THOPT_NONE then 2 else 3,
        aborted := false }
    let w1 := match progress_cb with
      | some cb => callOverall cb 0 progParams.overall_steps_total 0 0 w
      | none => w
    let learner := env.mk_ModelLearner bg (th_opt_mode == ARTOS_THOPT_LOOCV) debug
    let st := add_files env imagefiles bounding_boxes (List.range num_imagefiles)
      (learner, env.Rectangle_new, w1)
    learn_and_save env (fun l => env.optimizeThreshold0 l) st.1 progParams progress_cb
      modelfile add max_aspect_clusters max_who_clusters th_opt_mode st.2.2

/-- Function `learner_add_synset` (line 348). -/
def learner_add_synset (env : Collab E L B F M) (learner : Nat) (synset_id : String)
    (max_samples : Nat) (w : World E L) : Int × World E L :=
  if !is_valid_learner_handle w learner then (ARTOS_RES_INVALID_HANDLE, w)
  else
    match w.learner learner with
    | none => (ARTOS_RES_INVALID_HANDLE, w)
    | some l =>
      let repo := env.getRepoDirectory l
      if repo.isEmpty then (ARTOS_IMGREPO_RES_INVALID_REPOSITORY, w)
      else
        let synset := env.getSynset repo synset_id
        if synset.id.isEmpty then (ARTOS_IMGREPO_RES_SYNSET_NOT_FOUND, w)
        else
          let a := env.addPositiveSamplesFromSynset l synset (some max_samples)
          let w1 := (w.log (.call .addPositiveSamplesFromSynset)).setLearner learner a.2
          if a.1 = 0 then (ARTOS_IMGREPO_RES_EXTRACTION_FAILED, w1)
          else (ARTOS_RES_OK, w1)

/-- Function `learner_add_jpeg` (line 434); `bboxes` is the array, `none` for `NULL`. -/
def learner_add_jpeg (env : Collab E L B F M) (learner : Nat) (img : JPEGImage)
    (bboxes : Option (Nat → FlatBoundingBox)) (num_bboxes : Nat) (w : World E L) :
    Int × World E L :=
  if !is_valid_learner_handle w learner then (ARTOS_RES_INVALID_HANDLE, w)
  else
    match w.learner learner with
    | none => (ARTOS_RES_INVALID_HANDLE, w)
    | some l =>
      if img.empty then (ARTOS_LEARN_RES_INVALID_IMG_DATA, w)
      else
        let _bboxes : List Rectangle := match bboxes with
          | some boxes => (List.range num_bboxes).map (fun i => Rectangle_of_flat (boxes i))
          | none => []
        (ARTOS_RES_OK, (w.log (.call .addPositiveSample)).setLearner learner
          (env.addPositiveSample l img _bboxes))

/-- Function `learner_add_file_jpeg` (line 364). -/
def learner_add_file_jpeg (env : Collab E L B F M) (learner : Nat) (imagefile : String)
    (bboxes : Option (Nat → FlatBoundingBox)) (num_bboxes : Nat) (w : World E L) :
    Int × World E L :=
  learner_add_jpeg env learner (env.JPEGImage_file imagefile) bboxes num_bboxes w

/-- Function `learner_add_raw` (line 370). -/
def learner_add_raw (env : Collab E L B F M) (learner : Nat) (img_data : List Nat)
    (img_width img_height : Nat) (grayscale : Bool)
    (bboxes : Option (Nat → FlatBoundingBox)) (num_bboxes : Nat) (w : World E L) :
    Int × World E L :=
  learner_add_jpeg env learner
    (env.JPEGImage_raw img_width img_height (if grayscale then 1 else 3) img_data)
    bboxes num_bboxes w

/-- Function `learner_run` (line 377); `progress_cb` is `none` for `NULL`. -/
def learner_run (env : Collab E L B F M) (learner : Nat)
    (max_aspect_clusters max_who_clusters : Nat) (progress_cb : Option progress_cb_t)
    (w : World E L) : Ret Int × World E L :=
  if !is_valid_learner_handle w learner then (.ok ARTOS_RES_INVALID_HANDLE, w)
  else
    match w.learner learner with
    | none => (.ok ARTOS_RES_INVALID_HANDLE, w)
    | some l =>
      if env.getNumSamples l = 0 then (.ok ARTOS_LEARN_RES_NO_SAMPLES, w)
      else
        let progressCB := if progress_cb.isSome then some progress_proxy else none
        let cbData : Option progress_cb_t := if progress_cb.isSome then progress_cb else none
        let r := runStage progressCB cbData (env.learn l max_aspect_clusters max_who_clusters)
          (w.log (.call .learn)).trace
        let w1 := ({ w with trace := r.2 }).setLearner learner r.1.2
        match r.1.1 with
        | .ok res => (.ok res, w1)
        | .raise .UseBeforeSetupException =>
          (.ok ARTOS_LEARN_RES_FEATURE_EXTRACTOR_NOT_READY, w1)
        | .raise e => (.raise e, w1)

/-- Function `learner_optimize_th` (line 395); `progress_cb` is `none` for `NULL`. -/
def learner_optimize_th (env : Collab E L B F M) (learner : Nat)
    (max_positive num_negative : Nat) (progress_cb : Option progress_cb_t)
    (w : World E L) : Ret Int × World E L :=
  if !is_valid_learner_handle w learner then (.ok ARTOS_RES_INVALID_HANDLE, w)
  else
    match w.learner learner with
    | none => (.ok ARTOS_RES_INVALID_HANDLE, w)
    | some l =>
      if (env.getModels l).isEmpty then (.ok ARTOS_LEARN_RES_MODEL_NOT_LEARNED, w)
      else if decide (num_negative > 0) && (env.getRepoDirectory l).isEmpty then
        (.ok ARTOS_IMGREPO_RES_INVALID_REPOSITORY, w)
      else
        let progressCB := if progress_cb.isSome then some progress_proxy else none
        let cbData : Option progress_cb_t := if progress_cb.isSome then progress_cb else none
        let r := runStage progressCB cbData (env.optimizeThreshold l max_positive num_negative)
          (w.log (.call .optimizeThreshold)).trace
        let w1 := ({ w with trace := r.2 }).setLearner learner r.1.2
        match r.1.1 with
        | .raise e => (.raise e, w1)
        | .ok _ =>
          (.ok (if progressCB.isSome && cbData.isNone then ARTOS_RES_ABORTED
            else ARTOS_RES_OK), w1)

/-- Function `learner_save` (line 410). -/
def learner_save (env : Collab E L B F M) (learner : Nat) (modelfile : String) (add : Bool)
    (w : World E L) : Int × World E L :=
  if !is_valid_learner_handle w learner then (ARTOS_RES_INVALID_HANDLE, w)
  else
    match w.learner learner with
    | none => (ARTOS_RES_INVALID_HANDLE, w)
    | some l =>
      if (env.getModels l).isEmpty then (ARTOS_LEARN_RES_MODEL_NOT_LEARNED, w)
      else
        (if env.save l modelfile add then ARTOS_RES_OK else ARTOS_RES_FILE_ACCESS_DENIED,
          w.log (.call .save))

/-- Function `learner_reset` (line 420). -/
def learner_reset (env : Collab E L B F M) (learner : Nat) (w : World E L) :
    Int × World E L :=
  if !is_valid_learner_handle w learner then (ARTOS_RES_INVALID_HANDLE, w)
  else
    match w.learner learner with
    | none => (ARTOS_RES_INVALID_HANDLE, w)
    | some l => (ARTOS_RES_OK, (w.log (.call .reset)).setLearner learner (env.reset l))

/-- Function `learn_bg` (line 460); `progress_cb` is `none` for `NULL`. -/
def learn_bg (env : Collab E L B F M) (repo_directory bg_file : String)
    (num_images max_offset : Nat) (progress_cb : Option overall_progress_cb_t)
    (accurate_autocorrelation : Bool) (w : World E L) : Ret Int × World E L :=
  if !env.hasRepositoryStructure repo_directory then
    (.ok ARTOS_IMGREPO_RES_INVALID_REPOSITORY, w)
  else
    let imgIt : MixedImageIterator := { repo_directory := repo_directory, per_synset := 1, pos := 0 }
    let progParams : progress_params :=
      { cb := progress_cb, overall_step := 0, overall_steps_total := 2, aborted := false }
    let cbArg := if progress_cb.isSome then some populate_progress else none
    let bg := env.StationaryBackground_new
    let r1 := runStage cbArg () (env.learnMean bg imgIt num_images)
      (progParams, (w.log (.call .learnMean)).trace)
    let w1 : World E L := { w with trace := r1.2.2 }
    let progParams := r1.2.1
    match r1.1.1 with
    | .raise .UseBeforeSetupException =>
      (.ok ARTOS_LEARN_RES_FEATURE_EXTRACTOR_NOT_READY, w1)
    | .raise e => (.raise e, w1)
    | .ok _ =>
      if progParams.aborted then (.ok ARTOS_RES_ABORTED, w1)
      else
        let progParams := { progParams with overall_step := progParams.overall_step + 1 }
        let r2 :=
          if accurate_autocorrelation then
            runStage cbArg () (env.learnCovariance_accurate r1.1.2.1 r1.1.2.2 num_images max_offset)
              (progParams, (w1.log (.call .learnCovariance_accurate)).trace)
          else
            runStage cbArg () (env.learnCovariance r1.1.2.1 r1.1.2.2 num_images max_offset)
              (progParams, (w1.log (.call .learnCovariance)).trace)
        let w2 : World E L := { w1 with trace := r2.2.2 }
        let progParams := r2.2.1
        match r2.1.1 with
        | .raise e => (.raise e, w2)
        | .ok _ =>
          if progParams.aborted then (.ok ARTOS_RES_ABORTED, w2)
          else
            let w3 := match progress_cb with
              | some cb => callOverall cb progParams.overall_steps_total
                  progParams.overall_steps_total 0 0 w2
              | none => w2
            (.ok (if env.writeToFile r2.1.2.1 bg_file then ARTOS_RES_OK
              else ARTOS_RES_FILE_ACCESS_DENIED), w3.log (.call .writeToFile))

end Training

/-! ## Evaluation entry points (lines 503 to 772) -/

/-- RawTestResult of the C interface. -/
structure RawTestResult where
  threshold : double
  tp : Nat
  fp : Nat
  np : Nat
deriving DecidableEq, Repr

/-- Rounding to the nearest integer, a half to the even neighbour. -/
def roundHalfEven (r : Rat) : Int :=
  if r - ⌊r⌋ < 1 / 2 then ⌊r⌋
  else if 1 / 2 < r - ⌊r⌋ then ⌊r⌋ + 1
  else if ⌊r⌋ % 2 = 0 then ⌊r⌋ else ⌊r⌋ + 1

/-- The `double` an arithmetic operation yields for the exact result `q` (IEEE 754
binary64, round to nearest, ties to even): the multiple of `2 ^ (e - 52)` nearest to `q`,
where `2 ^ e ≤ |q| < 2 ^ (e + 1)`.  The limits of the exponent are left out: the operands
of the entry points are values of type `int`, whose quotients and products are far from
them. -/
def to_double (q : Rat) : double :=
  if q = 0 then 0
  else roundHalfEven (q * (2 : Rat) ^ (52 - Int.log 2 |q|)) * (2 : Rat) ^ (Int.log 2 |q| - 52)

/-- Whether a value is in the range of the type `int` (32 bits). -/
def fits_int (v : Int) : Bool :=
  decide (-(2 ^ 31) ≤ v) && decide (v < 2 ^ 31)

/-- The C function `round` on a `double`: to the nearest integer, halves away from zero. -/
def c_round (q : double) : Int :=
  if 0 ≤ q then (2 * q.num + q.den) / (2 * q.den)
  else -((2 * (-q.num) + q.den) / (2 * q.den))

section Evaluation

variable {E L B F M : Type}

/-- The sample `evaluator_add_samples_from_synset` creates for one image of the synset
(lines 528 to 535). -/
def sampleOfSynsetImage (env : Collab E L B F M) (simg : SynsetImage) : Sample :=
  let m_bboxes := if simg.loadBoundingBoxes then simg.bboxes
    else [Rectangle.mk 0 0 simg.image.width simg.image.height]
  { m_img := none, m_simg := some simg, m_bboxes := m_bboxes,
    modelAssoc := List.replicate m_bboxes.length env.noAssoc }

/-- Function `evaluator_add_samples_from_synset` (line 503). -/
def evaluator_add_samples_from_synset (env : Collab E L B F M) (detector : Nat)
    (repo_directory synset_id : String) (num_negative : Nat) (w : World E L) :
    Int × World E L :=
  if !is_valid_detector_handle w detector then (ARTOS_RES_INVALID_HANDLE, w)
  else if !env.hasRepositoryStructure repo_directory then
    (ARTOS_IMGREPO_RES_INVALID_REPOSITORY, w)
  else
    let synset := env.getSynset repo_directory synset_id
    if synset.id.isEmpty then (ARTOS_IMGREPO_RES_SYNSET_NOT_FOUND, w)
    else
      let positives := mapGet w.eval_positive_samples detector ++
        (synset.imagesNoBoxes.filter (fun simg => !simg.image.empty)).map
          (sampleOfSynsetImage env)
      let w1 := { w with
        eval_positive_samples := mapSet w.eval_positive_samples detector positives }
      if num_negative > 0 then
        let negatives := mapGet w1.eval_negative_samples detector ++
          (((env.getSynsets repo_directory).filter (fun negSynset => negSynset.id != synset.id)).map
            (fun negSynset => (negSynset.images.map (fun simg => simg.image)).filter
              (fun img => !img.empty))).flatten
        (ARTOS_RES_OK, { w1 with
          eval_negative_samples := mapSet w1.eval_negative_samples detector negatives })
      else (ARTOS_RES_OK, w1)

/-- The statements of the loop of `evaluator_add_positive_file` for one object (lines 581
to 585): the scaled box.  Each product is a `double`, `round` yields an integer, and the
setters take an `int`: the model gives the integer itself, which is what the program stores
when it is in the range of `int` (`fits_int`; outside that range the conversion is
undefined). -/
def scaleBox (scale : double) (bndbox : Rectangle) : Rectangle :=
  { x := c_round (to_double (bndbox.x * scale))
    y := c_round (to_double (bndbox.y * scale))
    width := c_round (to_double (bndbox.width * scale))
    height := c_round (to_double (bndbox.height * scale)) }

/-- The condition of line 586 under which a scaled box is stored. -/
def keepBox (img : JPEGImage) (bbox : Rectangle) : Bool :=
  decide (bbox.x > 0) && decide (bbox.y > 0) && decide (bbox.x < img.width)
    && decide (bbox.y < img.height) && decide (bbox.width > 0) && decide (bbox.height > 0)

/-- Function `evaluator_add_positive_file` (line 561). -/
def evaluator_add_positive_file (env : Collab E L B F M) (detector : Nat)
    (imagefile annotation_file : String) (w : World E L) : Int × World E L :=
  if !is_valid_detector_handle w detector then (ARTOS_RES_INVALID_HANDLE, w)
  else
    let img := env.JPEGImage_file imagefile
    if img.empty then (ARTOS_DETECT_RES_INVALID_IMG_DATA, w)
    else
      let scene := env.Scene_file annotation_file
      if scene.empty then (ARTOS_DETECT_RES_INVALID_ANNOTATIONS, w)
      else
        let scale : double := to_double ((scene.width : double) / (img.width : double))
        let m_bboxes := (scene.objects.map (fun obj => scaleBox scale obj.bndbox)).filter
          (keepBox img)
        let s : Sample :=
          { m_img := some img, m_simg := none, m_bboxes := m_bboxes,
            modelAssoc := List.replicate m_bboxes.length env.noAssoc }
        (ARTOS_RES_OK, { w with
          eval_positive_samples := mapSet w.eval_positive_samples detector
            (mapGet w.eval_positive_samples detector ++ [s]) })

/-- Function `evaluator_add_positive_jpeg` (line 597); `bboxes` is the array, `none` for
`NULL`. -/
def evaluator_add_positive_jpeg (env : Collab E L B F M) (detector : Nat) (img : JPEGImage)
    (bboxes : Option (Nat → FlatBoundingBox)) (num_bboxes : Nat) (w : World E L) :
    Int × World E L :=
  if !is_valid_detector_handle w detector then (ARTOS_RES_INVALID_HANDLE, w)
  else if img.empty then (ARTOS_DETECT_RES_INVALID_IMG_DATA, w)
  else
    let m_bboxes : List Rectangle := match bboxes with
      | some boxes =>
        if num_bboxes > 0 then (List.range num_bboxes).map (fun i =>
          Rectangle_of_flat (boxes i))
        else [Rectangle.mk 0 0 img.width img.height]
      | none => [Rectangle.mk 0 0 img.width img.height]
    let s : Sample :=
      { m_img := some img, m_simg := none, m_bboxes := m_bboxes,
        modelAssoc := List.replicate m_bboxes.length env.noAssoc }
    (ARTOS_RES_OK, { w with
      eval_positive_samples := mapSet w.eval_positive_samples detector
        (mapGet w.eval_positive_samples detector ++ [s]) })

/-- Function `evaluator_add_positive_file_jpeg` (line 620). -/
def evaluator_add_positive_file_jpeg (env : Collab E L B F M) (detector : Nat)
    (imagefile : String) (bboxes : Option (Nat → FlatBoundingBox)) (num_bboxes : Nat)
    (w : World E L) : Int × World E L :=
  evaluator_add_positive_jpeg env detector (env.JPEGImage_file imagefile) bboxes num_bboxes w

/-- Function `evaluator_add_positive_raw` (line 625). -/
def evaluator_add_positive_raw (env : Collab E L B F M) (detector : Nat)
    (img_data : List Nat) (img_width img_height : Nat) (grayscale : Bool)
    (bboxes : Option (Nat → FlatBoundingBox)) (num_bboxes : Nat) (w : World E L) :
    Int × World E L :=
  evaluator_add_positive_jpeg env detector
    (env.JPEGImage_raw img_width img_height (if grayscale then 1 else 3) img_data)
    bboxes num_bboxes w

/-- Function `evaluator_add_negative_file_jpeg` (line 632). -/
def evaluator_add_negative_file_jpeg (env : Collab E L B F M) (detector : Nat)
    (imagefile : String) (w : World E L) : Int × World E L :=
  if !is_valid_detector_handle w detector then (ARTOS_RES_INVALID_HANDLE, w)
  else
    let img := env.JPEGImage_file imagefile
    if img.empty then (ARTOS_DETECT_RES_INVALID_IMG_DATA, w)
    else
      (ARTOS_RES_OK, { w with
        eval_negative_samples := mapSet w.eval_negative_samples detector
          (mapGet w.eval_negative_samples detector ++ [img]) })

/-- Function `evaluator_add_negative_raw` (line 645). -/
def evaluator_add_negative_raw (env : Collab E L B F M) (detector : Nat)
    (img_data : List Nat) (img_width img_height : Nat) (grayscale : Bool) (w : World E L) :
    Int × World E L :=
  if !is_valid_detector_handle w detector then (ARTOS_RES_INVALID_HANDLE, w)
  else
    let img := env.JPEGImage_raw img_width img_height (if grayscale then 1 else 3) img_data
    if img.empty then (ARTOS_DETECT_RES_INVALID_IMG_DATA, w)
    else
      (ARTOS_RES_OK, { w with
        eval_negative_samples := mapSet w.eval_negative_samples detector
          (mapGet w.eval_negative_samples detector ++ [img]) })

/-- Function `evaluator_run` (line 659); `progress_cb` is `none` for `NULL`. -/
def evaluator_run (env : Collab E L B F M) (detector : Nat) (granularity : Nat)
    (eq_overlap : double) (progress_cb : Option progress_cb_t) (w : World E L) :
    Int × World E L :=
  if !is_valid_detector_handle w detector then (ARTOS_RES_INVALID_HANDLE, w)
  else
    match w.detector detector with
    | none => (ARTOS_RES_INVALID_HANDLE, w)
    | some det =>
      if env.getNumModels det = 0 then (ARTOS_DETECT_RES_NO_MODELS, w)
      else
        let w1 := { w with eval_positive_samples := mapTouch w.eval_positive_samples detector }
        if (mapGet w1.eval_positive_samples detector).isEmpty then
          (ARTOS_DETECT_RES_NO_IMAGES, w1)
        else
          let progressCB := if progress_cb.isSome then some progress_proxy else none
          let cbData : Option progress_cb_t := if progress_cb.isSome then progress_cb else none
          let det1 := env.setEqOverlap det eq_overlap
          let w2 := w1.log (.call .setEqOverlap)
          let w3 := { w2 with eval_negative_samples := mapTouch w2.eval_negative_samples detector }
          let negatives := mapGet w3.eval_negative_samples detector
          let r := runStage progressCB cbData
            (env.testModels det1 (mapGet w3.eval_positive_samples detector) 0
              (if !negatives.isEmpty then some negatives else none) granularity)
            (w3.log (.call .testModels)).trace
          (ARTOS_RES_OK, ({ w3 with trace := r.2 }).setDetector detector r.1)

/-- The loop of `evaluator_get_raw_results` (line 695) from index `i` on: the buffer and
the final value of `i`. -/
def raw_results_loop (result_buf_size : Nat) :
    List TestResult → Nat → (Nat → RawTestResult) → (Nat → RawTestResult) × Nat
  | [], i, buf => (buf, i)
  | r :: rest, i, buf =>
    if i < result_buf_size then
      raw_results_loop result_buf_size rest (i + 1)
        (Function.update buf i { threshold := r.threshold, tp := r.tp, fp := r.fp, np := r.np })
    else (buf, i)

/-- Function `evaluator_get_raw_results` (line 681); `result_buf` is `none` for `NULL`.
The status, the buffer and `*result_buf_size` after the call, and the world.  The
assignment `*result_buf_size = results.size()` narrows to `unsigned int`. -/
def evaluator_get_raw_results (env : Collab E L B F M) (detector : Nat)
    (result_buf : Option (Nat → RawTestResult)) (result_buf_size : Nat) (model_index : Nat)
    (w : World E L) : Int × Option (Nat → RawTestResult) × Nat × World E L :=
  if !is_valid_detector_handle w detector then
    (ARTOS_RES_INVALID_HANDLE, result_buf, result_buf_size, w)
  else
    match w.detector detector with
    | none => (ARTOS_RES_INVALID_HANDLE, result_buf, result_buf_size, w)
    | some det =>
      if model_index ≥ env.getNumModels det then
        (ARTOS_RES_INDEX_OUT_OF_BOUNDS, result_buf, result_buf_size, w)
      else
        let results := env.getResults det model_index
        let status := if results.isEmpty then ARTOS_DETECT_RES_NO_RESULTS else ARTOS_RES_OK
        match result_buf with
        | some buf =>
          let out := raw_results_loop result_buf_size results 0 buf
          (status, some out.1, out.2, w)
        | none => (status, none, results.length % UINT_SIZE, w)

/-- Function `evaluator_get_max_fmeasure` (line 710); an output parameter is `none` for
`NULL` and else holds the value stored there. -/
def evaluator_get_max_fmeasure (env : Collab E L B F M) (detector : Nat)
    (fmeasure threshold : Option double) (model_index : Nat) (w : World E L) :
    Int × Option double × Option double × World E L :=
  if !is_valid_detector_handle w detector then
    (ARTOS_RES_INVALID_HANDLE, fmeasure, threshold, w)
  else
    match w.detector detector with
    | none => (ARTOS_RES_INVALID_HANDLE, fmeasure, threshold, w)
    | some det =>
      if model_index ≥ env.getNumModels det then
        (ARTOS_RES_INDEX_OUT_OF_BOUNDS, fmeasure, threshold, w)
      else if (env.getResults det model_index).isEmpty then
        (ARTOS_DETECT_RES_NO_RESULTS, fmeasure, threshold, w)
      else
        let fm := env.getMaxFMeasure det model_index
        (ARTOS_RES_OK, fmeasure.map (fun _ => fm.2), threshold.map (fun _ => fm.1), w)

/-- Function `evaluator_get_fmeasure_at` (line 729). -/
def evaluator_get_fmeasure_at (env : Collab E L B F M) (detector : Nat) (threshold : double)
    (fmeasure : Option double) (model_index : Nat) (w : World E L) :
    Int × Option double × World E L :=
  if !is_valid_detector_handle w detector then (ARTOS_RES_INVALID_HANDLE, fmeasure, w)
  else
    match w.detector detector with
    | none => (ARTOS_RES_INVALID_HANDLE, fmeasure, w)
    | some det =>
      if model_index ≥ env.getNumModels det then
        (ARTOS_RES_INDEX_OUT_OF_BOUNDS, fmeasure, w)
      else if (env.getResults det model_index).isEmpty then
        (ARTOS_DETECT_RES_NO_RESULTS, fmeasure, w)
      else
        (ARTOS_RES_OK, fmeasure.map (fun _ => env.getFMeasureAt det threshold model_index), w)

/-- Function `evaluator_get_ap` (line 745). -/
def evaluator_get_ap (env : Collab E L B F M) (detector : Nat) (ap : Option double)
    (model_index : Nat) (w : World E L) : Int × Option double × World E L :=
  if !is_valid_detector_handle w detector then (ARTOS_RES_INVALID_HANDLE, ap, w)
  else
    match w.detector detector with
    | none => (ARTOS_RES_INVALID_HANDLE, ap, w)
    | some det =>
      if model_index ≥ env.getNumModels det then (ARTOS_RES_INDEX_OUT_OF_BOUNDS, ap, w)
      else if (env.getResults det model_index).isEmpty then
        (ARTOS_DETECT_RES_NO_RESULTS, ap, w)
      else (ARTOS_RES_OK, ap.map (fun _ => env.computeAveragePrecision det model_index), w)

/-- Function `evaluator_dump_results` (line 761). -/
def evaluator_dump_results (env : Collab E L B F M) (detector : Nat) (dump_file : String)
    (w : World E L) : Int × World E L :=
  if !is_valid_detector_handle w detector then (ARTOS_RES_INVALID_HANDLE, w)
  else
    match w.detector detector with
    | none => (ARTOS_RES_INVALID_HANDLE, w)
    | some det =>
      if (env.getAllResults det).isEmpty then (ARTOS_DETECT_RES_NO_RESULTS, w)
      else
        (if env.dumpTestResults det dump_file then ARTOS_RES_OK
          else ARTOS_RES_FILE_ACCESS_DENIED, w.log (.call .dumpTestResults))

end Evaluation

/-! ## Sequences of registry calls -/

/-- One call of a function that creates or destroys a session, with its arguments (for a
create also the collaborators it runs against). -/
inductive RegistryOp (E L B F M : Type) where
  | create_detector (env : Collab E L B F M) (overlap : double) (interval : Int) (debug : Bool)
  | create_learner (env : Collab E L B F M) (bg_file repo_directory : String)
      (th_opt_loocv debug : Bool)
  | destroy_detector (detector : Nat)
  | destroy_learner (learner : Nat)

/-- What a registry call returned: the handle of a create, nothing for a destroy. -/
inductive Created where
  | detector (handle : Nat)
  | learner (handle : Nat)
  | nothing
deriving DecidableEq, Repr

section Sequences

variable {E L B F M : Type}

/-- Perform one registry call. -/
def RegistryOp.apply (op : RegistryOp E L B F M) (w : World E L) : Created × World E L :=
  match op with
  | .create_detector env overlap interval debug =>
    (.detector (Artos.create_detector env overlap interval debug w).1,
      (Artos.create_detector env overlap interval debug w).2)
  | .create_learner env bg_file repo_directory th_opt_loocv debug =>
    (.learner (Artos.create_learner env bg_file repo_directory th_opt_loocv debug w).1,
      (Artos.create_learner env bg_file repo_directory th_opt_loocv debug w).2)
  | .destroy_detector detector => (.nothing, Artos.destroy_detector detector w)
  | .destroy_learner learner => (.nothing, Artos.destroy_learner learner w)

/-- Perform a finite sequence of registry calls, first to last: what each returned and
the world after the last. -/
def runOps : List (RegistryOp E L B F M) → World E L → List Created × World E L
  | [], w => ([], w)
  | op :: ops, w => ((op.apply w).1 :: (runOps ops (op.apply w).2).1, (runOps ops (op.apply w).2).2)

end Sequences

/-! ## Concrete collaborators for evaluating the entry points -/

/-- Collaborators over natural numbers.  An evaluator is its number of models.  A learner
`l` has an empty background when `l = 0`, and else `(l - 1) % 100` samples and
`(l - 1) / 100` learned models; `learn` adds one model and returns `ARTOS_RES_OK`.  Every
routine that takes a progress callback reports progress once, as `(1, 2)`. -/
def demoEnv : Collab Nat Nat Nat Nat Nat :=
  { new_ModelEvaluator := fun _ _ _ _ => some 0
    push_back_ok := fun _ => true
    addModel := fun e _ _ _ _ => (0, e + 1)
    addModels := fun e _ => (0, e + 1)
    addModelMixture := fun e _ _ _ _ => (0, e + 1)
    differentFeatureExtractors := fun _ => 1
    detectMax := fun e _ => (0, ⟨[], [], 0, ⟨0, 0, 0, 0⟩⟩, e)
    detect := fun e _ => (0, [], e)
    getNumModels := fun e => e
    setEqOverlap := fun e _ => e
    testModels := fun e _ _ _ _ => .report 1 2 (fun _ => .done e)
    getResults := fun _ _ => []
    getAllResults := fun _ => []
    getMaxFMeasure := fun _ _ => (0, 0)
    getFMeasureAt := fun _ _ _ => 0
    computeAveragePrecision := fun _ _ => 0
    dumpTestResults := fun _ _ => true
    new_ImageNetModelLearner := fun bg_file _ _ _ => if bg_file.isEmpty then 0 else 1
    mk_ImageNetModelLearner := fun _ _ _ _ => 1
    mk_ModelLearner := fun _ _ _ => 1
    getBackground_empty := fun l => l == 0
    getRepoDirectory := fun _ => "repo"
    getFeatureExtractor := fun _ => 0
    getModels := fun l => List.replicate ((l - 1) / 100) 0
    getThresholds := fun l => List.replicate ((l - 1) / 100) 0
    getNumSamples := fun l => (l - 1) % 100
    addPositiveSamplesFromSynset := fun l _ _ => (1, l + 1)
    addPositiveSample := fun l _ _ => l + 1
    addPositiveSample1 := fun l _ _ => l + 1
    learn := fun l _ _ => .report 1 2 (fun _ => .done (.ok 0, l + 100))
    optimizeThreshold := fun l _ _ => .report 1 2 (fun _ => .done (.ok (), l))
    optimizeThreshold0 := fun l => .report 1 2 (fun _ => .done (.ok (), l))
    save := fun _ _ _ => true
    reset := fun _ => 1
    hasRepositoryStructure := fun _ => true
    getSynset := fun _ id => ⟨id, [], []⟩
    getSynsets := fun _ => []
    JPEGImage_file := fun _ => ⟨false, 4, 4⟩
    JPEGImage_raw := fun w h _ _ => ⟨false, w, h⟩
    Scene_file := fun _ => ⟨false, 4, []⟩
    StationaryBackground_file := fun bg_file => bg_file.length
    StationaryBackground_new := 0
    bg_empty := fun b => b == 0
    learnMean := fun b it _ => .report 1 2 (fun _ => .done (.ok (), b + 1, it))
    learnCovariance := fun b it _ _ => .report 1 2 (fun _ => .done (.ok (), b, it))
    learnCovariance_accurate := fun b it _ _ => .report 1 2 (fun _ => .done (.ok (), b, it))
    writeToFile := fun _ _ => true
    Rectangle_new := ⟨0, 0, 0, 0⟩
    noAssoc := 4294967295
    sizeof_classname := 44
    sizeof_synset_id := 16
    sort_ties := fun detections => detections }

/-- The collaborators of `demoEnv`, except that `optimizeThreshold` and the two
`learnCovariance` variants raise the `UseBeforeSetupException` of the feature extractor. -/
def raisingEnv : Collab Nat Nat Nat Nat Nat :=
  { demoEnv with
    optimizeThreshold := fun l _ _ => .done (.raise .UseBeforeSetupException, l)
    optimizeThreshold0 := fun l => .done (.raise .UseBeforeSetupException, l)
    learnCovariance := fun b it _ _ => .done (.raise .UseBeforeSetupException, b, it)
    learnCovariance_accurate := fun b it _ _ => .done (.raise .UseBeforeSetupException, b, it) }

/-- The collaborators of `demoEnv`, except that `learn` and `learnMean` raise the
`UseBeforeSetupException` of the feature extractor. -/
def raisingLearnEnv : Collab Nat Nat Nat Nat Nat :=
  { demoEnv with
    learn := fun l _ _ => .done (.raise .UseBeforeSetupException, l)
    learnMean := fun b it _ => .done (.raise .UseBeforeSetupException, b, it) }

/-- A world with one live detector (one model, one positive sample) and one live learner
(one sample, one learned model). -/
def demoWorld : World Nat Nat :=
  { detectors := [some 1]
    learners := [some 102]
    eval_positive_samples := [(1, [⟨some ⟨false, 4, 4⟩, none, [⟨0, 0, 4, 4⟩], [4294967295]⟩])]
    eval_negative_samples := []
    trace := [] }

/-- A world with two live detectors (no model; one model and no sample) and two live
learners (one sample and no learned model; no sample). -/
def freshWorld : World Nat Nat :=
  { detectors := [some 0, some 1]
    learners := [some 2, some 1]
    eval_positive_samples := []
    eval_negative_samples := []
    trace := [] }

/-- A user callback that always asks to stop. -/
def alwaysStop : progress_cb_t := fun _ _ _ => false

/-- An overall user callback that always asks to stop. -/
def alwaysStopOverall : overall_progress_cb_t := fun _ _ _ _ _ => false

/-! ## Predicates and inputs used in the statements -/

/-- The slot of handle `h` in a table is a tombstone. -/
def Tombstone {α : Type} (table : List (Option α)) (h : Nat) : Prop :=
  0 < h ∧ table.get? (h - 1) = some none

/-- A sequence of registry calls that creates and destroys sessions of both kinds. -/
def demoOps : List (RegistryOp Nat Nat Nat Nat Nat) :=
  [.create_detector demoEnv 0 1 false, .destroy_detector 2,
    .create_learner demoEnv "bg" "" false false, .destroy_learner 2,
    .create_learner demoEnv "" "" false false, .create_detector demoEnv 0 1 false]

/-- Whether an event is an invocation of the overall progress callback. -/
def Event.isOverall : Event → Bool
  | .overall _ _ _ _ _ => true
  | _ => false

/-- Whether no invocation of the overall progress callback in a trace returned false. -/
def allContinue : List Event → Bool
  | [] => true
  | .overall _ _ _ _ false :: _ => false
  | _ :: rest => allContinue rest

/-- Whether, in a trace, no invocation of the overall progress callback follows an
invocation that returned false. -/
def quietAfterAbort : List Event → Bool
  | [] => true
  | .overall _ _ _ _ false :: rest => rest.all (fun e => !e.isOverall)
  | _ :: rest => quietAfterAbort rest

/-- The invocations of the overall progress callback in a trace that report an overall
step of at least 1 and below the total: in `learn_imagenet` and `learn_files_jpeg` these
are the invocations made through `populate_progress`. -/
def stageEvents (tr : List Event) : List Event :=
  tr.filter (fun e => match e with
    | .overall overall_step overall_total _ _ _ =>
      decide (0 < overall_step) && decide (overall_step < overall_total)
    | _ => false)

/-- A struct `progress_params` whose flag `aborted` is set. -/
def latchedParams : progress_params :=
  { cb := some alwaysStopOverall, overall_step := 1, overall_steps_total := 2, aborted := true }

/-- The states `destroy_detector` (line 53) passes through on a valid handle, one after
each statement of its `try` block: after `delete detectors[detector - 1]`, after
`detectors[detector - 1] = NULL`, after the loop that deletes the samples, after
`eval_positive_samples.erase(detector)` and after `eval_negative_samples.erase(detector)`. -/
def destroy_detector_trail {E L : Type} (detector : Nat) (w : World E L) : List (World E L) :=
  let w1 := w.log (.call .deleteDetector)
  let w2 := { w1 with detectors := w1.detectors.set (detector - 1) none }
  let w3 := { w2 with
    eval_positive_samples := mapTouch w2.eval_positive_samples detector
    trace := w2.trace ++
      (mapGet (mapTouch w2.eval_positive_samples detector) detector).map
        (fun _ => Event.call .deleteSample) }
  let w4 := { w3 with eval_positive_samples := mapErase w3.eval_positive_samples detector }
  let w5 := { w4 with eval_negative_samples := mapErase w4.eval_negative_samples detector }
  [w1, w2, w3, w4, w5]

/-- How many samples were deleted according to a trace. -/
def deletedSamples (tr : List Event) : Nat :=
  tr.count (Event.call .deleteSample)

/-- Three candidate hypotheses, not in the order of their scores, with the names "cat",
"dog", "cow" and the synset ids "n1", "n2", "n3" (chars in ASCII). -/
def demoCandidates : List Detection :=
  [⟨[99, 97, 116], [110, 49], 1, ⟨1, 2, 3, 4⟩⟩, ⟨[100, 111, 103], [110, 50], 3, ⟨5, 6, 7, 8⟩⟩,
    ⟨[99, 111, 119], [110, 51], 2, ⟨0, 0, 2, 2⟩⟩]

/-- The collaborators of `demoEnv`, except that `detect` yields `demoCandidates` and
`detectMax` the one of them with the highest score. -/
def detectEnv : Collab Nat Nat Nat Nat Nat :=
  { demoEnv with
    detect := fun e _ => (0, demoCandidates, e)
    detectMax := fun e _ => (0, ⟨[100, 111, 103], [110, 50], 3, ⟨5, 6, 7, 8⟩⟩, e) }

/-- The collaborators of `demoEnv`, except that `detect` and `detectMax` fail with
`ARTOS_DETECT_RES_NO_MODELS`. -/
def failingDetectEnv : Collab Nat Nat Nat Nat Nat :=
  { demoEnv with
    detect := fun e _ => (ARTOS_DETECT_RES_NO_MODELS, [], e)
    detectMax := fun e _ => (ARTOS_DETECT_RES_NO_MODELS, ⟨[], [], 0, ⟨0, 0, 0, 0⟩⟩, e) }

/-- A result curve of two rows. -/
def demoCurve : List TestResult :=
  [⟨2, 1, 0, 3⟩, ⟨1, 2, 1, 3⟩]

/-- The collaborators of `demoEnv`, except that every model has the result curve
`demoCurve`. -/
def resultsEnv : Collab Nat Nat Nat Nat Nat :=
  { demoEnv with
    getResults := fun _ _ => demoCurve
    getAllResults := fun e => List.replicate e demoCurve
    getMaxFMeasure := fun _ _ => (2, 1)
    getFMeasureAt := fun _ _ _ => 1
    computeAveragePrecision := fun _ _ => 1 }

/-- A buffer of detections filled with empty entries. -/
def emptyDetectionBuf : Nat → FlatDetection :=
  fun _ => ⟨[], [], 0, 0, 0, 0, 0⟩

/-- A buffer of result rows filled with zero rows. -/
def emptyResultBuf : Nat → RawTestResult :=
  fun _ => ⟨0, 0, 0, 0⟩

/-- An image that failed to decode. -/
def emptyImage : JPEGImage := ⟨true, 0, 0⟩

/-- An array of bounding boxes with fields of 2^31 and more. -/
def largeBoxes : Nat → FlatBoundingBox :=
  fun _ => ⟨4294967295, 2147483648, 3000000000, 4⟩

/-- An array of bounding boxes with small fields. -/
def smallBoxes : Nat → FlatBoundingBox :=
  fun i => ⟨i, 1, 2, 3⟩

/-- The overall steps the invocations of the overall progress callback in a trace report,
in the order of the invocations. -/
def overallSteps : List Event → List Nat
  | [] => []
  | .overall overall_step _ _ _ _ :: rest => overall_step :: overallSteps rest
  | _ :: rest => overallSteps rest

/-- The last invocation of the overall progress callback in a trace, if there is one. -/
def lastOverall (tr : List Event) : Option Event :=
  (tr.filter Event.isOverall).getLast?

/-- Whether every invocation of the overall progress callback in a trace reports the
total `total`, an overall step of at least `lo` and at most `total`, and an overall step
that is not below the step of the invocation before it. -/
def stepsMonotone (total : Nat) : Nat → List Event → Bool
  | _, [] => true
  | lo, .overall overall_step overall_total _ _ _ :: rest =>
    decide (lo ≤ overall_step) && decide (overall_step ≤ total)
      && decide (overall_total = total) && stepsMonotone total overall_step rest
  | lo, _ :: rest => stepsMonotone total lo rest

/-- Whether the invocations of the overall progress callback in a trace of
`learn_imagenet` or `learn_files_jpeg` report the overall step of the phase they fall in:
`phase` at first, 1 once `learn` was entered, 2 once `optimizeThreshold` was entered and
`total` once `save` was entered. -/
def phaseSteps (total : Nat) : Nat → List Event → Bool
  | _, [] => true
  | _, .call .learn :: rest => phaseSteps total 1 rest
  | _, .call .optimizeThreshold :: rest => phaseSteps total 2 rest
  | _, .call .save :: rest => phaseSteps total total rest
  | phase, .overall overall_step _ _ _ _ :: rest =>
    decide (overall_step = phase) && phaseSteps total phase rest
  | phase, _ :: rest => phaseSteps total phase rest

/-- An overall user callback that always asks to go on. -/
def alwaysGoOverall : overall_progress_cb_t := fun _ _ _ _ _ => true

/-- The collaborators of `demoEnv`, except that every image file decodes to an image of
100 x 100 pixels and every annotation file describes a scene of width 200 with four
objects: one as wide as the scene, one at the left edge, one inside and one whose scaled
box starts beyond the image. -/
def annotatedEnv : Collab Nat Nat Nat Nat Nat :=
  { demoEnv with
    JPEGImage_file := fun _ => ⟨false, 100, 100⟩
    Scene_file := fun _ =>
      ⟨false, 200, [⟨⟨10, 10, 200, 50⟩⟩, ⟨⟨0, 30, 20, 20⟩⟩, ⟨⟨40, 30, 20, 20⟩⟩,
        ⟨⟨60, 10, 5, 5⟩⟩]⟩ }

/-- The collaborators of `demoEnv`, except that every image file decodes to an image of
600 x 600 pixels and every annotation file describes a scene of width 1300 with two
objects, the second at the left edge. -/
def roundingEnv : Collab Nat Nat Nat Nat Nat :=
  { demoEnv with
    JPEGImage_file := fun _ => ⟨false, 600, 600⟩
    Scene_file := fun _ => ⟨false, 1300, [⟨⟨100, 100, 27, 27⟩⟩, ⟨⟨0, 100, 27, 27⟩⟩]⟩ }

/-- Two candidate hypotheses of the same score, with the names "a" and "b". -/
def tiedCandidates : List Detection :=
  [⟨[97], [], 1, ⟨1, 1, 2, 2⟩⟩, ⟨[98], [], 1, ⟨3, 3, 2, 2⟩⟩]

/-- The collaborators of `demoEnv`, except that `std::sort` leaves detections that compare
equal in the reverse of their order in the input. -/
def reverseTiesEnv : Collab Nat Nat Nat Nat Nat :=
  { demoEnv with sort_ties := List.reverse }

/-! ## Handle validity and the registry calls -/

section RegistryLemmas

variable {E L B F M : Type}

/-- A handle is valid exactly when it is positive and its slot holds an object. -/
theorem is_valid_detector_handle_iff (w : World E L) (h : Nat) :
    is_valid_detector_handle w h = true ↔
      0 < h ∧ ∃ det, w.detectors.get? (h - 1) = some (some det) := by
  unfold is_valid_detector_handle World.detector
  simp only [Bool.and_eq_true, decide_eq_true_eq, List.getD_eq_getElem?_getD, List.get?_eq_getElem?]
  constructor
  · rintro ⟨⟨h0, _⟩, h2⟩
    refine ⟨h0, ?_⟩
    cases hg : w.detectors[h - 1]? with
    | none => simp [hg] at h2
    | some o =>
      cases o with
      | none => simp [hg] at h2
      | some det => exact ⟨det, rfl⟩
  · rintro ⟨h0, det, hd⟩
    have hlt : h - 1 < w.detectors.length := by
      rcases List.getElem?_eq_some_iff.mp hd with ⟨hl, _⟩
      exact hl
    refine ⟨⟨h0, by omega⟩, ?_⟩
    simp [hd]

theorem is_valid_learner_handle_iff (w : World E L) (h : Nat) :
    is_valid_learner_handle w h = true ↔
      0 < h ∧ ∃ l, w.learners.get? (h - 1) = some (some l) := by
  unfold is_valid_learner_handle World.learner
  simp only [Bool.and_eq_true, decide_eq_true_eq, List.getD_eq_getElem?_getD, List.get?_eq_getElem?]
  constructor
  · rintro ⟨⟨h0, _⟩, h2⟩
    refine ⟨h0, ?_⟩
    cases hg : w.learners[h - 1]? with
    | none => simp [hg] at h2
    | some o =>
      cases o with
      | none => simp [hg] at h2
      | some det => exact ⟨det, rfl⟩
  · rintro ⟨h0, det, hd⟩
    have hlt : h - 1 < w.learners.length := by
      rcases List.getElem?_eq_some_iff.mp hd with ⟨hl, _⟩
      exact hl
    refine ⟨⟨h0, by omega⟩, ?_⟩
    simp [hd]

theorem Tombstone.append {α : Type} {table : List (Option α)} {h : Nat}
    (ht : Tombstone table h) (x : Option α) : Tombstone (table ++ [x]) h := by
  refine ⟨ht.1, ?_⟩
  have h2 := ht.2
  rw [List.get?_eq_getElem?] at h2 ⊢
  have hlt : h - 1 < table.length := (List.getElem?_eq_some_iff.mp h2).1
  rw [List.getElem?_append_left hlt]
  exact h2

theorem Tombstone.set_none {α : Type} {table : List (Option α)} {h : Nat}
    (ht : Tombstone table h) (j : Nat) : Tombstone (table.set j none) h := by
  refine ⟨ht.1, ?_⟩
  have h2 := ht.2
  rw [List.get?_eq_getElem?] at h2 ⊢
  have hlt : h - 1 < table.length := (List.getElem?_eq_some_iff.mp h2).1
  rw [List.getElem?_set]
  split
  · next hj => subst hj; simp [hlt]
  · exact h2

theorem Tombstone.le_length {α : Type} {table : List (Option α)} {h : Nat}
    (ht : Tombstone table h) : h ≤ table.length := by
  have h2 := ht.2
  rw [List.get?_eq_getElem?] at h2
  have hlt : h - 1 < table.length := (List.getElem?_eq_some_iff.mp h2).1
  have := ht.1
  omega

theorem not_valid_detector_of_tombstone {w : World E L} {h : Nat}
    (ht : Tombstone w.detectors h) : is_valid_detector_handle w h = false := by
  cases hv : is_valid_detector_handle w h with
  | false => rfl
  | true =>
    rcases (is_valid_detector_handle_iff w h).mp hv with ⟨_, det, hd⟩
    rw [ht.2] at hd
    cases hd

theorem not_valid_learner_of_tombstone {w : World E L} {h : Nat}
    (ht : Tombstone w.learners h) : is_valid_learner_handle w h = false := by
  cases hv : is_valid_learner_handle w h with
  | false => rfl
  | true =>
    rcases (is_valid_learner_handle_iff w h).mp hv with ⟨_, det, hd⟩
    rw [ht.2] at hd
    cases hd

/-- What `destroy_detector` does to the table of detectors. -/
theorem destroy_detector_detectors (w : World E L) (h : Nat) :
    (destroy_detector h w).detectors =
      if is_valid_detector_handle w h then w.detectors.set (h - 1) none else w.detectors := by
  unfold destroy_detector
  split <;> simp [World.log]

theorem destroy_detector_learners (w : World E L) (h : Nat) :
    (destroy_detector h w).learners = w.learners := by
  unfold destroy_detector
  split <;> simp [World.log]

theorem destroy_learner_learners (w : World E L) (h : Nat) :
    (destroy_learner h w).learners =
      if is_valid_learner_handle w h then w.learners.set (h - 1) none else w.learners := by
  unfold destroy_learner
  split <;> simp [World.log]

theorem destroy_learner_detectors (w : World E L) (h : Nat) :
    (destroy_learner h w).detectors = w.detectors := by
  unfold destroy_learner
  split <;> simp [World.log]

/-- What `create_detector` does: it fails with 0 and the same tables, or appends an
object and returns the new length as an `unsigned int`. -/
theorem create_detector_cases (env : Collab E L B F M) (overlap : double) (interval : Int)
    (debug : Bool) (w : World E L) :
    ((create_detector env overlap interval debug w).1 = 0 ∧
      (create_detector env overlap interval debug w).2.detectors = w.detectors ∧
      (create_detector env overlap interval debug w).2.learners = w.learners) ∨
    (∃ det, (create_detector env overlap interval debug w).1
        = (w.detectors.length + 1) % UINT_SIZE ∧
      (create_detector env overlap interval debug w).2.detectors = w.detectors ++ [some det] ∧
      (create_detector env overlap interval debug w).2.learners = w.learners) := by
  unfold create_detector
  cases env.new_ModelEvaluator overlap overlap interval debug with
  | none => left; simp
  | some det =>
    cases hp : env.push_back_ok w.detectors.length with
    | false => left; simp [World.log]
    | true => right; exact ⟨det, by simp⟩

theorem create_learner_cases (env : Collab E L B F M) (bg_file repo_directory : String)
    (th_opt_loocv debug : Bool) (w : World E L) :
    ((create_learner env bg_file repo_directory th_opt_loocv debug w).1 = 0 ∧
      (create_learner env bg_file repo_directory th_opt_loocv debug w).2.learners = w.learners ∧
      (create_learner env bg_file repo_directory th_opt_loocv debug w).2.detectors
        = w.detectors) ∨
    (∃ l, (create_learner env bg_file repo_directory th_opt_loocv debug w).1
        = (w.learners.length + 1) % UINT_SIZE ∧
      (create_learner env bg_file repo_directory th_opt_loocv debug w).2.learners
        = w.learners ++ [some l] ∧
      (create_learner env bg_file repo_directory th_opt_loocv debug w).2.detectors
        = w.detectors) := by
  cases hb : env.getBackground_empty (env.new_ImageNetModelLearner bg_file
      (if (!env.hasRepositoryStructure repo_directory) = true then "" else repo_directory)
      th_opt_loocv debug) with
  | true =>
    left
    simp only [Bool.not_eq_true'] at hb
    simp [create_learner, hb, World.log]
  | false =>
    right
    simp only [Bool.not_eq_true'] at hb
    exact ⟨env.new_ImageNetModelLearner bg_file
      (if env.hasRepositoryStructure repo_directory = false then "" else repo_directory)
      th_opt_loocv debug, by simp [create_learner, hb]⟩


/-- A registry call leaves a tombstone of the detector table in place. -/
theorem RegistryOp.apply_tombstone_detector (op : RegistryOp E L B F M) (w : World E L)
    {h : Nat} (ht : Tombstone w.detectors h) : Tombstone (op.apply w).2.detectors h := by
  cases op with
  | create_detector env overlap interval debug =>
    rcases create_detector_cases env overlap interval debug w with ⟨_, hd, _⟩ | ⟨det, _, hd, _⟩
    · simpa [RegistryOp.apply, hd] using ht
    · simpa [RegistryOp.apply, hd] using ht.append (some det)
  | create_learner env bg_file repo_directory th_opt_loocv debug =>
    rcases create_learner_cases env bg_file repo_directory th_opt_loocv debug w with
      ⟨_, _, hd⟩ | ⟨l, _, _, hd⟩
    · simpa [RegistryOp.apply, hd] using ht
    · simpa [RegistryOp.apply, hd] using ht
  | destroy_detector detector =>
    simp only [RegistryOp.apply, destroy_detector_detectors]
    split
    · exact ht.set_none _
    · exact ht
  | destroy_learner learner =>
    simpa [RegistryOp.apply, destroy_learner_detectors] using ht

/-- A registry call leaves a tombstone of the learner table in place. -/
theorem RegistryOp.apply_tombstone_learner (op : RegistryOp E L B F M) (w : World E L)
    {h : Nat} (ht : Tombstone w.learners h) : Tombstone (op.apply w).2.learners h := by
  cases op with
  | create_detector env overlap interval debug =>
    rcases create_detector_cases env overlap interval debug w with ⟨_, _, hd⟩ | ⟨det, _, _, hd⟩
    · simpa [RegistryOp.apply, hd] using ht
    · simpa [RegistryOp.apply, hd] using ht
  | create_learner env bg_file repo_directory th_opt_loocv debug =>
    rcases create_learner_cases env bg_file repo_directory th_opt_loocv debug w with
      ⟨_, hd, _⟩ | ⟨l, _, hd, _⟩
    · simpa [RegistryOp.apply, hd] using ht
    · simpa [RegistryOp.apply, hd] using ht.append (some l)
  | destroy_detector detector =>
    simpa [RegistryOp.apply, destroy_detector_learners] using ht
  | destroy_learner learner =>
    simp only [RegistryOp.apply, destroy_learner_learners]
    split
    · exact ht.set_none _
    · exact ht

theorem runOps_tombstone_detector (ops : List (RegistryOp E L B F M)) (w : World E L)
    {h : Nat} (ht : Tombstone w.detectors h) : Tombstone (runOps ops w).2.detectors h := by
  induction ops generalizing w with
  | nil => exact ht
  | cons op ops ih => exact ih _ (op.apply_tombstone_detector w ht)

theorem runOps_tombstone_learner (ops : List (RegistryOp E L B F M)) (w : World E L)
    {h : Nat} (ht : Tombstone w.learners h) : Tombstone (runOps ops w).2.learners h := by
  induction ops generalizing w with
  | nil => exact ht
  | cons op ops ih => exact ih _ (op.apply_tombstone_learner w ht)

/-- A registry call does not shorten the detector table, and a detector handle it
returns is 0 or the new length as an `unsigned int`. -/
theorem RegistryOp.apply_detector_handle (op : RegistryOp E L B F M) (w : World E L) :
    w.detectors.length ≤ (op.apply w).2.detectors.length ∧
    ∀ x, (op.apply w).1 = Created.detector x →
      x = 0 ∨ (x = (op.apply w).2.detectors.length % UINT_SIZE ∧
        w.detectors.length < (op.apply w).2.detectors.length) := by
  cases op with
  | create_detector env overlap interval debug =>
    rcases create_detector_cases env overlap interval debug w with ⟨h0, hd, _⟩ | ⟨det, hx, hd, _⟩
    · simp [RegistryOp.apply, hd, h0]
    · simp [RegistryOp.apply, hd, hx]
  | create_learner env bg_file repo_directory th_opt_loocv debug =>
    rcases create_learner_cases env bg_file repo_directory th_opt_loocv debug w with
      ⟨_, _, hd⟩ | ⟨l, _, _, hd⟩ <;> simp [RegistryOp.apply, hd]
  | destroy_detector detector =>
    simp only [RegistryOp.apply, destroy_detector_detectors]
    split <;> simp
  | destroy_learner learner =>
    simp [RegistryOp.apply, destroy_learner_detectors]

theorem RegistryOp.apply_learner_handle (op : RegistryOp E L B F M) (w : World E L) :
    w.learners.length ≤ (op.apply w).2.learners.length ∧
    ∀ x, (op.apply w).1 = Created.learner x →
      x = 0 ∨ (x = (op.apply w).2.learners.length % UINT_SIZE ∧
        w.learners.length < (op.apply w).2.learners.length) := by
  cases op with
  | create_detector env overlap interval debug =>
    rcases create_detector_cases env overlap interval debug w with ⟨_, _, hd⟩ | ⟨det, _, _, hd⟩
      <;> simp [RegistryOp.apply, hd]
  | create_learner env bg_file repo_directory th_opt_loocv debug =>
    rcases create_learner_cases env bg_file repo_directory th_opt_loocv debug w with
      ⟨h0, hd, _⟩ | ⟨l, hx, hd, _⟩
    · simp [RegistryOp.apply, hd, h0]
    · simp [RegistryOp.apply, hd, hx]
  | destroy_detector detector =>
    simp [RegistryOp.apply, destroy_detector_learners]
  | destroy_learner learner =>
    simp only [RegistryOp.apply, destroy_learner_learners]
    split <;> simp

theorem runOps_detectors_length (ops : List (RegistryOp E L B F M)) (w : World E L) :
    w.detectors.length ≤ (runOps ops w).2.detectors.length := by
  induction ops generalizing w with
  | nil => exact le_rfl
  | cons op ops ih => exact le_trans (op.apply_detector_handle w).1 (ih _)

theorem runOps_learners_length (ops : List (RegistryOp E L B F M)) (w : World E L) :
    w.learners.length ≤ (runOps ops w).2.learners.length := by
  induction ops generalizing w with
  | nil => exact le_rfl
  | cons op ops ih => exact le_trans (op.apply_learner_handle w).1 (ih _)

/-- While the detector table stays within the range of `unsigned int`, every detector
handle a sequence of registry calls returns is 0 or beyond the table it started from. -/
theorem runOps_detector_handles (ops : List (RegistryOp E L B F M)) (w : World E L)
    (hlen : (runOps ops w).2.detectors.length < UINT_SIZE) (x : Nat)
    (hx : Created.detector x ∈ (runOps ops w).1) : x = 0 ∨ w.detectors.length < x := by
  induction ops generalizing w with
  | nil => simp [runOps] at hx
  | cons op ops ih =>
    simp only [runOps, List.mem_cons] at hx hlen
    have hmono := runOps_detectors_length ops (op.apply w).2
    rcases hx with hx | hx
    · rcases (op.apply_detector_handle w).2 x hx.symm with h0 | ⟨hval, hlt⟩
      · exact Or.inl h0
      · right
        rw [Nat.mod_eq_of_lt (by omega)] at hval
        omega
    · rcases ih _ hlen hx with h0 | hlt
      · exact Or.inl h0
      · right
        have := (op.apply_detector_handle w).1
        omega

theorem runOps_learner_handles (ops : List (RegistryOp E L B F M)) (w : World E L)
    (hlen : (runOps ops w).2.learners.length < UINT_SIZE) (x : Nat)
    (hx : Created.learner x ∈ (runOps ops w).1) : x = 0 ∨ w.learners.length < x := by
  induction ops generalizing w with
  | nil => simp [runOps] at hx
  | cons op ops ih =>
    simp only [runOps, List.mem_cons] at hx hlen
    have hmono := runOps_learners_length ops (op.apply w).2
    rcases hx with hx | hx
    · rcases (op.apply_learner_handle w).2 x hx.symm with h0 | ⟨hval, hlt⟩
      · exact Or.inl h0
      · right
        rw [Nat.mod_eq_of_lt (by omega)] at hval
        omega
    · rcases ih _ hlen hx with h0 | hlt
      · exact Or.inl h0
      · right
        have := (op.apply_learner_handle w).1
        omega

/-- Destroying a valid detector handle leaves a tombstone in its slot. -/
theorem destroy_detector_tombstone (w : World E L) (h : Nat)
    (hv : is_valid_detector_handle w h = true) : Tombstone (destroy_detector h w).detectors h := by
  rcases (is_valid_detector_handle_iff w h).mp hv with ⟨h0, det, hd⟩
  rw [destroy_detector_detectors, if_pos hv]
  refine ⟨h0, ?_⟩
  rw [List.get?_eq_getElem?] at hd ⊢
  have hlt : h - 1 < w.detectors.length := (List.getElem?_eq_some_iff.mp hd).1
  simp [List.getElem?_set, hlt]

theorem destroy_learner_tombstone (w : World E L) (h : Nat)
    (hv : is_valid_learner_handle w h = true) : Tombstone (destroy_learner h w).learners h := by
  rcases (is_valid_learner_handle_iff w h).mp hv with ⟨h0, det, hd⟩
  rw [destroy_learner_learners, if_pos hv]
  refine ⟨h0, ?_⟩
  rw [List.get?_eq_getElem?] at hd ⊢
  have hlt : h - 1 < w.learners.length := (List.getElem?_eq_some_iff.mp hd).1
  simp [List.getElem?_set, hlt]

/-- C1: if `h` is a valid detector handle, then after `destroy_detector(h)` the check
`is_valid_detector_handle(h)` is false, it is still false after every finite sequence of
`create_detector`, `create_learner`, `destroy_detector` and `destroy_learner` calls, and
(as long as the table length fits an `unsigned int`) none of the later `create_detector`
calls returns `h`; the same holds for learner handles with `destroy_learner`,
`is_valid_learner_handle` and `create_learner`.  The world `w` is arbitrary, so every
reachable state is covered. -/
theorem destroyed_handle_stays_invalid (w : World E L) (h : Nat)
    (ops : List (RegistryOp E L B F M)) :
    (is_valid_detector_handle w h = true →
      is_valid_detector_handle (destroy_detector h w) h = false ∧
      is_valid_detector_handle (runOps ops (destroy_detector h w)).2 h = false ∧
      ((runOps ops (destroy_detector h w)).2.detectors.length < UINT_SIZE →
        Created.detector h ∉ (runOps ops (destroy_detector h w)).1)) ∧
    (is_valid_learner_handle w h = true →
      is_valid_learner_handle (destroy_learner h w) h = false ∧
      is_valid_learner_handle (runOps ops (destroy_learner h w)).2 h = false ∧
      ((runOps ops (destroy_learner h w)).2.learners.length < UINT_SIZE →
        Created.learner h ∉ (runOps ops (destroy_learner h w)).1)) := by
  constructor
  · intro hv
    have ht := destroy_detector_tombstone w h hv
    refine ⟨not_valid_detector_of_tombstone ht,
      not_valid_detector_of_tombstone (runOps_tombstone_detector ops _ ht), ?_⟩
    intro hlen hmem
    have := runOps_detector_handles ops _ hlen h hmem
    have h1 := ht.1
    have h2 := ht.le_length
    omega
  · intro hv
    have ht := destroy_learner_tombstone w h hv
    refine ⟨not_valid_learner_of_tombstone ht,
      not_valid_learner_of_tombstone (runOps_tombstone_learner ops _ ht), ?_⟩
    intro hlen hmem
    have := runOps_learner_handles ops _ hlen h hmem
    have h1 := ht.1
    have h2 := ht.le_length
    omega

/-- Witness for C1: handle 1 of `demoWorld`, destroyed and followed by `demoOps`. -/
theorem destroyed_handle_stays_invalid_witness :
    is_valid_detector_handle demoWorld 1 = true ∧
    is_valid_learner_handle demoWorld 1 = true ∧
    (is_valid_detector_handle (destroy_detector 1 demoWorld) 1 = false ∧
      is_valid_detector_handle (runOps demoOps (destroy_detector 1 demoWorld)).2 1 = false ∧
      Created.detector 1 ∉ (runOps demoOps (destroy_detector 1 demoWorld)).1) ∧
    (is_valid_learner_handle (destroy_learner 1 demoWorld) 1 = false ∧
      is_valid_learner_handle (runOps demoOps (destroy_learner 1 demoWorld)).2 1 = false ∧
      Created.learner 1 ∉ (runOps demoOps (destroy_learner 1 demoWorld)).1) :=
  ⟨by decide, by decide,
    ⟨((destroyed_handle_stays_invalid demoWorld 1 demoOps).1 (by decide)).1,
      ((destroyed_handle_stays_invalid demoWorld 1 demoOps).1 (by decide)).2.1,
      ((destroyed_handle_stays_invalid demoWorld 1 demoOps).1 (by decide)).2.2 (by decide)⟩,
    ⟨((destroyed_handle_stays_invalid demoWorld 1 demoOps).2 (by decide)).1,
      ((destroyed_handle_stays_invalid demoWorld 1 demoOps).2 (by decide)).2.1,
      ((destroyed_handle_stays_invalid demoWorld 1 demoOps).2 (by decide)).2.2 (by decide)⟩⟩

/-- C2: a handle is not valid exactly when it is 0, past the end of its table or refers
to a tombstoned slot; and for such a handle every entry point that takes a handle returns
`ARTOS_RES_INVALID_HANDLE` (-1) whatever the other arguments are, and returns the world
(both handle tables, both sample caches, the trace of collaborator calls) and every
output parameter (`detection_buf`, `*detection_buf_size`, `result_buf`,
`*result_buf_size`, `*fmeasure`, `*threshold`, `*ap`) as they were.  For
`add_model_from_learner` this holds when either of its two handles is not valid. -/
theorem invalid_handle_is_rejected (env : Collab E L B F M) (w : World E L)
    (handle other : Nat) (classname modelfile modellistfile imagefile annotation_file
      repo_directory synset_id dump_file : String)
    (opt_synset_id : Option String) (threshold eq_overlap : double) (img : JPEGImage)
    (img_data : List Nat) (img_width img_height : Nat) (grayscale add : Bool)
    (detection_buf : Nat → FlatDetection) (detection_buf_size : Nat)
    (bboxes : Option (Nat → FlatBoundingBox)) (num_bboxes max_samples num_negative
      max_aspect_clusters max_who_clusters max_positive granularity model_index : Nat)
    (progress_cb : Option progress_cb_t)
    (result_buf : Option (Nat → RawTestResult)) (result_buf_size : Nat)
    (fmeasure out_threshold ap : Option double) :
    (is_valid_detector_handle w handle = false ↔
      handle = 0 ∨ w.detectors.length < handle ∨ w.detectors.get? (handle - 1) = some none) ∧
    (is_valid_learner_handle w handle = false ↔
      handle = 0 ∨ w.learners.length < handle ∨ w.learners.get? (handle - 1) = some none) ∧
    (is_valid_detector_handle w handle = false →
      add_model env handle classname modelfile threshold opt_synset_id w
        = (ARTOS_RES_INVALID_HANDLE, w) ∧
      add_models env handle modellistfile w = (ARTOS_RES_INVALID_HANDLE, w) ∧
      add_model_from_learner env handle classname other threshold opt_synset_id w
        = (ARTOS_RES_INVALID_HANDLE, w) ∧
      num_feature_extractors_in_detector env handle w = (ARTOS_RES_INVALID_HANDLE, w) ∧
      detect_jpeg env handle img detection_buf detection_buf_size w
        = (ARTOS_RES_INVALID_HANDLE, detection_buf, detection_buf_size, w) ∧
      detect_file_jpeg env handle imagefile detection_buf detection_buf_size w
        = (ARTOS_RES_INVALID_HANDLE, detection_buf, detection_buf_size, w) ∧
      detect_raw env handle img_data img_width img_height grayscale detection_buf
          detection_buf_size w
        = (ARTOS_RES_INVALID_HANDLE, detection_buf, detection_buf_size, w) ∧
      evaluator_add_samples_from_synset env handle repo_directory synset_id num_negative w
        = (ARTOS_RES_INVALID_HANDLE, w) ∧
      evaluator_add_positive_file env handle imagefile annotation_file w
        = (ARTOS_RES_INVALID_HANDLE, w) ∧
      evaluator_add_positive_jpeg env handle img bboxes num_bboxes w
        = (ARTOS_RES_INVALID_HANDLE, w) ∧
      evaluator_add_positive_file_jpeg env handle imagefile bboxes num_bboxes w
        = (ARTOS_RES_INVALID_HANDLE, w) ∧
      evaluator_add_positive_raw env handle img_data img_width img_height grayscale bboxes
          num_bboxes w
        = (ARTOS_RES_INVALID_HANDLE, w) ∧
      evaluator_add_negative_file_jpeg env handle imagefile w = (ARTOS_RES_INVALID_HANDLE, w) ∧
      evaluator_add_negative_raw env handle img_data img_width img_height grayscale w
        = (ARTOS_RES_INVALID_HANDLE, w) ∧
      evaluator_run env handle granularity eq_overlap progress_cb w
        = (ARTOS_RES_INVALID_HANDLE, w) ∧
      evaluator_get_raw_results env handle result_buf result_buf_size model_index w
        = (ARTOS_RES_INVALID_HANDLE, result_buf, result_buf_size, w) ∧
      evaluator_get_max_fmeasure env handle fmeasure out_threshold model_index w
        = (ARTOS_RES_INVALID_HANDLE, fmeasure, out_threshold, w) ∧
      evaluator_get_fmeasure_at env handle threshold fmeasure model_index w
        = (ARTOS_RES_INVALID_HANDLE, fmeasure, w) ∧
      evaluator_get_ap env handle ap model_index w = (ARTOS_RES_INVALID_HANDLE, ap, w) ∧
      evaluator_dump_results env handle dump_file w = (ARTOS_RES_INVALID_HANDLE, w)) ∧
    (is_valid_learner_handle w handle = false →
      add_model_from_learner env other classname handle threshold opt_synset_id w
        = (ARTOS_RES_INVALID_HANDLE, w) ∧
      learner_add_jpeg env handle img bboxes num_bboxes w = (ARTOS_RES_INVALID_HANDLE, w) ∧
      learner_add_file_jpeg env handle imagefile bboxes num_bboxes w
        = (ARTOS_RES_INVALID_HANDLE, w) ∧
      learner_add_raw env handle img_data img_width img_height grayscale bboxes num_bboxes w
        = (ARTOS_RES_INVALID_HANDLE, w) ∧
      learner_add_synset env handle synset_id max_samples w = (ARTOS_RES_INVALID_HANDLE, w) ∧
      learner_run env handle max_aspect_clusters max_who_clusters progress_cb w
        = (Ret.ok ARTOS_RES_INVALID_HANDLE, w) ∧
      learner_optimize_th env handle max_positive num_negative progress_cb w
        = (Ret.ok ARTOS_RES_INVALID_HANDLE, w) ∧
      learner_save env handle modelfile add w = (ARTOS_RES_INVALID_HANDLE, w) ∧
      learner_reset env handle w = (ARTOS_RES_INVALID_HANDLE, w)) := by
  refine ⟨?_, ?_, ?_, ?_⟩
  · rw [← Bool.not_eq_true, is_valid_detector_handle_iff]
    rw [List.get?_eq_getElem?]
    constructor
    · intro hn
      by_cases h0 : handle = 0
      · exact Or.inl h0
      · by_cases hl : w.detectors.length < handle
        · exact Or.inr (Or.inl hl)
        · right; right
          have hlt : handle - 1 < w.detectors.length := by omega
          rw [List.getElem?_eq_getElem hlt]
          cases hg : w.detectors[handle - 1] with
          | none => rfl
          | some det =>
            exfalso
            apply hn
            refine ⟨by omega, det, ?_⟩
            rw [List.getElem?_eq_getElem hlt, hg]
    · rintro (h0 | hl | ht) ⟨hpos, det, hd⟩
      · omega
      · have := (List.getElem?_eq_some_iff.mp hd).1
        omega
      · rw [ht] at hd
        cases hd
  · rw [← Bool.not_eq_true, is_valid_learner_handle_iff]
    rw [List.get?_eq_getElem?]
    constructor
    · intro hn
      by_cases h0 : handle = 0
      · exact Or.inl h0
      · by_cases hl : w.learners.length < handle
        · exact Or.inr (Or.inl hl)
        · right; right
          have hlt : handle - 1 < w.learners.length := by omega
          rw [List.getElem?_eq_getElem hlt]
          cases hg : w.learners[handle - 1] with
          | none => rfl
          | some det =>
            exfalso
            apply hn
            refine ⟨by omega, det, ?_⟩
            rw [List.getElem?_eq_getElem hlt, hg]
    · rintro (h0 | hl | ht) ⟨hpos, det, hd⟩
      · omega
      · have := (List.getElem?_eq_some_iff.mp hd).1
        omega
      · rw [ht] at hd
        cases hd
  · intro hv
    simp [add_model, add_models, add_model_from_learner, num_feature_extractors_in_detector,
      detect_jpeg, detect_file_jpeg, detect_raw, evaluator_add_samples_from_synset,
      evaluator_add_positive_file, evaluator_add_positive_jpeg,
      evaluator_add_positive_file_jpeg, evaluator_add_positive_raw,
      evaluator_add_negative_file_jpeg, evaluator_add_negative_raw, evaluator_run,
      evaluator_get_raw_results, evaluator_get_max_fmeasure, evaluator_get_fmeasure_at,
      evaluator_get_ap, evaluator_dump_results, hv, ARTOS_RES_INVALID_HANDLE]
  · intro hv
    simp [add_model_from_learner, learner_add_jpeg, learner_add_file_jpeg, learner_add_raw,
      learner_add_synset, learner_run, learner_optimize_th, learner_save, learner_reset, hv]

/-- Witness for C2: handle 3 is past the end of both tables of `demoWorld`; an undecodable
image does not change the answer. -/
theorem invalid_handle_is_rejected_witness :
    is_valid_detector_handle demoWorld 3 = false ∧
    is_valid_learner_handle demoWorld 3 = false ∧
    add_model demoEnv 3 "c" "m" 0 none demoWorld = (ARTOS_RES_INVALID_HANDLE, demoWorld) ∧
    learner_add_jpeg demoEnv 3 ⟨true, 0, 0⟩ none 0 demoWorld
      = (ARTOS_RES_INVALID_HANDLE, demoWorld) :=
  ⟨by decide, by decide,
    ((invalid_handle_is_rejected demoEnv demoWorld 3 1 "c" "m" "l" "i" "a" "r" "s" "d" none 0 0
      ⟨true, 0, 0⟩ [] 0 0 false false (fun _ => ⟨[], [], 0, 0, 0, 0, 0⟩) 0 none 0 0 0 0 0 0 0 0
      none none 0 none none none).2.2.1 (by decide)).1,
    ((invalid_handle_is_rejected demoEnv demoWorld 3 1 "c" "m" "l" "i" "a" "r" "s" "d" none 0 0
      ⟨true, 0, 0⟩ [] 0 0 false false (fun _ => ⟨[], [], 0, 0, 0, 0, 0⟩) 0 none 0 0 0 0 0 0 0 0
      none none 0 none none none).2.2.2 (by decide)).2.1⟩

theorem is_valid_detector_handle_congr {w1 w2 : World E L} (hd : w1.detectors = w2.detectors)
    (h : Nat) : is_valid_detector_handle w1 h = is_valid_detector_handle w2 h := by
  simp [is_valid_detector_handle, World.detector, hd]

theorem is_valid_learner_handle_congr {w1 w2 : World E L} (hd : w1.learners = w2.learners)
    (h : Nat) : is_valid_learner_handle w1 h = is_valid_learner_handle w2 h := by
  simp [is_valid_learner_handle, World.learner, hd]

/-- Appending an object to a table makes the handle `length + 1` refer to it and changes
no other slot. -/
theorem get?_append_slot {α : Type} (table : List (Option α)) (x : α) (h : Nat) (h0 : 0 < h) :
    (h = table.length + 1 → (table ++ [some x]).get? (h - 1) = some (some x)) ∧
    (h ≠ table.length + 1 → ∀ y, (table ++ [some x]).get? (h - 1) = some (some y) ↔
      table.get? (h - 1) = some (some y)) := by
  constructor
  · intro he
    subst he
    simp [List.get?_eq_getElem?]
  · intro hne y
    simp only [List.get?_eq_getElem?]
    by_cases hlt : h - 1 < table.length
    · rw [List.getElem?_append_left hlt]
    · have h1 : table.length + 1 ≤ h - 1 := by omega
      have e1 : (table ++ [some x])[h - 1]? = none := by
        apply List.getElem?_eq_none
        simp
        omega
      have e2 : table[h - 1]? = none := by
        apply List.getElem?_eq_none
        omega
      rw [e1, e2]

/-- C3: when the table length fits an `unsigned int`, a `create_detector` that succeeds
(returns a handle other than 0) returns the previous length of `detectors` plus one, which
is at least 1; that handle is valid after the call, the validity of every other detector
handle and of every learner handle is unchanged.  The same holds for `create_learner` and
`learners`.  When the background of the new learner is empty, `create_learner` returns 0
and leaves `learners` unchanged. -/
theorem create_returns_fresh_handle (env : Collab E L B F M) (w : World E L)
    (overlap : double) (interval : Int) (debug : Bool) (bg_file repo_directory : String)
    (th_opt_loocv : Bool) :
    (w.detectors.length < UINT_SIZE →
      (create_detector env overlap interval debug w).1 ≠ 0 →
      (create_detector env overlap interval debug w).1 = w.detectors.length + 1 ∧
      1 ≤ (create_detector env overlap interval debug w).1 ∧
      is_valid_detector_handle (create_detector env overlap interval debug w).2
        (create_detector env overlap interval debug w).1 = true ∧
      (∀ h, h ≠ (create_detector env overlap interval debug w).1 →
        is_valid_detector_handle (create_detector env overlap interval debug w).2 h
          = is_valid_detector_handle w h) ∧
      (∀ h, is_valid_learner_handle (create_detector env overlap interval debug w).2 h
          = is_valid_learner_handle w h)) ∧
    (w.learners.length < UINT_SIZE →
      (create_learner env bg_file repo_directory th_opt_loocv debug w).1 ≠ 0 →
      (create_learner env bg_file repo_directory th_opt_loocv debug w).1
        = w.learners.length + 1 ∧
      1 ≤ (create_learner env bg_file repo_directory th_opt_loocv debug w).1 ∧
      is_valid_learner_handle (create_learner env bg_file repo_directory th_opt_loocv debug w).2
        (create_learner env bg_file repo_directory th_opt_loocv debug w).1 = true ∧
      (∀ h, h ≠ (create_learner env bg_file repo_directory th_opt_loocv debug w).1 →
        is_valid_learner_handle (create_learner env bg_file repo_directory th_opt_loocv debug w).2 h
          = is_valid_learner_handle w h) ∧
      (∀ h, is_valid_detector_handle
          (create_learner env bg_file repo_directory th_opt_loocv debug w).2 h
          = is_valid_detector_handle w h)) ∧
    (env.getBackground_empty (env.new_ImageNetModelLearner bg_file
        (if env.hasRepositoryStructure repo_directory then repo_directory else "")
        th_opt_loocv debug) = true →
      (create_learner env bg_file repo_directory th_opt_loocv debug w).1 = 0 ∧
      (create_learner env bg_file repo_directory th_opt_loocv debug w).2.learners
        = w.learners) := by
  refine ⟨?_, ?_, ?_⟩
  · intro hlen hne
    rcases create_detector_cases env overlap interval debug w with ⟨h0, _, _⟩ | ⟨det, hx, hd, hl⟩
    · exact absurd h0 hne
    · have hlt : w.detectors.length + 1 < UINT_SIZE := by
        rcases Nat.lt_or_ge (w.detectors.length + 1) UINT_SIZE with h1 | h1
        · exact h1
        · exfalso
          apply hne
          have : w.detectors.length + 1 = UINT_SIZE := by omega
          rw [hx, this, Nat.mod_self]
      have hval : (create_detector env overlap interval debug w).1 = w.detectors.length + 1 := by
        rw [hx, Nat.mod_eq_of_lt hlt]
      refine ⟨hval, by omega, ?_, ?_, fun h => is_valid_learner_handle_congr hl h⟩
      · rw [is_valid_detector_handle_iff, hd, hval]
        exact ⟨by omega, det, (get?_append_slot w.detectors det _ (by omega)).1 rfl⟩
      · intro h hh
        rw [hval] at hh
        rw [Bool.eq_iff_iff, is_valid_detector_handle_iff, is_valid_detector_handle_iff, hd]
        constructor
        · rintro ⟨h0, y, hy⟩
          exact ⟨h0, y, ((get?_append_slot w.detectors det h h0).2 hh y).mp hy⟩
        · rintro ⟨h0, y, hy⟩
          exact ⟨h0, y, ((get?_append_slot w.detectors det h h0).2 hh y).mpr hy⟩
  · intro hlen hne
    rcases create_learner_cases env bg_file repo_directory th_opt_loocv debug w with
      ⟨h0, _, _⟩ | ⟨l, hx, hd, hl⟩
    · exact absurd h0 hne
    · have hlt : w.learners.length + 1 < UINT_SIZE := by
        rcases Nat.lt_or_ge (w.learners.length + 1) UINT_SIZE with h1 | h1
        · exact h1
        · exfalso
          apply hne
          have : w.learners.length + 1 = UINT_SIZE := by omega
          rw [hx, this, Nat.mod_self]
      have hval : (create_learner env bg_file repo_directory th_opt_loocv debug w).1
          = w.learners.length + 1 := by
        rw [hx, Nat.mod_eq_of_lt hlt]
      refine ⟨hval, by omega, ?_, ?_, fun h => is_valid_detector_handle_congr hl h⟩
      · rw [is_valid_learner_handle_iff, hd, hval]
        exact ⟨by omega, l, (get?_append_slot w.learners l _ (by omega)).1 rfl⟩
      · intro h hh
        rw [hval] at hh
        rw [Bool.eq_iff_iff, is_valid_learner_handle_iff, is_valid_learner_handle_iff, hd]
        constructor
        · rintro ⟨h0, y, hy⟩
          exact ⟨h0, y, ((get?_append_slot w.learners l h h0).2 hh y).mp hy⟩
        · rintro ⟨h0, y, hy⟩
          exact ⟨h0, y, ((get?_append_slot w.learners l h h0).2 hh y).mpr hy⟩
  · intro hb
    have hb2 : env.getBackground_empty (env.new_ImageNetModelLearner bg_file
        (if (!env.hasRepositoryStructure repo_directory) = true then "" else repo_directory)
        th_opt_loocv debug) = true := by
      cases hr : env.hasRepositoryStructure repo_directory <;> simpa [hr] using hb
    simp only [Bool.not_eq_true'] at hb2
    simp [create_learner, hb2, World.log]

/-- Witness for C3: creating sessions in `demoWorld`. -/
theorem create_returns_fresh_handle_witness :
    demoWorld.detectors.length < UINT_SIZE ∧
    (create_detector demoEnv 0 1 false demoWorld).1 ≠ 0 ∧
    (create_detector demoEnv 0 1 false demoWorld).1 = 2 ∧
    (create_learner demoEnv "bg" "" false false demoWorld).1 = 2 ∧
    is_valid_learner_handle (create_learner demoEnv "bg" "" false false demoWorld).2 2 = true ∧
    (create_learner demoEnv "" "" false false demoWorld).1 = 0 :=
  ⟨by decide, by decide,
    ((create_returns_fresh_handle demoEnv demoWorld 0 1 false "bg" "" false).1
      (by decide) (by decide)).1,
    ((create_returns_fresh_handle demoEnv demoWorld 0 1 false "bg" "" false).2.1
      (by decide) (by decide)).1,
    ((create_returns_fresh_handle demoEnv demoWorld 0 1 false "bg" "" false).2.1
      (by decide) (by decide)).2.2.1,
    ((create_returns_fresh_handle demoEnv demoWorld 0 1 false "" "" false).2.2 (by decide)).1⟩

/-- Evaluating `m[key]` changes the vector of no key. -/
theorem mapGet_mapTouch {α : Type} (m : List (Nat × List α)) (key k : Nat) :
    mapGet (mapTouch m key) k = mapGet m k := by
  unfold mapTouch
  split
  · rfl
  · next hnone =>
    unfold mapGet mapFind at *
    rw [List.find?_append]
    cases hf : List.find? (fun e => e.1 == k) m with
    | some e => simp
    | none =>
      by_cases hk : key = k
      · subst hk
        simp
      · simp [hk]

/-- C4: for a valid learner handle whose learner has no learned model,
`learner_optimize_th` and `learner_save` both return `ARTOS_LEARN_RES_MODEL_NOT_LEARNED`
(-205) and leave the world, trace included, as it was: neither `optimizeThreshold` nor
`save` is invoked.  This code differs from `ARTOS_RES_FILE_ACCESS_DENIED`, which
`learner_save` returns when the learner has a model and `save` fails. -/
theorem optimize_and_save_need_learned_model (env : Collab E L B F M) (w : World E L)
    (learner : Nat) (l : L) (max_positive num_negative : Nat)
    (progress_cb : Option progress_cb_t) (modelfile : String) (add : Bool)
    (hv : is_valid_learner_handle w learner = true) (hl : w.learner learner = some l) :
    ((env.getModels l).isEmpty = true →
      learner_optimize_th env learner max_positive num_negative progress_cb w
        = (Ret.ok ARTOS_LEARN_RES_MODEL_NOT_LEARNED, w) ∧
      learner_save env learner modelfile add w = (ARTOS_LEARN_RES_MODEL_NOT_LEARNED, w)) ∧
    ARTOS_LEARN_RES_MODEL_NOT_LEARNED = -205 ∧
    ARTOS_LEARN_RES_MODEL_NOT_LEARNED ≠ ARTOS_RES_FILE_ACCESS_DENIED ∧
    ((env.getModels l).isEmpty = false → env.save l modelfile add = false →
      (learner_save env learner modelfile add w).1 = ARTOS_RES_FILE_ACCESS_DENIED) := by
  refine ⟨?_, rfl, by decide, ?_⟩
  · intro he
    simp [learner_optimize_th, learner_save, hv, hl, he]
  · intro he hs
    simp [learner_save, hv, hl, he, hs]

/-- Witness for C4: learner 1 of `freshWorld` has no learned model; learner 1 of
`demoWorld` has one. -/
theorem optimize_and_save_need_learned_model_witness :
    is_valid_learner_handle freshWorld 1 = true ∧
    learner_optimize_th demoEnv 1 0 0 none freshWorld
      = (Ret.ok ARTOS_LEARN_RES_MODEL_NOT_LEARNED, freshWorld) ∧
    learner_save demoEnv 1 "m" false freshWorld
      = (ARTOS_LEARN_RES_MODEL_NOT_LEARNED, freshWorld) :=
  ⟨by decide,
    ((optimize_and_save_need_learned_model demoEnv freshWorld 1 2 0 0 none "m" false
      (by decide) (by decide)).1 (by decide)).1,
    ((optimize_and_save_need_learned_model demoEnv freshWorld 1 2 0 0 none "m" false
      (by decide) (by decide)).1 (by decide)).2⟩

/-- C5: for a valid learner handle, `learner_run` returns `ARTOS_LEARN_RES_NO_SAMPLES`
(-204) and leaves the world, trace included, as it was (`learn` is not invoked) when the
learner has no sample; when it has a sample and `learn`, run with the progress callback
handed over, returns the status `res` without raising, `learner_run` returns `res`. -/
theorem learner_run_needs_samples (env : Collab E L B F M) (w : World E L)
    (learner : Nat) (l : L) (max_aspect_clusters max_who_clusters : Nat)
    (progress_cb : Option progress_cb_t)
    (hv : is_valid_learner_handle w learner = true) (hl : w.learner learner = some l) :
    (env.getNumSamples l = 0 →
      learner_run env learner max_aspect_clusters max_who_clusters progress_cb w
        = (Ret.ok ARTOS_LEARN_RES_NO_SAMPLES, w)) ∧
    ARTOS_LEARN_RES_NO_SAMPLES = -204 ∧
    (env.getNumSamples l ≠ 0 → ∀ res : Int,
      (runStage (if progress_cb.isSome then some progress_proxy else none)
        (if progress_cb.isSome then progress_cb else none)
        (env.learn l max_aspect_clusters max_who_clusters)
        (w.log (.call .learn)).trace).1.1 = Ret.ok res →
      (learner_run env learner max_aspect_clusters max_who_clusters progress_cb w).1
        = Ret.ok res) := by
  refine ⟨?_, rfl, ?_⟩
  · intro h0
    simp [learner_run, hv, hl, h0]
  · intro h0 res hres
    simp only [learner_run, hv, hl, h0, Bool.not_true, Bool.false_eq_true, if_false]
    rw [hres]

/-- Witness for C5: learner 2 of `freshWorld` has no sample, learner 1 has one. -/
theorem learner_run_needs_samples_witness :
    is_valid_learner_handle freshWorld 2 = true ∧
    learner_run demoEnv 2 1 1 none freshWorld = (Ret.ok ARTOS_LEARN_RES_NO_SAMPLES, freshWorld) ∧
    (learner_run demoEnv 1 1 1 none freshWorld).1 = Ret.ok 0 :=
  ⟨by decide,
    (learner_run_needs_samples demoEnv freshWorld 2 1 1 1 none (by decide) (by decide)).1
      (by decide),
    (learner_run_needs_samples demoEnv freshWorld 1 2 1 1 none (by decide) (by decide)).2.2
      (by decide) 0 (by decide)⟩

/-- C9: for a valid detector handle, `evaluator_run` returns
`ARTOS_DETECT_RES_NO_MODELS` (-104) and the unchanged world when the detector has no
model, whatever samples were added; when it has a model and the handle has no positive
sample it returns `ARTOS_DETECT_RES_NO_IMAGES` (-106), and then the detectors (with
their stored results), the learners, the trace (neither `setEqOverlap` nor `testModels`
is invoked) and the sample lists of every handle are as before. -/
theorem evaluator_run_preconditions (env : Collab E L B F M) (w : World E L)
    (detector : Nat) (det : E) (granularity : Nat) (eq_overlap : double)
    (progress_cb : Option progress_cb_t)
    (hv : is_valid_detector_handle w detector = true) (hd : w.detector detector = some det) :
    (env.getNumModels det = 0 →
      evaluator_run env detector granularity eq_overlap progress_cb w
        = (ARTOS_DETECT_RES_NO_MODELS, w)) ∧
    (env.getNumModels det ≠ 0 → mapGet w.eval_positive_samples detector = [] →
      (evaluator_run env detector granularity eq_overlap progress_cb w).1
        = ARTOS_DETECT_RES_NO_IMAGES ∧
      (evaluator_run env detector granularity eq_overlap progress_cb w).2.detectors
        = w.detectors ∧
      (evaluator_run env detector granularity eq_overlap progress_cb w).2.trace = w.trace ∧
      (evaluator_run env detector granularity eq_overlap progress_cb w).2.learners
        = w.learners ∧
      (∀ k, mapGet (evaluator_run env detector granularity eq_overlap
          progress_cb w).2.eval_positive_samples k = mapGet w.eval_positive_samples k) ∧
      (evaluator_run env detector granularity eq_overlap progress_cb w).2.eval_negative_samples
        = w.eval_negative_samples) ∧
    ARTOS_DETECT_RES_NO_MODELS = -104 ∧ ARTOS_DETECT_RES_NO_IMAGES = -106 := by
  refine ⟨?_, ?_, rfl, rfl⟩
  · intro h0
    simp [evaluator_run, hv, hd, h0]
  · intro h0 hempty
    have ht : mapGet (mapTouch w.eval_positive_samples detector) detector = [] := by
      rw [mapGet_mapTouch]; exact hempty
    simp [evaluator_run, hv, hd, h0, ht, mapGet_mapTouch]

/-- Witness for C9: detector 1 of `freshWorld` has no model, detector 2 has a model and no
positive sample. -/
theorem evaluator_run_preconditions_witness :
    is_valid_detector_handle freshWorld 1 = true ∧
    evaluator_run demoEnv 1 1 0 none freshWorld = (ARTOS_DETECT_RES_NO_MODELS, freshWorld) ∧
    (evaluator_run demoEnv 2 1 0 none freshWorld).1 = ARTOS_DETECT_RES_NO_IMAGES :=
  ⟨by decide,
    (evaluator_run_preconditions demoEnv freshWorld 1 0 1 0 none (by decide) (by decide)).1
      (by decide),
    ((evaluator_run_preconditions demoEnv freshWorld 2 1 1 0 none (by decide) (by decide)).2.1
      (by decide) (by decide)).1⟩

end RegistryLemmas

/-! ## Aborts and exceptions at the entry points -/

section Aborts

variable {E L B F M : Type}

/-- Function `learner_optimize_th` never returns `ARTOS_RES_ABORTED`: the condition
`progressCB != NULL && cbData == NULL` of its `return` cannot hold, since both are set from
the same test `progress_cb != NULL`. -/
theorem learner_optimize_th_never_aborted (env : Collab E L B F M) (learner : Nat)
    (max_positive num_negative : Nat) (progress_cb : Option progress_cb_t) (w : World E L) :
    (learner_optimize_th env learner max_positive num_negative progress_cb w).1
      ≠ Ret.ok ARTOS_RES_ABORTED := by
  unfold learner_optimize_th
  split
  · simp [ARTOS_RES_INVALID_HANDLE, ARTOS_RES_ABORTED]
  · split
    · simp [ARTOS_RES_INVALID_HANDLE, ARTOS_RES_ABORTED]
    · split
      · simp [ARTOS_LEARN_RES_MODEL_NOT_LEARNED, ARTOS_RES_ABORTED]
      · split
        · simp [ARTOS_IMGREPO_RES_INVALID_REPOSITORY, ARTOS_RES_ABORTED]
        · dsimp only
          split
          · simp
          · cases progress_cb <;> simp [ARTOS_RES_OK, ARTOS_RES_ABORTED]

/-- Function `evaluator_run` never returns `ARTOS_RES_ABORTED`. -/
theorem evaluator_run_never_aborted (env : Collab E L B F M) (detector : Nat)
    (granularity : Nat) (eq_overlap : double) (progress_cb : Option progress_cb_t)
    (w : World E L) :
    (evaluator_run env detector granularity eq_overlap progress_cb w).1 ≠ ARTOS_RES_ABORTED := by
  unfold evaluator_run
  split
  · simp [ARTOS_RES_INVALID_HANDLE, ARTOS_RES_ABORTED]
  · split
    · simp [ARTOS_RES_INVALID_HANDLE, ARTOS_RES_ABORTED]
    · split
      · simp [ARTOS_DETECT_RES_NO_MODELS, ARTOS_RES_ABORTED]
      · dsimp only
        split
        · simp [ARTOS_DETECT_RES_NO_IMAGES, ARTOS_RES_ABORTED]
        · simp [ARTOS_RES_OK, ARTOS_RES_ABORTED]

end Aborts

/-- C6 (defect of the code): `learner_run` turns a `UseBeforeSetupException` of `learn`
into `ARTOS_LEARN_RES_FEATURE_EXTRACTOR_NOT_READY` (-206), and so do `learn_imagenet`
for `learn` and `learn_bg` for `learnMean`; but when `optimizeThreshold` raises it in
`learner_optimize_th`, `learn_imagenet` or `learn_files_jpeg`, or a `learnCovariance`
variant raises it in `learn_bg`, the exception leaves the entry point. -/
theorem use_before_setup_escapes :
    (learner_run raisingLearnEnv 1 1 1 none demoWorld).1
      = Ret.ok ARTOS_LEARN_RES_FEATURE_EXTRACTOR_NOT_READY ∧
    (learn_imagenet raisingLearnEnv "r" "s" "bg" "m" false 1 1 0 0 ARTOS_THOPT_OVERLAPPING none
      false demoWorld).1 = Ret.ok ARTOS_LEARN_RES_FEATURE_EXTRACTOR_NOT_READY ∧
    (learn_bg raisingLearnEnv "r" "bg" 1 1 none false demoWorld).1
      = Ret.ok ARTOS_LEARN_RES_FEATURE_EXTRACTOR_NOT_READY ∧
    is_valid_learner_handle demoWorld 1 = true ∧
    (learner_optimize_th raisingEnv 1 0 0 none demoWorld).1
      = Ret.raise Exn.UseBeforeSetupException ∧
    (learn_imagenet raisingEnv "r" "s" "bg" "m" false 1 1 0 0 ARTOS_THOPT_OVERLAPPING none
      false demoWorld).1 = Ret.raise Exn.UseBeforeSetupException ∧
    (learn_files_jpeg raisingEnv (fun _ => "f") 1 none "bg" "m" false 1 1
      ARTOS_THOPT_OVERLAPPING none false demoWorld).1 = Ret.raise Exn.UseBeforeSetupException ∧
    (learn_bg raisingEnv "r" "bg" 1 1 none false demoWorld).1
      = Ret.raise Exn.UseBeforeSetupException ∧
    (learn_bg raisingEnv "r" "bg" 1 1 none true demoWorld).1
      = Ret.raise Exn.UseBeforeSetupException := by
  decide

/-- C7 (defect of the code): on the valid learner handle 1 of `demoWorld`, whose learner
has a learned model, with the callback `alwaysStop`, `optimizeThreshold` invokes the
callback once, the callback returns false, and `learner_optimize_th` returns
`ARTOS_RES_OK` (0), not `ARTOS_RES_ABORTED` (-5). -/
theorem learner_optimize_th_ignores_abort :
    is_valid_learner_handle demoWorld 1 = true ∧
    (demoEnv.getModels 102).isEmpty = false ∧
    (learner_optimize_th demoEnv 1 0 0 (some alwaysStop) demoWorld).2.trace
      = [Event.call Method.optimizeThreshold, Event.progress 1 2 false] ∧
    (learner_optimize_th demoEnv 1 0 0 (some alwaysStop) demoWorld).1 = Ret.ok ARTOS_RES_OK ∧
    ARTOS_RES_OK ≠ ARTOS_RES_ABORTED := by
  decide

/-- C8 (defect of the code): on the valid detector handle 1 of `demoWorld`, which has one
model and one positive sample, with the callback `alwaysStop`, `testModels` invokes the
callback once, the callback returns false, and `evaluator_run` returns `ARTOS_RES_OK`
(0), not `ARTOS_RES_ABORTED` (-5). -/
theorem evaluator_run_ignores_abort :
    is_valid_detector_handle demoWorld 1 = true ∧
    demoEnv.getNumModels 1 = 1 ∧
    (mapGet demoWorld.eval_positive_samples 1).length = 1 ∧
    (evaluator_run demoEnv 1 1 0 (some alwaysStop) demoWorld).2.trace
      = [Event.call Method.setEqOverlap, Event.call Method.testModels,
        Event.progress 1 2 false] ∧
    (evaluator_run demoEnv 1 1 0 (some alwaysStop) demoWorld).1 = ARTOS_RES_OK ∧
    ARTOS_RES_OK ≠ ARTOS_RES_ABORTED := by
  decide

/-! ## The progress callback and its abort flag -/

/-- A trace without invocations of the overall callback is quiet. -/
theorem quietAfterAbort_of_all_not_overall (l : List Event)
    (h : ∀ e ∈ l, e.isOverall = false) : quietAfterAbort l = true := by
  induction l with
  | nil => rfl
  | cons e rest ih =>
    have hr := ih (fun x hx => h x (List.mem_cons_of_mem _ hx))
    have he := h e (List.mem_cons_self _ _)
    cases e with
    | call m => simpa [quietAfterAbort] using hr
    | progress c t a => simpa [quietAfterAbort] using hr
    | overall s n c t a => simp [Event.isOverall] at he

/-- Whether all invocations of a concatenation returned true. -/
theorem allContinue_append (a b : List Event) :
    allContinue (a ++ b) = (allContinue a && allContinue b) := by
  induction a with
  | nil => simp [allContinue]
  | cons e rest ih =>
    cases e with
    | call m => simpa [allContinue] using ih
    | progress c t a => simpa [allContinue] using ih
    | overall s n c t a => cases a <;> simp [allContinue, ih]

/-- After invocations that all returned true, whether a trace is quiet after an abort is
decided by the rest. -/
theorem quietAfterAbort_append_of_allContinue (a b : List Event) (h : allContinue a = true) :
    quietAfterAbort (a ++ b) = quietAfterAbort b := by
  induction a with
  | nil => rfl
  | cons e rest ih =>
    cases e with
    | call m => simpa [quietAfterAbort, allContinue] using ih (by simpa [allContinue] using h)
    | progress c t a =>
      simpa [quietAfterAbort, allContinue] using ih (by simpa [allContinue] using h)
    | overall s n c t a =>
      cases a with
      | false => simp [allContinue] at h
      | true => simpa [quietAfterAbort, allContinue] using ih (by simpa [allContinue] using h)

/-- A quiet trace stays quiet when events that are no callback invocations follow. -/
theorem quietAfterAbort_append_calls (a b : List Event) (h : quietAfterAbort a = true)
    (hb : ∀ e ∈ b, e.isOverall = false) : quietAfterAbort (a ++ b) = true := by
  induction a with
  | nil => exact quietAfterAbort_of_all_not_overall b hb
  | cons e rest ih =>
    cases e with
    | call m => simpa [quietAfterAbort] using ih (by simpa [quietAfterAbort] using h)
    | progress c t a => simpa [quietAfterAbort] using ih (by simpa [quietAfterAbort] using h)
    | overall s n c t a =>
      cases a with
      | true => simpa [quietAfterAbort] using ih (by simpa [quietAfterAbort] using h)
      | false =>
        simp only [quietAfterAbort, List.cons_append] at h ⊢
        show ((rest ++ b).all fun e => !e.isOverall) = true
        rw [List.all_append, h, Bool.true_and]
        simp only [List.all_eq_true, Bool.not_eq_true']
        exact hb

/-- What a routine that is handed `populate_progress` adds to the trace and does to the
struct: the invocations it adds carry the overall step and total of the struct, none
follows one that returned false, all returned true when the flag is clear at the end, and
there is none at all when the flag was set at the start. -/
theorem run_populate_progress {ρ : Type} (st : Stage ρ) (p : progress_params)
    (tr : List Event) :
    ∃ new, (st.run (fun c t => populate_progress c t ()) (p, tr)).2.2 = tr ++ new ∧
      (∀ e ∈ new, ∃ c t a, e = Event.overall p.overall_step p.overall_steps_total c t a) ∧
      quietAfterAbort new = true ∧
      ((st.run (fun c t => populate_progress c t ()) (p, tr)).2.1.aborted = false →
        allContinue new = true) ∧
      (p.aborted = true → new = [] ∧
        (st.run (fun c t => populate_progress c t ()) (p, tr)).2.1.aborted = true) ∧
      (st.run (fun c t => populate_progress c t ()) (p, tr)).2.1.overall_step
        = p.overall_step ∧
      (st.run (fun c t => populate_progress c t ()) (p, tr)).2.1.overall_steps_total
        = p.overall_steps_total ∧
      (st.run (fun c t => populate_progress c t ()) (p, tr)).2.1.cb = p.cb := by
  induction st generalizing p tr with
  | done r =>
    refine ⟨[], by simp [Stage.run], by simp, rfl, fun _ => rfl, fun h => ⟨rfl, h⟩, rfl, rfl, rfl⟩
  | report c t next ih =>
    cases hab : p.aborted with
    | true =>
      have hstep : populate_progress c t () (p, tr) = (false, (p, tr)) := by
        simp [populate_progress, hab]
      obtain ⟨new, h1, h2, h3, h4, h5, h6, h7, h8⟩ := ih false p tr
      simp only [Stage.run, hstep]
      exact ⟨new, h1, h2, h3, h4, fun _ => h5 hab, h6, h7, h8⟩
    | false =>
      cases hcb : p.cb with
      | none =>
        have hstep : populate_progress c t () (p, tr)
            = (false, ({ p with aborted := true }, tr)) := by
          simp [populate_progress, hab, hcb]
        obtain ⟨new, h1, h2, h3, h4, h5, h6, h7, h8⟩ := ih false { p with aborted := true } tr
        simp only [Stage.run, hstep]
        have hn := (h5 rfl).1
        subst hn
        refine ⟨[], h1, by simp, rfl, fun _ => rfl, (fun h => by cases h), h6, h7, ?_⟩
        rw [h8, hcb]
      | some cb =>
        have hstep : populate_progress c t () (p, tr)
            = (cb tr p.overall_step p.overall_steps_total c t,
                ({ p with aborted := !cb tr p.overall_step p.overall_steps_total c t },
                  tr ++ [Event.overall p.overall_step p.overall_steps_total c t
                    (cb tr p.overall_step p.overall_steps_total c t)])) := by
          simp [populate_progress, hab, hcb]
        simp only [Stage.run, hstep]
        generalize cb tr p.overall_step p.overall_steps_total c t = ans
        obtain ⟨new, h1, h2, h3, h4, h5, h6, h7, h8⟩ :=
          ih ans { p with aborted := !ans }
            (tr ++ [Event.overall p.overall_step p.overall_steps_total c t ans])
        refine ⟨Event.overall p.overall_step p.overall_steps_total c t ans :: new,
          by simpa using h1, ?_, ?_, ?_, (fun h => by cases h), h6, h7, ?_⟩
        · intro e he
          rcases List.mem_cons.mp he with rfl | he
          · exact ⟨c, t, _, rfl⟩
          · exact h2 e he
        · cases ans with
          | true => simpa [quietAfterAbort] using h3
          | false =>
            have hn := (h5 rfl).1
            subst hn
            simp [quietAfterAbort]
        · intro hfin
          cases ans with
          | true => simpa [allContinue] using h4 hfin
          | false =>
            have := (h5 rfl).2
            rw [this] at hfin
            cases hfin
        · rw [h8]
          exact hcb

/-- The same for a routine called with `populate_progress` or, when the user gave no
callback, with `NULL`. -/
theorem runStage_populate_progress {ρ : Type} (progress_cb : Option overall_progress_cb_t)
    (st : Stage ρ) (p : progress_params) (tr : List Event) :
    ∃ new, (runStage (if progress_cb.isSome then some populate_progress else none) ()
        st (p, tr)).2.2 = tr ++ new ∧
      (∀ e ∈ new, ∃ c t a, e = Event.overall p.overall_step p.overall_steps_total c t a) ∧
      quietAfterAbort new = true ∧
      ((runStage (if progress_cb.isSome then some populate_progress else none) ()
        st (p, tr)).2.1.aborted = false → allContinue new = true) ∧
      (p.aborted = true → new = [] ∧
        (runStage (if progress_cb.isSome then some populate_progress else none) ()
          st (p, tr)).2.1.aborted = true) ∧
      (runStage (if progress_cb.isSome then some populate_progress else none) ()
        st (p, tr)).2.1.overall_step = p.overall_step ∧
      (runStage (if progress_cb.isSome then some populate_progress else none) ()
        st (p, tr)).2.1.overall_steps_total = p.overall_steps_total ∧
      (runStage (if progress_cb.isSome then some populate_progress else none) ()
        st (p, tr)).2.1.cb = p.cb := by
  cases progress_cb with
  | none =>
    exact ⟨[], by simp [runStage], by simp, rfl, fun _ => rfl, fun h => ⟨rfl, h⟩, rfl, rfl, rfl⟩
  | some cb =>
    simpa [runStage] using run_populate_progress st p tr

/-- The form of `runStage_populate_progress` for a named result. -/
theorem runStage_populate_progress_eq {ρ : Type} (progress_cb : Option overall_progress_cb_t)
    (st : Stage ρ) (p : progress_params) (tr : List Event)
    (r : ρ × progress_params × List Event)
    (hr : runStage (if progress_cb.isSome then some populate_progress else none) ()
      st (p, tr) = r) :
    ∃ new, r.2.2 = tr ++ new ∧
      (∀ e ∈ new, ∃ c t a, e = Event.overall p.overall_step p.overall_steps_total c t a) ∧
      quietAfterAbort new = true ∧
      (r.2.1.aborted = false → allContinue new = true) ∧
      (p.aborted = true → new = [] ∧ r.2.1.aborted = true) ∧
      r.2.1.overall_step = p.overall_step ∧
      r.2.1.overall_steps_total = p.overall_steps_total ∧
      r.2.1.cb = p.cb := by
  subst hr
  exact runStage_populate_progress progress_cb st p tr

/-- The trace of two routines in a row is quiet after an abort when all invocations of
the first returned true and the second with what follows is quiet. -/
theorem quietAfterAbort_two_stages (m1 m2 : Method) (new1 rest : List Event)
    (c1 : allContinue new1 = true) (h2 : quietAfterAbort rest = true) :
    quietAfterAbort (Event.call m1 :: (new1 ++ Event.call m2 :: rest)) = true := by
  simp only [quietAfterAbort]
  rw [quietAfterAbort_append_of_allContinue _ _ c1]
  simpa [quietAfterAbort] using h2

/-- The end of a successful call: the direct invocation of the callback and the event
that follows it. -/
theorem quietAfterAbort_final (new2 : List Event) (c2 : allContinue new2 = true)
    (s n c t : Nat) (a : Bool) (m : List Event) (hm : ∀ e ∈ m, e.isOverall = false) :
    quietAfterAbort (new2 ++ Event.overall s n c t a :: m) = true := by
  rw [quietAfterAbort_append_of_allContinue _ _ c2]
  cases a with
  | true => simpa [quietAfterAbort] using quietAfterAbort_of_all_not_overall m hm
  | false =>
    simp only [quietAfterAbort, List.all_eq_true, Bool.not_eq_true']
    exact hm


/-- Stage events of a concatenation. -/
theorem stageEvents_append (a b : List Event) :
    stageEvents (a ++ b) = stageEvents a ++ stageEvents b := by
  simp [stageEvents]

/-- Events that are no invocation through `populate_progress` are no stage events. -/
theorem stageEvents_eq_nil (n : Nat) (l : List Event)
    (h : ∀ e ∈ l, e.isOverall = true →
      ∃ a, e = Event.overall 0 n 0 0 a ∨ e = Event.overall n n 0 0 a) :
    stageEvents l = [] := by
  unfold stageEvents
  rw [List.filter_eq_nil_iff]
  intro e he
  cases e with
  | call m => simp
  | progress c t a => simp
  | overall s k c t a =>
    rcases h _ he rfl with ⟨a2, h1 | h1⟩
    · cases h1; simp
    · cases h1; simp

/-- Invocations with an overall step of at least 1 and below the total are all stage
events. -/
theorem stageEvents_eq_self (s n : Nat) (hs : 0 < s) (hn : s < n) (l : List Event)
    (h : ∀ e ∈ l, ∃ c t a, e = Event.overall s n c t a) : stageEvents l = l := by
  unfold stageEvents
  rw [List.filter_eq_self]
  intro e he
  obtain ⟨c, t, a, rfl⟩ := h e he
  simp [hs, hn]

/-- The shape of the trace of a call that runs up to two routines with
`populate_progress`: its stage events are those of the two routines, none of them follows
one that returned false, and every other invocation of the callback is a direct one, with
overall step 0 or the total. -/
theorem stage_shape (s1 s2 n : Nat) (pre new1 mid new2 tail : List Event)
    (hpre : ∀ e ∈ pre, e.isOverall = true →
      ∃ a, e = Event.overall 0 n 0 0 a ∨ e = Event.overall n n 0 0 a)
    (hmid : ∀ e ∈ mid, e.isOverall = true →
      ∃ a, e = Event.overall 0 n 0 0 a ∨ e = Event.overall n n 0 0 a)
    (htail : ∀ e ∈ tail, e.isOverall = true →
      ∃ a, e = Event.overall 0 n 0 0 a ∨ e = Event.overall n n 0 0 a)
    (h1 : ∀ e ∈ new1, ∃ c t a, e = Event.overall s1 n c t a)
    (h2 : ∀ e ∈ new2, ∃ c t a, e = Event.overall s2 n c t a)
    (hs1 : 0 < s1 ∧ s1 < n) (hs2 : new2 = [] ∨ (0 < s2 ∧ s2 < n))
    (q1 : quietAfterAbort new1 = true) (q2 : quietAfterAbort new2 = true)
    (hc : allContinue new1 = true ∨ new2 = []) :
    quietAfterAbort (stageEvents (pre ++ (new1 ++ (mid ++ (new2 ++ tail))))) = true ∧
    ∀ e ∈ pre ++ (new1 ++ (mid ++ (new2 ++ tail))), e.isOverall = true →
      e ∈ stageEvents (pre ++ (new1 ++ (mid ++ (new2 ++ tail)))) ∨
      ∃ a, e = Event.overall 0 n 0 0 a ∨ e = Event.overall n n 0 0 a := by
  have e2 : stageEvents new2 = new2 := by
    rcases hs2 with h | h
    · subst h; rfl
    · exact stageEvents_eq_self s2 n h.1 h.2 new2 h2
  have hst : stageEvents (pre ++ (new1 ++ (mid ++ (new2 ++ tail)))) = new1 ++ new2 := by
    simp only [stageEvents_append, stageEvents_eq_nil n pre hpre, stageEvents_eq_nil n mid hmid,
      stageEvents_eq_nil n tail htail, stageEvents_eq_self s1 n hs1.1 hs1.2 new1 h1, e2,
      List.nil_append, List.append_nil]
  rw [hst]
  constructor
  · rcases hc with hc | hc
    · rw [quietAfterAbort_append_of_allContinue _ _ hc]; exact q2
    · subst hc; simpa using q1
  · intro e he ho
    simp only [List.mem_append] at he ⊢
    rcases he with he | he | he | he | he
    · exact Or.inr (hpre e he ho)
    · exact Or.inl (Or.inl he)
    · exact Or.inr (hmid e he ho)
    · exact Or.inl (Or.inr he)
    · exact Or.inr (htail e he ho)

section Progress

variable {E L B F M : Type}

/-- In one call of `learn_bg` no invocation of the callback follows one that returned
false. -/
theorem learn_bg_quiet (env : Collab E L B F M) (repo_directory bg_file : String)
    (num_images max_offset : Nat) (progress_cb : Option overall_progress_cb_t)
    (accurate_autocorrelation : Bool) (w : World E L) :
    ∃ new, (learn_bg env repo_directory bg_file num_images max_offset progress_cb
        accurate_autocorrelation w).2.trace = w.trace ++ new ∧
      quietAfterAbort new = true := by
  unfold learn_bg
  split
  · exact ⟨[], by simp, rfl⟩
  · dsimp only
    generalize hr1 : runStage _ () (env.learnMean _ _ _) _ = r1
    obtain ⟨new1, a1, -, a3, a4, -, -, -, -⟩ := runStage_populate_progress_eq _ _ _ _ _ hr1
    obtain ⟨⟨ret1, bg1, it1⟩, p1, tr1⟩ := r1
    simp only at a1 a4 ⊢
    subst a1
    cases ret1 with
    | raise e =>
      cases e with
      | UseBeforeSetupException =>
        refine ⟨[Event.call Method.learnMean] ++ new1, by simp [World.log], ?_⟩
        simpa [quietAfterAbort] using a3
      | other =>
        refine ⟨[Event.call Method.learnMean] ++ new1, by simp [World.log], ?_⟩
        simpa [quietAfterAbort] using a3
    | ok u =>
      cases hab1 : p1.aborted with
      | true =>
        refine ⟨[Event.call Method.learnMean] ++ new1, by simp [World.log], ?_⟩
        simpa [quietAfterAbort] using a3
      | false =>
        have c1 : allContinue new1 = true := a4 hab1
        simp only [Bool.false_eq_true, if_false]
        cases accurate_autocorrelation with
        | true =>
          simp only [if_true]
          generalize hr2 : runStage _ () (env.learnCovariance_accurate _ _ _ _) _ = r2
          obtain ⟨new2, b1, -, b3, b4, -, -, -, -⟩ := runStage_populate_progress_eq _ _ _ _ _ hr2
          obtain ⟨⟨ret2, bg2, it2⟩, p2, tr2⟩ := r2
          simp only at b1 b4 ⊢
          subst b1
          cases ret2 with
          | raise e =>
            refine ⟨Event.call Method.learnMean ::
              (new1 ++ Event.call Method.learnCovariance_accurate :: new2),
              by simp [World.log], quietAfterAbort_two_stages _ _ _ _ c1 b3⟩
          | ok u2 =>
            cases hab2 : p2.aborted with
            | true =>
              refine ⟨Event.call Method.learnMean ::
                (new1 ++ Event.call Method.learnCovariance_accurate :: new2),
                by simp [World.log], quietAfterAbort_two_stages _ _ _ _ c1 b3⟩
            | false =>
              have c2 : allContinue new2 = true := b4 hab2
              cases progress_cb with
              | none =>
                refine ⟨Event.call Method.learnMean ::
                  (new1 ++ Event.call Method.learnCovariance_accurate ::
                    (new2 ++ [Event.call Method.writeToFile])),
                  by simp [World.log], quietAfterAbort_two_stages _ _ _ _ c1 ?_⟩
                exact quietAfterAbort_append_calls _ _ b3 (by simp [Event.isOverall])
              | some cb =>
                refine ⟨Event.call Method.learnMean ::
                  (new1 ++ Event.call Method.learnCovariance_accurate ::
                    (new2 ++ Event.overall p2.overall_steps_total p2.overall_steps_total 0 0
                      (cb (w.trace ++ Event.call Method.learnMean ::
                        (new1 ++ Event.call Method.learnCovariance_accurate :: new2))
                        p2.overall_steps_total p2.overall_steps_total 0 0) ::
                      [Event.call Method.writeToFile])),
                  by simp [World.log, callOverall], quietAfterAbort_two_stages _ _ _ _ c1 ?_⟩
                exact quietAfterAbort_final _ c2 _ _ _ _ _ _ (by simp [Event.isOverall])
        | false =>
          simp only [Bool.false_eq_true, if_false]
          generalize hr2 : runStage _ () (env.learnCovariance _ _ _ _) _ = r2
          obtain ⟨new2, b1, -, b3, b4, -, -, -, -⟩ := runStage_populate_progress_eq _ _ _ _ _ hr2
          obtain ⟨⟨ret2, bg2, it2⟩, p2, tr2⟩ := r2
          simp only at b1 b4 ⊢
          subst b1
          cases ret2 with
          | raise e =>
            refine ⟨Event.call Method.learnMean ::
              (new1 ++ Event.call Method.learnCovariance :: new2),
              by simp [World.log], quietAfterAbort_two_stages _ _ _ _ c1 b3⟩
          | ok u2 =>
            cases hab2 : p2.aborted with
            | true =>
              refine ⟨Event.call Method.learnMean ::
                (new1 ++ Event.call Method.learnCovariance :: new2),
                by simp [World.log], quietAfterAbort_two_stages _ _ _ _ c1 b3⟩
            | false =>
              have c2 : allContinue new2 = true := b4 hab2
              cases progress_cb with
              | none =>
                refine ⟨Event.call Method.learnMean ::
                  (new1 ++ Event.call Method.learnCovariance ::
                    (new2 ++ [Event.call Method.writeToFile])),
                  by simp [World.log], quietAfterAbort_two_stages _ _ _ _ c1 ?_⟩
                exact quietAfterAbort_append_calls _ _ b3 (by simp [Event.isOverall])
              | some cb =>
                refine ⟨Event.call Method.learnMean ::
                  (new1 ++ Event.call Method.learnCovariance ::
                    (new2 ++ Event.overall p2.overall_steps_total p2.overall_steps_total 0 0
                      (cb (w.trace ++ Event.call Method.learnMean ::
                        (new1 ++ Event.call Method.learnCovariance :: new2))
                        p2.overall_steps_total p2.overall_steps_total 0 0) ::
                      [Event.call Method.writeToFile])),
                  by simp [World.log, callOverall], quietAfterAbort_two_stages _ _ _ _ c1 ?_⟩
                exact quietAfterAbort_final _ c2 _ _ _ _ _ _ (by simp [Event.isOverall])


/-- The trace of the statements from `learn` to the end of `learn_imagenet` and
`learn_files_jpeg`. -/
theorem learn_and_save_trace (env : Collab E L B F M) (opt : L → Stage (Ret Unit × L))
    (learner : L) (p : progress_params) (progress_cb : Option overall_progress_cb_t)
    (modelfile : String) (add : Bool) (max_aspect_clusters max_who_clusters th_opt_mode : Nat)
    (w : World E L) (hs : p.overall_step = 0)
    (hn : p.overall_steps_total = if th_opt_mode = ARTOS_THOPT_NONE then 2 else 3) :
    ∃ new, (learn_and_save env opt learner p progress_cb modelfile add max_aspect_clusters
        max_who_clusters th_opt_mode w).2.trace = w.trace ++ new ∧
      quietAfterAbort (stageEvents new) = true ∧
      ∀ e ∈ new, e.isOverall = true → e ∈ stageEvents new ∨
        ∃ a, e = Event.overall 0 p.overall_steps_total 0 0 a ∨
          e = Event.overall p.overall_steps_total p.overall_steps_total 0 0 a := by
  unfold learn_and_save
  dsimp only
  generalize hr1 : runStage _ () (env.learn _ _ _) _ = r1
  obtain ⟨new1, a1, a2, a3, a4, -, a6, a7, -⟩ := runStage_populate_progress_eq _ _ _ _ _ hr1
  obtain ⟨⟨ret1, l1⟩, p1, tr1⟩ := r1
  simp only at a1 a2 a4 a6 a7 ⊢
  subst a1
  rw [hs] at a2 a6
  have hn2 : 2 ≤ p.overall_steps_total := by rw [hn]; split <;> omega
  have hpre : ∀ e ∈ [Event.call Method.learn], e.isOverall = true →
      ∃ a, e = Event.overall 0 p.overall_steps_total 0 0 a ∨
        e = Event.overall p.overall_steps_total p.overall_steps_total 0 0 a := by
    simp [Event.isOverall]
  have hnil : ∀ e ∈ ([] : List Event), e.isOverall = true →
      ∃ a, e = Event.overall 0 p.overall_steps_total 0 0 a ∨
        e = Event.overall p.overall_steps_total p.overall_steps_total 0 0 a := by
    simp
  have h2nil : ∀ e ∈ ([] : List Event),
      ∃ c t a, e = Event.overall 2 p.overall_steps_total c t a := by simp
  have short : ∃ new, (w.log (Event.call Method.learn)).trace ++ new1 = w.trace ++ new ∧
      quietAfterAbort (stageEvents new) = true ∧
      ∀ e ∈ new, e.isOverall = true → e ∈ stageEvents new ∨
        ∃ a, e = Event.overall 0 p.overall_steps_total 0 0 a ∨
          e = Event.overall p.overall_steps_total p.overall_steps_total 0 0 a := by
    refine ⟨[Event.call Method.learn] ++ (new1 ++ ([] ++ ([] ++ []))), by simp [World.log], ?_⟩
    exact stage_shape 1 2 _ _ _ _ _ _ hpre hnil hnil a2 h2nil ⟨by omega, by omega⟩
      (Or.inl rfl) a3 rfl (Or.inr rfl)
  cases ret1 with
  | raise e =>
    cases e with
    | UseBeforeSetupException =>
      simpa [ARTOS_LEARN_RES_FEATURE_EXTRACTOR_NOT_READY, ARTOS_RES_OK] using short
    | other => simpa using short
  | ok res =>
    simp only
    by_cases hres : res = ARTOS_RES_OK
    · simp only [hres, ne_eq, not_true_eq_false, if_false]
      have hsave : ∀ e ∈ [Event.call Method.save], e.isOverall = true →
          ∃ a, e = Event.overall 0 p.overall_steps_total 0 0 a ∨
            e = Event.overall p.overall_steps_total p.overall_steps_total 0 0 a := by
        simp [Event.isOverall]
      have hfinal : ∀ x : Bool, ∀ e ∈ [Event.call Method.save,
            Event.overall p.overall_steps_total p.overall_steps_total 0 0 x],
          e.isOverall = true →
          ∃ a, e = Event.overall 0 p.overall_steps_total 0 0 a ∨
            e = Event.overall p.overall_steps_total p.overall_steps_total 0 0 a := by
        intro x e he ho
        simp only [List.mem_cons, List.mem_singleton, List.not_mem_nil, or_false] at he
        rcases he with rfl | rfl
        · simp [Event.isOverall] at ho
        · exact ⟨x, Or.inr rfl⟩
      by_cases hth : th_opt_mode = ARTOS_THOPT_NONE
      · simp only [hth, not_true_eq_false, if_false]
        cases hsv : env.save l1 modelfile add with
        | false =>
          refine ⟨[Event.call Method.learn] ++ (new1 ++ ([] ++ ([] ++ [Event.call Method.save]))),
            by simp [World.log], ?_⟩
          exact stage_shape 1 2 _ _ _ _ _ _ hpre hnil hsave a2 h2nil ⟨by omega, by omega⟩
            (Or.inl rfl) a3 rfl (Or.inr rfl)
        | true =>
          cases progress_cb with
          | none =>
            refine ⟨[Event.call Method.learn] ++
              (new1 ++ ([] ++ ([] ++ [Event.call Method.save]))), by simp [World.log], ?_⟩
            exact stage_shape 1 2 _ _ _ _ _ _ hpre hnil hsave a2 h2nil ⟨by omega, by omega⟩
              (Or.inl rfl) a3 rfl (Or.inr rfl)
          | some cb =>
            refine ⟨[Event.call Method.learn] ++ (new1 ++ ([] ++ ([] ++
              [Event.call Method.save, Event.overall p.overall_steps_total
                p.overall_steps_total 0 0 (cb (w.trace ++ Event.call Method.learn ::
                  (new1 ++ [Event.call Method.save])) p.overall_steps_total
                  p.overall_steps_total 0 0)]))),
              by simp [World.log, callOverall, a7], ?_⟩
            exact stage_shape 1 2 _ _ _ _ _ _ hpre hnil (hfinal _) a2 h2nil
              ⟨by omega, by omega⟩ (Or.inl rfl) a3 rfl (Or.inr rfl)
      · simp only [hth, not_false_eq_true, if_true]
        have hn3 : p.overall_steps_total = 3 := by rw [hn, if_neg hth]
        generalize hr2 : runStage _ () (opt _) _ = r2
        obtain ⟨new2, b1, b2, b3, b4, b5, b6, b7, -⟩ :=
          runStage_populate_progress_eq _ _ _ _ _ hr2
        obtain ⟨⟨ret2, l2⟩, p2, tr2⟩ := r2
        simp only at b1 b2 b4 b5 b6 b7 ⊢
        subst b1
        rw [a6, a7] at b2
        have hopt : ∀ e ∈ [Event.call Method.optimizeThreshold], e.isOverall = true →
            ∃ a, e = Event.overall 0 p.overall_steps_total 0 0 a ∨
              e = Event.overall p.overall_steps_total p.overall_steps_total 0 0 a := by
          simp [Event.isOverall]
        have hc : allContinue new1 = true ∨ new2 = [] := by
          cases hab : p1.aborted with
          | false => exact Or.inl (a4 hab)
          | true => exact Or.inr (b5 hab).1
        cases ret2 with
        | raise e =>
          refine ⟨[Event.call Method.learn] ++ (new1 ++ ([Event.call Method.optimizeThreshold] ++
            (new2 ++ []))), by simp [World.log], ?_⟩
          exact stage_shape 1 2 _ _ _ _ _ _ hpre hopt hnil a2 b2 ⟨by omega, by omega⟩
            (Or.inr ⟨by omega, by omega⟩) a3 b3 hc
        | ok u2 =>
          simp only
          cases hsv : env.save l2 modelfile add with
          | false =>
            refine ⟨[Event.call Method.learn] ++ (new1 ++
              ([Event.call Method.optimizeThreshold] ++ (new2 ++ [Event.call Method.save]))),
              by simp [World.log], ?_⟩
            exact stage_shape 1 2 _ _ _ _ _ _ hpre hopt hsave a2 b2 ⟨by omega, by omega⟩
              (Or.inr ⟨by omega, by omega⟩) a3 b3 hc
          | true =>
            cases progress_cb with
            | none =>
              refine ⟨[Event.call Method.learn] ++ (new1 ++
                ([Event.call Method.optimizeThreshold] ++ (new2 ++ [Event.call Method.save]))),
                by simp [World.log], ?_⟩
              exact stage_shape 1 2 _ _ _ _ _ _ hpre hopt hsave a2 b2 ⟨by omega, by omega⟩
                (Or.inr ⟨by omega, by omega⟩) a3 b3 hc
            | some cb =>
              refine ⟨[Event.call Method.learn] ++ (new1 ++
                ([Event.call Method.optimizeThreshold] ++ (new2 ++
                  [Event.call Method.save, Event.overall p.overall_steps_total
                    p.overall_steps_total 0 0 (cb (w.trace ++ Event.call Method.learn ::
                      (new1 ++ Event.call Method.optimizeThreshold ::
                        (new2 ++ [Event.call Method.save]))) p.overall_steps_total
                      p.overall_steps_total 0 0)]))),
                by simp [World.log, callOverall, a7, b7], ?_⟩
              exact stage_shape 1 2 _ _ _ _ _ _ hpre hopt (hfinal _) a2 b2
                ⟨by omega, by omega⟩ (Or.inr ⟨by omega, by omega⟩) a3 b3 hc
    · simpa [hres] using short

/-- Events that are no stage events in front of a trace change neither its stage events
nor what holds of its invocations. -/
theorem stage_prefix (n : Nat) (pre rest : List Event)
    (hpre : ∀ e ∈ pre, e.isOverall = true →
      ∃ a, e = Event.overall 0 n 0 0 a ∨ e = Event.overall n n 0 0 a)
    (hq : quietAfterAbort (stageEvents rest) = true)
    (hcl : ∀ e ∈ rest, e.isOverall = true → e ∈ stageEvents rest ∨
      ∃ a, e = Event.overall 0 n 0 0 a ∨ e = Event.overall n n 0 0 a) :
    quietAfterAbort (stageEvents (pre ++ rest)) = true ∧
    ∀ e ∈ pre ++ rest, e.isOverall = true → e ∈ stageEvents (pre ++ rest) ∨
      ∃ a, e = Event.overall 0 n 0 0 a ∨ e = Event.overall n n 0 0 a := by
  have hst : stageEvents (pre ++ rest) = stageEvents rest := by
    rw [stageEvents_append, stageEvents_eq_nil n pre hpre, List.nil_append]
  rw [hst]
  refine ⟨hq, ?_⟩
  intro e he ho
  rcases List.mem_append.mp he with he | he
  · exact Or.inr (hpre e he ho)
  · exact hcl e he ho

/-- The loop of `learn_files_jpeg` adds only calls of `addPositiveSample` to the trace. -/
theorem add_files_trace (env : Collab E L B F M) (imagefiles : Nat → String)
    (bounding_boxes : Option (Nat → FlatBoundingBox)) (idx : List Nat)
    (st : L × Rectangle × World E L) :
    ∃ calls, (add_files env imagefiles bounding_boxes idx st).2.2.trace
        = st.2.2.trace ++ calls ∧ ∀ e ∈ calls, e.isOverall = false := by
  induction idx generalizing st with
  | nil => exact ⟨[], by simp [add_files], by simp⟩
  | cons i rest ih =>
    obtain ⟨learner, bbox, w⟩ := st
    cases bounding_boxes with
    | none =>
      unfold add_files
      dsimp only
      split
      · obtain ⟨calls, h1, h2⟩ := ih (env.addPositiveSample1 learner
          (env.JPEGImage_file (imagefiles i)) bbox, bbox, w.log (.call .addPositiveSample))
        refine ⟨Event.call Method.addPositiveSample :: calls, ?_, ?_⟩
        · rw [h1]; simp [World.log]
        · intro e he
          rcases List.mem_cons.mp he with rfl | he
          · rfl
          · exact h2 e he
      · exact ih _
    | some boxes =>
      unfold add_files
      dsimp only
      split
      · obtain ⟨calls, h1, h2⟩ := ih (env.addPositiveSample1 learner
          (env.JPEGImage_file (imagefiles i))
          (Rectangle_of_flat (boxes i)), Rectangle_of_flat (boxes i),
          w.log (.call .addPositiveSample))
        refine ⟨Event.call Method.addPositiveSample :: calls, ?_, ?_⟩
        · rw [h1]; simp [World.log]
        · intro e he
          rcases List.mem_cons.mp he with rfl | he
          · rfl
          · exact h2 e he
      · exact ih _

/-- The trace of one call of `learn_imagenet`. -/
theorem learn_imagenet_trace (env : Collab E L B F M)
    (repo_directory synset_id bg_file modelfile : String) (add : Bool)
    (max_aspect_clusters max_who_clusters th_opt_num_positive th_opt_num_negative
      th_opt_mode : Nat) (progress_cb : Option overall_progress_cb_t) (debug : Bool)
    (w : World E L) :
    ∃ new, (learn_imagenet env repo_directory synset_id bg_file modelfile add
        max_aspect_clusters max_who_clusters th_opt_num_positive th_opt_num_negative
        th_opt_mode progress_cb debug w).2.trace = w.trace ++ new ∧
      quietAfterAbort (stageEvents new) = true ∧
      ∀ e ∈ new, e.isOverall = true → e ∈ stageEvents new ∨
        ∃ a, e = Event.overall 0 (if th_opt_mode = ARTOS_THOPT_NONE then 2 else 3) 0 0 a ∨
          e = Event.overall (if th_opt_mode = ARTOS_THOPT_NONE then 2 else 3)
            (if th_opt_mode = ARTOS_THOPT_NONE then 2 else 3) 0 0 a := by
  have hempty : ∃ new : List Event, w.trace = w.trace ++ new ∧
      quietAfterAbort (stageEvents new) = true ∧
      ∀ e ∈ new, e.isOverall = true → e ∈ stageEvents new ∨
        ∃ a, e = Event.overall 0 (if th_opt_mode = ARTOS_THOPT_NONE then 2 else 3) 0 0 a ∨
          e = Event.overall (if th_opt_mode = ARTOS_THOPT_NONE then 2 else 3)
            (if th_opt_mode = ARTOS_THOPT_NONE then 2 else 3) 0 0 a :=
    ⟨[], by simp, rfl, by simp⟩
  unfold learn_imagenet
  split
  · exact hempty
  · dsimp only
    split
    · exact hempty
    · split
      · exact hempty
      · cases progress_cb with
        | none =>
          have hpre : ∀ e ∈ [Event.call Method.addPositiveSamplesFromSynset],
              e.isOverall = true →
              ∃ a, e = Event.overall 0 (if th_opt_mode = ARTOS_THOPT_NONE then 2 else 3) 0 0 a ∨
                e = Event.overall (if th_opt_mode = ARTOS_THOPT_NONE then 2 else 3)
                  (if th_opt_mode = ARTOS_THOPT_NONE then 2 else 3) 0 0 a := by
            simp [Event.isOverall]
          dsimp only
          split
          · refine ⟨[Event.call Method.addPositiveSamplesFromSynset] ++ [], by simp [World.log], ?_⟩
            exact stage_prefix _ _ _ hpre rfl (by simp)
          · obtain ⟨rest, h1, h2, h3⟩ := learn_and_save_trace env
              (fun l => env.optimizeThreshold l th_opt_num_positive th_opt_num_negative)
              (env.addPositiveSamplesFromSynset (env.mk_ImageNetModelLearner
                (env.StationaryBackground_file bg_file) repo_directory
                (th_opt_mode == ARTOS_THOPT_LOOCV) debug)
                (env.getSynset repo_directory synset_id) none).2
              { cb := none, overall_step := 0,
                overall_steps_total := if th_opt_mode = ARTOS_THOPT_NONE then 2 else 3,
                aborted := false }
              none modelfile add max_aspect_clusters max_who_clusters th_opt_mode
              (w.log (.call .addPositiveSamplesFromSynset)) rfl rfl
            refine ⟨[Event.call Method.addPositiveSamplesFromSynset] ++ rest, ?_, ?_⟩
            · rw [h1]; simp [World.log]
            · exact stage_prefix _ _ _ hpre h2 h3
        | some cb =>
          have hpre : ∀ e ∈ [Event.overall 0 (if th_opt_mode = ARTOS_THOPT_NONE then 2 else 3) 0 0
                (cb w.trace 0 (if th_opt_mode = ARTOS_THOPT_NONE then 2 else 3) 0 0),
                Event.call Method.addPositiveSamplesFromSynset],
              e.isOverall = true →
              ∃ a, e = Event.overall 0 (if th_opt_mode = ARTOS_THOPT_NONE then 2 else 3) 0 0 a ∨
                e = Event.overall (if th_opt_mode = ARTOS_THOPT_NONE then 2 else 3)
                  (if th_opt_mode = ARTOS_THOPT_NONE then 2 else 3) 0 0 a := by
            intro e he ho
            simp only [List.mem_cons, List.mem_singleton, List.not_mem_nil, or_false] at he
            rcases he with rfl | rfl
            · exact ⟨_, Or.inl rfl⟩
            · simp [Event.isOverall] at ho
          dsimp only
          split
          · refine ⟨[Event.overall 0 (if th_opt_mode = ARTOS_THOPT_NONE then 2 else 3) 0 0
                (cb w.trace 0 (if th_opt_mode = ARTOS_THOPT_NONE then 2 else 3) 0 0),
                Event.call Method.addPositiveSamplesFromSynset] ++ [],
              by simp [World.log, callOverall], ?_⟩
            exact stage_prefix _ _ _ hpre rfl (by simp)
          · obtain ⟨rest, h1, h2, h3⟩ := learn_and_save_trace env
              (fun l => env.optimizeThreshold l th_opt_num_positive th_opt_num_negative)
              (env.addPositiveSamplesFromSynset (env.mk_ImageNetModelLearner
                (env.StationaryBackground_file bg_file) repo_directory
                (th_opt_mode == ARTOS_THOPT_LOOCV) debug)
                (env.getSynset repo_directory synset_id) none).2
              { cb := some cb, overall_step := 0,
                overall_steps_total := if th_opt_mode = ARTOS_THOPT_NONE then 2 else 3,
                aborted := false }
              (some cb) modelfile add max_aspect_clusters max_who_clusters th_opt_mode
              ((callOverall cb 0 (if th_opt_mode = ARTOS_THOPT_NONE then 2 else 3) 0 0 w).log
                (.call .addPositiveSamplesFromSynset)) rfl rfl
            refine ⟨[Event.overall 0 (if th_opt_mode = ARTOS_THOPT_NONE then 2 else 3) 0 0
                (cb w.trace 0 (if th_opt_mode = ARTOS_THOPT_NONE then 2 else 3) 0 0),
                Event.call Method.addPositiveSamplesFromSynset] ++ rest, ?_, ?_⟩
            · rw [h1]; simp [World.log, callOverall]
            · exact stage_prefix _ _ _ hpre h2 h3

/-- The trace of one call of `learn_files_jpeg`. -/
theorem learn_files_jpeg_trace (env : Collab E L B F M) (imagefiles : Nat → String)
    (num_imagefiles : Nat) (bounding_boxes : Option (Nat → FlatBoundingBox))
    (bg_file modelfile : String) (add : Bool)
    (max_aspect_clusters max_who_clusters th_opt_mode : Nat)
    (progress_cb : Option overall_progress_cb_t) (debug : Bool) (w : World E L) :
    ∃ new, (learn_files_jpeg env imagefiles num_imagefiles bounding_boxes bg_file modelfile
        add max_aspect_clusters max_who_clusters th_opt_mode progress_cb debug w).2.trace
        = w.trace ++ new ∧
      quietAfterAbort (stageEvents new) = true ∧
      ∀ e ∈ new, e.isOverall = true → e ∈ stageEvents new ∨
        ∃ a, e = Event.overall 0 (if th_opt_mode = ARTOS_THOPT_NONE then 2 else 3) 0 0 a ∨
          e = Event.overall (if th_opt_mode = ARTOS_THOPT_NONE then 2 else 3)
            (if th_opt_mode = ARTOS_THOPT_NONE then 2 else 3) 0 0 a := by
  unfold learn_files_jpeg
  dsimp only
  split
  · exact ⟨[], by simp, rfl, by simp⟩
  · cases progress_cb with
    | none =>
      dsimp only
      obtain ⟨calls, c1, c2⟩ := add_files_trace env imagefiles bounding_boxes
        (List.range num_imagefiles)
        (env.mk_ModelLearner (env.StationaryBackground_file bg_file)
          (th_opt_mode == ARTOS_THOPT_LOOCV) debug, env.Rectangle_new, w)
      obtain ⟨rest, h1, h2, h3⟩ := learn_and_save_trace env (fun l => env.optimizeThreshold0 l)
        (add_files env imagefiles bounding_boxes (List.range num_imagefiles)
          (env.mk_ModelLearner (env.StationaryBackground_file bg_file)
            (th_opt_mode == ARTOS_THOPT_LOOCV) debug, env.Rectangle_new, w)).1
        { cb := none, overall_step := 0,
          overall_steps_total := if th_opt_mode = ARTOS_THOPT_NONE then 2 else 3,
          aborted := false }
        none modelfile add max_aspect_clusters max_who_clusters th_opt_mode
        (add_files env imagefiles bounding_boxes (List.range num_imagefiles)
          (env.mk_ModelLearner (env.StationaryBackground_file bg_file)
            (th_opt_mode == ARTOS_THOPT_LOOCV) debug, env.Rectangle_new, w)).2.2 rfl rfl
      refine ⟨calls ++ rest, ?_, ?_⟩
      · rw [h1, c1]; simp
      · refine stage_prefix _ _ _ ?_ h2 h3
        intro e he ho
        rw [c2 e he] at ho
        cases ho
    | some cb =>
      dsimp only
      obtain ⟨calls, c1, c2⟩ := add_files_trace env imagefiles bounding_boxes
        (List.range num_imagefiles)
        (env.mk_ModelLearner (env.StationaryBackground_file bg_file)
          (th_opt_mode == ARTOS_THOPT_LOOCV) debug, env.Rectangle_new,
          callOverall cb 0 (if th_opt_mode = ARTOS_THOPT_NONE then 2 else 3) 0 0 w)
      obtain ⟨rest, h1, h2, h3⟩ := learn_and_save_trace env (fun l => env.optimizeThreshold0 l)
        (add_files env imagefiles bounding_boxes (List.range num_imagefiles)
          (env.mk_ModelLearner (env.StationaryBackground_file bg_file)
            (th_opt_mode == ARTOS_THOPT_LOOCV) debug, env.Rectangle_new,
            callOverall cb 0 (if th_opt_mode = ARTOS_THOPT_NONE then 2 else 3) 0 0 w)).1
        { cb := some cb, overall_step := 0,
          overall_steps_total := if th_opt_mode = ARTOS_THOPT_NONE then 2 else 3,
          aborted := false }
        (some cb) modelfile add max_aspect_clusters max_who_clusters th_opt_mode
        (add_files env imagefiles bounding_boxes (List.range num_imagefiles)
          (env.mk_ModelLearner (env.StationaryBackground_file bg_file)
            (th_opt_mode == ARTOS_THOPT_LOOCV) debug, env.Rectangle_new,
            callOverall cb 0 (if th_opt_mode = ARTOS_THOPT_NONE then 2 else 3) 0 0 w)).2.2
        rfl rfl
      refine ⟨(Event.overall 0 (if th_opt_mode = ARTOS_THOPT_NONE then 2 else 3) 0 0
          (cb w.trace 0 (if th_opt_mode = ARTOS_THOPT_NONE then 2 else 3) 0 0) :: calls)
          ++ rest, ?_, ?_⟩
      · rw [h1, c1]; simp [callOverall, World.log]
      · refine stage_prefix _ _ _ ?_ h2 h3
        intro e he ho
        rcases List.mem_cons.mp he with rfl | he
        · exact ⟨_, Or.inl rfl⟩
        · rw [c2 e he] at ho
          cases ho

/-- Once the flag is set, a routine that is handed `populate_progress` leaves the struct
and the trace as they are. -/
theorem run_populate_progress_latched {ρ : Type} (st : Stage ρ) (p : progress_params)
    (tr : List Event) (h : p.aborted = true) :
    (st.run (fun c t => populate_progress c t ()) (p, tr)).2 = (p, tr) := by
  induction st with
  | done r => rfl
  | report c t next ih =>
    have hstep : populate_progress c t () (p, tr) = (false, (p, tr)) := by
      simp [populate_progress, h]
    simp only [Stage.run, hstep]
    exact ih false

/-- C10, as amended: `populate_progress`, once its flag `aborted` is set, returns false on
every later call without invoking the callback, and a routine that is handed
`populate_progress` with the flag set leaves struct and trace as they are.  In one call of
`learn_bg`, no invocation of the callback follows one that returned false.  In one call of
`learn_imagenet` or `learn_files_jpeg`, among the invocations made through
`populate_progress` (those that report an overall step of at least 1 and below the total)
none follows one that returned false; every other invocation of the callback in the call
is a direct one, `(0, total, 0, 0)` or `(total, total, 0, 0)`. -/
theorem abort_latch_of_populate_progress (env : Collab E L B F M) (w : World E L)
    (repo_directory synset_id bg_file modelfile : String) (add debug accurate : Bool)
    (max_aspect_clusters max_who_clusters th_opt_num_positive th_opt_num_negative
      th_opt_mode num_images max_offset num_imagefiles : Nat)
    (imagefiles : Nat → String) (bounding_boxes : Option (Nat → FlatBoundingBox))
    (progress_cb : Option overall_progress_cb_t) :
    (∀ (cur total : Nat) (d : progress_params × List Event), d.1.aborted = true →
      populate_progress cur total () d = (false, d)) ∧
    (∀ (st : Stage (Ret Int × L)) (p : progress_params) (tr : List Event),
      p.aborted = true → (st.run (fun c t => populate_progress c t ()) (p, tr)).2 = (p, tr)) ∧
    (∃ new, (learn_bg env repo_directory bg_file num_images max_offset progress_cb
        accurate w).2.trace = w.trace ++ new ∧ quietAfterAbort new = true) ∧
    (∃ new, (learn_imagenet env repo_directory synset_id bg_file modelfile add
        max_aspect_clusters max_who_clusters th_opt_num_positive th_opt_num_negative
        th_opt_mode progress_cb debug w).2.trace = w.trace ++ new ∧
      quietAfterAbort (stageEvents new) = true ∧
      ∀ e ∈ new, e.isOverall = true → e ∈ stageEvents new ∨
        ∃ a, e = Event.overall 0 (if th_opt_mode = ARTOS_THOPT_NONE then 2 else 3) 0 0 a ∨
          e = Event.overall (if th_opt_mode = ARTOS_THOPT_NONE then 2 else 3)
            (if th_opt_mode = ARTOS_THOPT_NONE then 2 else 3) 0 0 a) ∧
    (∃ new, (learn_files_jpeg env imagefiles num_imagefiles bounding_boxes bg_file modelfile
        add max_aspect_clusters max_who_clusters th_opt_mode progress_cb debug w).2.trace
        = w.trace ++ new ∧
      quietAfterAbort (stageEvents new) = true ∧
      ∀ e ∈ new, e.isOverall = true → e ∈ stageEvents new ∨
        ∃ a, e = Event.overall 0 (if th_opt_mode = ARTOS_THOPT_NONE then 2 else 3) 0 0 a ∨
          e = Event.overall (if th_opt_mode = ARTOS_THOPT_NONE then 2 else 3)
            (if th_opt_mode = ARTOS_THOPT_NONE then 2 else 3) 0 0 a) := by
  refine ⟨?_, fun st p tr h => run_populate_progress_latched st p tr h,
    learn_bg_quiet env repo_directory bg_file num_images max_offset progress_cb accurate w,
    learn_imagenet_trace env repo_directory synset_id bg_file modelfile add
      max_aspect_clusters max_who_clusters th_opt_num_positive th_opt_num_negative
      th_opt_mode progress_cb debug w,
    learn_files_jpeg_trace env imagefiles num_imagefiles bounding_boxes bg_file modelfile
      add max_aspect_clusters max_who_clusters th_opt_mode progress_cb debug w⟩
  intro cur total d h
  simp [populate_progress, h]

end Progress

/-- C10, counterexample: in `learn_imagenet` with the callback `alwaysStopOverall` the
first invocation `(0, 2, 0, 0)` returns false, and the callback is invoked again, during
`learn` as `(1, 2, 1, 2)` and at the end as `(2, 2, 0, 0)`; the same happens in
`learn_files_jpeg`. -/
theorem callback_invoked_again_after_abort :
    (learn_imagenet demoEnv "r" "s" "bg" "m" false 1 1 0 0 ARTOS_THOPT_NONE
      (some alwaysStopOverall) false demoWorld).2.trace
      = [Event.overall 0 2 0 0 false, Event.call Method.addPositiveSamplesFromSynset,
        Event.call Method.learn, Event.overall 1 2 1 2 false, Event.call Method.save,
        Event.overall 2 2 0 0 false] ∧
    quietAfterAbort (learn_imagenet demoEnv "r" "s" "bg" "m" false 1 1 0 0 ARTOS_THOPT_NONE
      (some alwaysStopOverall) false demoWorld).2.trace = false ∧
    quietAfterAbort (learn_files_jpeg demoEnv (fun _ => "f") 1 none "bg" "m" false 1 1
      ARTOS_THOPT_NONE (some alwaysStopOverall) false demoWorld).2.trace = false := by
  decide

/-- Witness for C10: `populate_progress` on `latchedParams`. -/
theorem abort_latch_of_populate_progress_witness :
    latchedParams.aborted = true ∧
    populate_progress 1 2 () (latchedParams, []) = (false, (latchedParams, [])) :=
  ⟨rfl, (abort_latch_of_populate_progress demoEnv demoWorld "r" "s" "bg" "m" false false false
    1 1 0 0 0 1 1 1 (fun _ => "f") none none).1 1 2 (latchedParams, []) rfl⟩

/-! ## Detection results and the output buffer -/

section DetectionResults

variable {E L B F M : Type}

/-- What the loop of `write_results_to_buffer` does from index `bi` on: it stops at
`bi + min n (k - bi)`, the entries from `bi` up to there hold the detections in order, and
every other entry is as before. -/
theorem write_results_loop_spec (env : Collab E L B F M) (k : Nat) (dets : List Detection)
    (bi : Nat) (buf : Nat → FlatDetection) :
    (write_results_loop env k dets bi buf).2 = bi + min dets.length (k - bi) ∧
    (∀ i d, dets[i]? = some d → bi + i < k →
      (write_results_loop env k dets bi buf).1 (bi + i) = flatten env d) ∧
    (∀ j, j < bi ∨ bi + min dets.length (k - bi) ≤ j →
      (write_results_loop env k dets bi buf).1 j = buf j) := by
  induction dets generalizing bi buf with
  | nil => simp [write_results_loop]
  | cons dit rest ih =>
    unfold write_results_loop
    by_cases hb : bi < k
    · simp only [hb, if_true]
      obtain ⟨h1, h2, h3⟩ := ih (bi + 1) (Function.update buf bi (flatten env dit))
      refine ⟨?_, ?_, ?_⟩
      · rw [h1]
        simp only [List.length_cons, Nat.min_def]
        split <;> split <;> omega
      · intro i d hd hi
        cases i with
        | zero =>
          simp only [List.getElem?_cons_zero, Option.some.injEq] at hd
          subst hd
          show (write_results_loop env k rest (bi + 1)
            (Function.update buf bi (flatten env dit))).1 bi = flatten env dit
          rw [h3 bi (Or.inl (Nat.lt_succ_self bi))]
          simp
        | succ i =>
          simp only [List.getElem?_cons_succ] at hd
          have := h2 i d hd (by omega)
          rw [show bi + (i + 1) = bi + 1 + i by omega]
          exact this
      · intro j hj
        have hj2 : j < bi + 1 ∨ bi + 1 + min rest.length (k - (bi + 1)) ≤ j := by
          simp only [List.length_cons, Nat.min_def] at hj ⊢
          split at hj <;> split <;> omega
        rw [h3 j hj2]
        have hne : j ≠ bi := by
          simp only [List.length_cons, Nat.min_def] at hj
          split at hj <;> omega
        simp [Function.update, hne]
    · simp only [hb, if_false]
      refine ⟨?_, ?_, ?_⟩
      · have : k - bi = 0 := by omega
        simp [this]
      · intro i d _ hi
        omega
      · intro j _
        trivial

/-- Sorting detections yields a list in non-increasing order of score with the same
elements. -/
theorem sortDetections_sorted_perm (env : Collab E L B F M) (detections : List Detection) :
    (sortDetections env detections).Sorted (fun a b => b.score ≤ a.score) ∧
    (sortDetections env detections).Perm detections := by
  haveI : IsTotal Detection (fun a b => b.score ≤ a.score) := ⟨fun a b => le_total _ _⟩
  haveI : IsTrans Detection (fun a b => b.score ≤ a.score) :=
    ⟨fun a b c hab hbc => le_trans hbc hab⟩
  refine ⟨List.sorted_insertionSort _ _, ?_⟩
  unfold sortDetections
  split
  · next h => exact (List.perm_insertionSort _ _).trans h
  · exact List.perm_insertionSort _ _

/-- The order `std::sort` leaves is any order the language allows: when `env.sort_ties`
answers with a rearrangement of the input that is in non-increasing order of score, that
is the result. -/
theorem sortDetections_of_sorted (env : Collab E L B F M) (detections : List Detection)
    (hp : (env.sort_ties detections).Perm detections)
    (hs : (env.sort_ties detections).Sorted (fun a b => b.score ≤ a.score)) :
    sortDetections env detections = env.sort_ties detections := by
  unfold sortDetections
  rw [if_pos hp]
  exact List.Sorted.insertionSort_eq hs

/-- Two detections of the same score come out of the sort in either order, depending on
`sort_ties`. -/
theorem sortDetections_ties :
    sortDetections demoEnv tiedCandidates = tiedCandidates ∧
    sortDetections reverseTiesEnv tiedCandidates = tiedCandidates.reverse := by
  decide

/-- The result of `detect_jpeg` on a valid handle and a decodable image. -/
theorem detect_jpeg_valid (env : Collab E L B F M) (w : World E L) (detector : Nat) (det : E)
    (img : JPEGImage) (detection_buf : Nat → FlatDetection) (k : Nat)
    (hv : is_valid_detector_handle w detector = true) (hd : w.detector detector = some det)
    (hne : img.empty = false) :
    (k = 1 →
      detect_jpeg env detector img detection_buf k w =
        if (env.detectMax det img).1 = ARTOS_RES_OK then
          ((env.detectMax det img).1,
            (write_results_to_buffer env (sortDetections env [(env.detectMax det img).2.1])
              detection_buf k).1,
            (write_results_to_buffer env (sortDetections env [(env.detectMax det img).2.1])
              detection_buf k).2,
            (w.log (.call .detectMax)).setDetector detector (env.detectMax det img).2.2)
        else ((env.detectMax det img).1, detection_buf, 0,
          (w.log (.call .detectMax)).setDetector detector (env.detectMax det img).2.2)) ∧
    (k ≠ 1 →
      detect_jpeg env detector img detection_buf k w =
        if (env.detect det img).1 = ARTOS_RES_OK then
          ((env.detect det img).1,
            (write_results_to_buffer env (sortDetections env (env.detect det img).2.1)
              detection_buf k).1,
            (write_results_to_buffer env (sortDetections env (env.detect det img).2.1)
              detection_buf k).2,
            (w.log (.call .detect)).setDetector detector (env.detect det img).2.2)
        else ((env.detect det img).1, detection_buf, 0,
          (w.log (.call .detect)).setDetector detector (env.detect det img).2.2)) := by
  constructor
  · intro hk
    simp only [detect_jpeg, hv, hd, hne, hk, if_true]
    simp
  · intro hk
    simp only [detect_jpeg, hv, hd, hne, hk, if_false, if_true]
    simp

/-- What `write_results_to_buffer` does with capacity `k`: it reports `min(n, k)`, entry
`i` below the capacity holds detection `i`, and every entry from `min(n, k)` on is as it
was. -/
theorem write_results_to_buffer_spec (env : Collab E L B F M) (dets : List Detection)
    (detection_buf : Nat → FlatDetection) (k : Nat) :
    (write_results_to_buffer env dets detection_buf k).2 = min dets.length k ∧
    (∀ i d, dets[i]? = some d → i < k →
      (write_results_to_buffer env dets detection_buf k).1 i = flatten env d) ∧
    (∀ j, min dets.length k ≤ j →
      (write_results_to_buffer env dets detection_buf k).1 j = detection_buf j) := by
  obtain ⟨h1, h2, h3⟩ := write_results_loop_spec env k dets 0 detection_buf
  refine ⟨by simpa [write_results_to_buffer] using h1, ?_, ?_⟩
  · intro i d hd hi
    have := h2 i d hd (by omega)
    simpa [write_results_to_buffer] using this
  · intro j hj
    exact h3 j (Or.inr (by simpa using hj))

/-- The fields of the entry `write_results_to_buffer` writes for a detection: the two
names, cut to the size of their array less one char and followed by zero chars, the
score, and the bounds of the box. -/
theorem flatten_fields (env : Collab E L B F M) (d : Detection) :
    (flatten env d).classname = d.classname.take (env.sizeof_classname - 1) ++
        List.replicate (env.sizeof_classname
          - (d.classname.take (env.sizeof_classname - 1)).length) 0 ∧
    (flatten env d).synset_id = d.synsetId.take (env.sizeof_synset_id - 1) ++
        List.replicate (env.sizeof_synset_id
          - (d.synsetId.take (env.sizeof_synset_id - 1)).length) 0 ∧
    (flatten env d).score = d.score ∧
    (flatten env d).left = d.box.x ∧ (flatten env d).top = d.box.y ∧
    (flatten env d).right = d.box.x + d.box.width ∧
    (flatten env d).bottom = d.box.y + d.box.height := by
  unfold flatten copy_to_array Rectangle.left Rectangle.top Rectangle.right Rectangle.bottom
  dsimp only
  refine ⟨rfl, rfl, rfl, rfl, rfl, ?_, ?_⟩ <;> omega

/-- C13: for every list of `n` detections and every capacity `k`,
`write_results_to_buffer` sets the reported count to `min(n, k)`; entry `i` below
`min(n, k)` holds detection `i`: its two names (as many chars as the array takes, then
zero chars), its score and the bounds of its box; every other entry, in particular every
entry at index `k` or beyond, is as it was.  When `detect_jpeg` calls it with `k` not equal
to 1 on a successful detection, the entries written hold in this way the first `min(n, k)`
detections of the list `std::sort` leaves, which is a rearrangement of the candidates in
non-increasing order of score (with whatever order among equal scores). -/
theorem write_results_to_buffer_writes_first (env : Collab E L B F M)
    (detections : List Detection) (detection_buf : Nat → FlatDetection) (k : Nat) :
    (write_results_to_buffer env detections detection_buf k).2 = min detections.length k ∧
    (∀ i d, detections[i]? = some d → i < k →
      ((write_results_to_buffer env detections detection_buf k).1 i).classname = d.classname.take (env.sizeof_classname - 1) ++
          List.replicate (env.sizeof_classname
            - (d.classname.take (env.sizeof_classname - 1)).length) 0 ∧
      ((write_results_to_buffer env detections detection_buf k).1 i).synset_id = d.synsetId.take (env.sizeof_synset_id - 1) ++
          List.replicate (env.sizeof_synset_id
            - (d.synsetId.take (env.sizeof_synset_id - 1)).length) 0 ∧
      ((write_results_to_buffer env detections detection_buf k).1 i).score = d.score ∧
      ((write_results_to_buffer env detections detection_buf k).1 i).left = d.box.x ∧ ((write_results_to_buffer env detections detection_buf k).1 i).top = d.box.y ∧
      ((write_results_to_buffer env detections detection_buf k).1 i).right = d.box.x + d.box.width ∧
      ((write_results_to_buffer env detections detection_buf k).1 i).bottom = d.box.y + d.box.height) ∧
    (∀ j, min detections.length k ≤ j →
      (write_results_to_buffer env detections detection_buf k).1 j = detection_buf j) ∧
    (∀ j, k ≤ j →
      (write_results_to_buffer env detections detection_buf k).1 j = detection_buf j) ∧
    (∀ (w : World E L) (detector : Nat) (det : E) (img : JPEGImage),
      is_valid_detector_handle w detector = true → w.detector detector = some det →
      img.empty = false → k ≠ 1 → (env.detect det img).1 = ARTOS_RES_OK →
      (detect_jpeg env detector img detection_buf k w).1 = ARTOS_RES_OK ∧
      (detect_jpeg env detector img detection_buf k w).2.2.1
        = min (env.detect det img).2.1.length k ∧
      (∀ i d, (sortDetections env (env.detect det img).2.1)[i]? = some d → i < k →
        ((detect_jpeg env detector img detection_buf k w).2.1 i).classname = d.classname.take (env.sizeof_classname - 1) ++
            List.replicate (env.sizeof_classname
              - (d.classname.take (env.sizeof_classname - 1)).length) 0 ∧
        ((detect_jpeg env detector img detection_buf k w).2.1 i).synset_id = d.synsetId.take (env.sizeof_synset_id - 1) ++
            List.replicate (env.sizeof_synset_id
              - (d.synsetId.take (env.sizeof_synset_id - 1)).length) 0 ∧
        ((detect_jpeg env detector img detection_buf k w).2.1 i).score = d.score ∧
        ((detect_jpeg env detector img detection_buf k w).2.1 i).left = d.box.x ∧ ((detect_jpeg env detector img detection_buf k w).2.1 i).top = d.box.y ∧
        ((detect_jpeg env detector img detection_buf k w).2.1 i).right = d.box.x + d.box.width ∧
        ((detect_jpeg env detector img detection_buf k w).2.1 i).bottom = d.box.y + d.box.height) ∧
      (∀ j, min (env.detect det img).2.1.length k ≤ j →
        (detect_jpeg env detector img detection_buf k w).2.1 j = detection_buf j) ∧
      (sortDetections env (env.detect det img).2.1).Sorted (fun a b => b.score ≤ a.score) ∧
      (sortDetections env (env.detect det img).2.1).Perm (env.detect det img).2.1) := by
  obtain ⟨k1, k2, k3⟩ := write_results_to_buffer_spec env detections detection_buf k
  refine ⟨k1, ?_, k3, fun j hj => k3 j (le_trans (Nat.min_le_right _ _) hj), ?_⟩
  · intro i d hd hi
    rw [k2 i d hd hi]
    exact flatten_fields env d
  intro w detector det img hv hd hne hk hok
  obtain ⟨s1, s2, s3⟩ := write_results_to_buffer_spec env
    (sortDetections env (env.detect det img).2.1) detection_buf k
  have hlen : (sortDetections env (env.detect det img).2.1).length
      = (env.detect det img).2.1.length := (sortDetections_sorted_perm env _).2.length_eq
  rw [hlen] at s1 s3
  rw [(detect_jpeg_valid env w detector det img detection_buf k hv hd hne).2 hk, if_pos hok]
  refine ⟨hok, s1, ?_, s3, sortDetections_sorted_perm env _⟩
  intro i d hd2 hi
  have := s2 i d hd2 hi
  simp only at this ⊢
  rw [this]
  exact flatten_fields env d

/-- C14: for a detection with box `(x, y, width, height)`, whose inclusive bounds are
`right = x + width - 1` and `bottom = y + height - 1`, the entry `write_results_to_buffer`
writes has `left = x`, `top = y`, `right = x + width` and `bottom = y + height`, so that
`right - left = width` and `bottom - top = height`: the written bounds are the inclusive
ones plus 1, once. -/
theorem flat_detection_bounds (env : Collab E L B F M) (detections : List Detection)
    (detection_buf : Nat → FlatDetection) (k i : Nat) (d : Detection)
    (hd : detections[i]? = some d) (hi : i < k) :
    d.box.right = d.box.x + d.box.width - 1 ∧
    d.box.bottom = d.box.y + d.box.height - 1 ∧
    ((write_results_to_buffer env detections detection_buf k).1 i).left = d.box.x ∧
    ((write_results_to_buffer env detections detection_buf k).1 i).top = d.box.y ∧
    ((write_results_to_buffer env detections detection_buf k).1 i).right
      = d.box.x + d.box.width ∧
    ((write_results_to_buffer env detections detection_buf k).1 i).bottom
      = d.box.y + d.box.height ∧
    ((write_results_to_buffer env detections detection_buf k).1 i).right
      - ((write_results_to_buffer env detections detection_buf k).1 i).left = d.box.width ∧
    ((write_results_to_buffer env detections detection_buf k).1 i).bottom
      - ((write_results_to_buffer env detections detection_buf k).1 i).top = d.box.height ∧
    ((write_results_to_buffer env detections detection_buf k).1 i).right = d.box.right + 1 ∧
    ((write_results_to_buffer env detections detection_buf k).1 i).bottom
      = d.box.bottom + 1 := by
  have h := (write_results_loop_spec env k detections 0 detection_buf).2.1 i d hd (by omega)
  have hw : (write_results_to_buffer env detections detection_buf k).1 i = flatten env d := by
    simpa [write_results_to_buffer] using h
  rw [hw]
  unfold flatten Rectangle.left Rectangle.top Rectangle.right Rectangle.bottom
  dsimp only
  refine ⟨rfl, rfl, rfl, rfl, ?_, ?_, ?_, ?_, rfl, rfl⟩ <;> omega

/-- C15, as amended: on a handle that is not valid `detect_jpeg` returns
`ARTOS_RES_INVALID_HANDLE` and leaves the buffer and `*detection_buf_size` as they were.
On a valid handle with a decodable image, `*detection_buf_size` is on return the number of
detections written: 0, with the buffer untouched, when the status is not `ARTOS_RES_OK`,
and else `min(n, k)` for the `n` detections collected, with exactly the entries below
that count written, in sorted order.  `detect_file_jpeg` and `detect_raw` are
`detect_jpeg` on the image they construct. -/
theorem detect_jpeg_reports_count (env : Collab E L B F M) (w : World E L) (detector : Nat)
    (img : JPEGImage) (detection_buf : Nat → FlatDetection) (k : Nat) (imagefile : String)
    (img_data : List Nat) (img_width img_height : Nat) (grayscale : Bool) :
    (is_valid_detector_handle w detector = false →
      detect_jpeg env detector img detection_buf k w
        = (ARTOS_RES_INVALID_HANDLE, detection_buf, k, w)) ∧
    (∀ det, is_valid_detector_handle w detector = true → w.detector detector = some det →
      img.empty = false →
      ((detect_jpeg env detector img detection_buf k w).1 ≠ ARTOS_RES_OK →
        (detect_jpeg env detector img detection_buf k w).2.2.1 = 0 ∧
        (detect_jpeg env detector img detection_buf k w).2.1 = detection_buf) ∧
      ((detect_jpeg env detector img detection_buf k w).1 = ARTOS_RES_OK →
        (detect_jpeg env detector img detection_buf k w).2.2.1
          = min (if k = 1 then [(env.detectMax det img).2.1]
              else (env.detect det img).2.1).length k ∧
        (∀ i d, (sortDetections env (if k = 1 then [(env.detectMax det img).2.1]
            else (env.detect det img).2.1))[i]? = some d →
          i < (detect_jpeg env detector img detection_buf k w).2.2.1 →
          (detect_jpeg env detector img detection_buf k w).2.1 i = flatten env d) ∧
        (∀ j, (detect_jpeg env detector img detection_buf k w).2.2.1 ≤ j →
          (detect_jpeg env detector img detection_buf k w).2.1 j = detection_buf j))) ∧
    detect_file_jpeg env detector imagefile detection_buf k w
      = detect_jpeg env detector (env.JPEGImage_file imagefile) detection_buf k w ∧
    detect_raw env detector img_data img_width img_height grayscale detection_buf k w
      = detect_jpeg env detector
          (env.JPEGImage_raw img_width img_height (if grayscale then 1 else 3) img_data)
          detection_buf k w := by
  refine ⟨?_, ?_, rfl, rfl⟩
  · intro hv
    simp [detect_jpeg, hv]
  · intro det hv hd hne
    have hperm : ∀ l : List Detection, (sortDetections env l).length = l.length :=
      fun l => (sortDetections_sorted_perm env l).2.length_eq
    by_cases hk : k = 1
    · rw [(detect_jpeg_valid env w detector det img detection_buf k hv hd hne).1 hk]
      simp only [hk, if_true]
      obtain ⟨k1, k2, k3⟩ := write_results_to_buffer_spec env
        (sortDetections env [(env.detectMax det img).2.1]) detection_buf 1
      rw [hperm] at k1 k3
      by_cases hok : (env.detectMax det img).1 = ARTOS_RES_OK
      · simp only [hok, if_true, ne_eq, not_true_eq_false, false_implies, true_and,
          true_implies]
        refine ⟨k1, ?_, ?_⟩
        · intro i d hi hlt
          exact k2 i d hi (by rw [k1] at hlt; exact lt_of_lt_of_le hlt (Nat.min_le_right _ _))
        · intro j hj
          exact k3 j (by rw [k1] at hj; exact hj)
      · simp [hok]
    · rw [(detect_jpeg_valid env w detector det img detection_buf k hv hd hne).2 hk]
      simp only [hk, if_false]
      obtain ⟨k1, k2, k3⟩ := write_results_to_buffer_spec env
        (sortDetections env (env.detect det img).2.1) detection_buf k
      rw [hperm] at k1 k3
      by_cases hok : (env.detect det img).1 = ARTOS_RES_OK
      · simp only [hok, if_true, ne_eq, not_true_eq_false, false_implies, true_and,
          true_implies]
        refine ⟨k1, ?_, ?_⟩
        · intro i d hi hlt
          exact k2 i d hi (by rw [k1] at hlt; exact lt_of_lt_of_le hlt (Nat.min_le_right _ _))
        · intro j hj
          exact k3 j (by rw [k1] at hj; exact hj)
      · simp [hok]

end DetectionResults

/-- C15, counterexample: on handle 3 of `demoWorld`, which is not valid, `detect_jpeg`
with `*detection_buf_size = 5` returns `ARTOS_RES_INVALID_HANDLE`, writes nothing and
leaves `*detection_buf_size` at 5; on the valid handle 1 with an image that failed to
decode it returns `ARTOS_DETECT_RES_INVALID_IMG_DATA`, writes nothing and leaves it at 5. -/
theorem detect_jpeg_keeps_size_on_early_return :
    is_valid_detector_handle demoWorld 3 = false ∧
    (detect_jpeg demoEnv 3 ⟨false, 4, 4⟩ emptyDetectionBuf 5 demoWorld).1
      = ARTOS_RES_INVALID_HANDLE ∧
    (detect_jpeg demoEnv 3 ⟨false, 4, 4⟩ emptyDetectionBuf 5 demoWorld).2.1
      = emptyDetectionBuf ∧
    (detect_jpeg demoEnv 3 ⟨false, 4, 4⟩ emptyDetectionBuf 5 demoWorld).2.2.1 = 5 ∧
    is_valid_detector_handle demoWorld 1 = true ∧
    (detect_jpeg demoEnv 1 emptyImage emptyDetectionBuf 5 demoWorld).1
      = ARTOS_DETECT_RES_INVALID_IMG_DATA ∧
    (detect_jpeg demoEnv 1 emptyImage emptyDetectionBuf 5 demoWorld).2.1
      = emptyDetectionBuf ∧
    (detect_jpeg demoEnv 1 emptyImage emptyDetectionBuf 5 demoWorld).2.2.1 = 5 :=
  ⟨by decide, by decide, rfl, by decide, by decide, by decide, rfl, by decide⟩

/-- Witness for C13: the three candidates `demoCandidates` and capacity 2; `detect_jpeg`
writes "dog" (score 3) and "cow" (score 2) and leaves entry 2 as it was. -/
theorem write_results_to_buffer_writes_first_witness :
    is_valid_detector_handle demoWorld 1 = true ∧
    (detectEnv.detect 1 ⟨false, 4, 4⟩).1 = ARTOS_RES_OK ∧
    (write_results_to_buffer detectEnv demoCandidates emptyDetectionBuf 2).2 = 2 ∧
    ((write_results_to_buffer detectEnv demoCandidates emptyDetectionBuf 2).1 1).score = 3 ∧
    (detect_jpeg detectEnv 1 ⟨false, 4, 4⟩ emptyDetectionBuf 2 demoWorld).2.2.1 = 2 ∧
    ((detect_jpeg detectEnv 1 ⟨false, 4, 4⟩ emptyDetectionBuf 2 demoWorld).2.1 0).score = 3 ∧
    ((detect_jpeg detectEnv 1 ⟨false, 4, 4⟩ emptyDetectionBuf 2 demoWorld).2.1 0).classname
      = [100, 111, 103] ++ List.replicate 41 0 ∧
    ((detect_jpeg detectEnv 1 ⟨false, 4, 4⟩ emptyDetectionBuf 2 demoWorld).2.1 1).score = 2 ∧
    (detect_jpeg detectEnv 1 ⟨false, 4, 4⟩ emptyDetectionBuf 2 demoWorld).2.1 2
      = emptyDetectionBuf 2 :=
  ⟨by decide, by decide,
    (write_results_to_buffer_writes_first detectEnv demoCandidates emptyDetectionBuf 2).1,
    ((write_results_to_buffer_writes_first detectEnv demoCandidates emptyDetectionBuf 2).2.1 1
      ⟨[100, 111, 103], [110, 50], 3, ⟨5, 6, 7, 8⟩⟩ (by decide) (by decide)).2.2.1,
    ((write_results_to_buffer_writes_first detectEnv demoCandidates emptyDetectionBuf 2).2.2.2.2
      demoWorld 1 1 ⟨false, 4, 4⟩ (by decide) (by decide) (by decide) (by decide)
      (by decide)).2.1,
    (((write_results_to_buffer_writes_first detectEnv demoCandidates emptyDetectionBuf 2).2.2.2.2
      demoWorld 1 1 ⟨false, 4, 4⟩ (by decide) (by decide) (by decide) (by decide)
      (by decide)).2.2.1 0 ⟨[100, 111, 103], [110, 50], 3, ⟨5, 6, 7, 8⟩⟩ (by decide)
      (by decide)).2.2.1,
    (((write_results_to_buffer_writes_first detectEnv demoCandidates emptyDetectionBuf 2).2.2.2.2
      demoWorld 1 1 ⟨false, 4, 4⟩ (by decide) (by decide) (by decide) (by decide)
      (by decide)).2.2.1 0 ⟨[100, 111, 103], [110, 50], 3, ⟨5, 6, 7, 8⟩⟩ (by decide)
      (by decide)).1,
    (((write_results_to_buffer_writes_first detectEnv demoCandidates emptyDetectionBuf 2).2.2.2.2
      demoWorld 1 1 ⟨false, 4, 4⟩ (by decide) (by decide) (by decide) (by decide)
      (by decide)).2.2.1 1 ⟨[99, 111, 119], [110, 51], 2, ⟨0, 0, 2, 2⟩⟩ (by decide)
      (by decide)).2.2.1,
    ((write_results_to_buffer_writes_first detectEnv demoCandidates emptyDetectionBuf 2).2.2.2.2
      demoWorld 1 1 ⟨false, 4, 4⟩ (by decide) (by decide) (by decide) (by decide)
      (by decide)).2.2.2.1 2 (by decide)⟩

/-- Witness for C14: the second of `demoCandidates`, with box `(5, 6, 7, 8)`. -/
theorem flat_detection_bounds_witness :
    demoCandidates[1]? = some ⟨[100, 111, 103], [110, 50], 3, ⟨5, 6, 7, 8⟩⟩ ∧
    ((write_results_to_buffer detectEnv demoCandidates emptyDetectionBuf 2).1 1).right
      = 5 + 7 ∧
    ((write_results_to_buffer detectEnv demoCandidates emptyDetectionBuf 2).1 1).bottom
      = 6 + 8 :=
  ⟨by decide,
    (flat_detection_bounds detectEnv demoCandidates emptyDetectionBuf 2 1
      ⟨[100, 111, 103], [110, 50], 3, ⟨5, 6, 7, 8⟩⟩ (by decide) (by decide)).2.2.2.2.1,
    (flat_detection_bounds detectEnv demoCandidates emptyDetectionBuf 2 1
      ⟨[100, 111, 103], [110, 50], 3, ⟨5, 6, 7, 8⟩⟩ (by decide) (by decide)).2.2.2.2.2.1⟩

/-- Witness for C15: a failing detection on detector 1 of `demoWorld`, and handle 3, which
is past the end of the table. -/
theorem detect_jpeg_reports_count_witness :
    is_valid_detector_handle demoWorld 1 = true ∧
    (detect_jpeg failingDetectEnv 1 ⟨false, 4, 4⟩ emptyDetectionBuf 4 demoWorld).1
      ≠ ARTOS_RES_OK ∧
    (detect_jpeg failingDetectEnv 1 ⟨false, 4, 4⟩ emptyDetectionBuf 4 demoWorld).2.2.1 = 0 ∧
    (detect_jpeg detectEnv 1 ⟨false, 4, 4⟩ emptyDetectionBuf 4 demoWorld).2.2.1 = 3 ∧
    is_valid_detector_handle demoWorld 3 = false ∧
    detect_jpeg demoEnv 3 ⟨false, 4, 4⟩ emptyDetectionBuf 4 demoWorld
      = (ARTOS_RES_INVALID_HANDLE, emptyDetectionBuf, 4, demoWorld) :=
  ⟨by decide, by decide,
    (((detect_jpeg_reports_count failingDetectEnv demoWorld 1 ⟨false, 4, 4⟩ emptyDetectionBuf 4
      "f" [] 0 0 false).2.1 1 (by decide) (by decide) (by decide)).1 (by decide)).1,
    (((detect_jpeg_reports_count detectEnv demoWorld 1 ⟨false, 4, 4⟩ emptyDetectionBuf 4
      "f" [] 0 0 false).2.1 1 (by decide) (by decide) (by decide)).2 (by decide)).1,
    by decide,
    (detect_jpeg_reports_count demoEnv demoWorld 3 ⟨false, 4, 4⟩ emptyDetectionBuf 4
      "f" [] 0 0 false).1 (by decide)⟩

/-! ## Evaluation queries and sample intake -/

section EvaluationQueries
variable {E L B F M : Type}

/-- The entry `m.find(key)` finds has the key `key`. -/
theorem find?_key {α : Type} (m : List (Nat × List α)) (key : Nat) (e : Nat × List α)
    (h : m.find? (fun e => e.1 == key) = some e) : e.1 = key := by
  have := List.find?_some h
  simpa using this

/-- After `m[key]` was evaluated the key has an entry. -/
theorem mapFind_mapTouch_self {α : Type} (m : List (Nat × List α)) (key : Nat) :
    (mapFind (mapTouch m key) key).isSome = true := by
  unfold mapTouch
  split
  · next h => exact h
  · next h =>
    unfold mapFind at h ⊢
    rw [List.find?_append]
    cases hf : List.find? (fun e => e.1 == key) m with
    | some e => simp
    | none => simp

/-- Replacing the vector of a key makes it the vector of that key. -/
theorem mapGet_mapSet_self {α : Type} (m : List (Nat × List α)) (key : Nat) (v : List α) :
    mapGet (mapSet m key v) key = v := by
  have ht := mapFind_mapTouch_self m key
  unfold mapGet mapSet mapFind at *
  rw [List.find?_map]
  have hcomp : ((fun e : Nat × List α => e.1 == key) ∘
      fun e : Nat × List α => if (e.1 == key) = true then (e.1, v) else e)
      = fun e => e.1 == key := by
    funext e
    by_cases h : e.1 = key <;> simp [h]
  rw [hcomp]
  cases hf : List.find? (fun e => e.1 == key) (mapTouch m key) with
  | none => simp [hf] at ht
  | some e =>
    have hk := find?_key _ _ _ hf
    simp [hk]

/-- Replacing the vector of a key changes the vector of no other key. -/
theorem mapGet_mapSet_other {α : Type} (m : List (Nat × List α)) (key k : Nat) (v : List α)
    (hk : k ≠ key) : mapGet (mapSet m key v) k = mapGet m k := by
  rw [← mapGet_mapTouch m key k]
  unfold mapGet mapSet mapFind
  rw [List.find?_map]
  have hcomp : ((fun e : Nat × List α => e.1 == k) ∘
      fun e : Nat × List α => if (e.1 == key) = true then (e.1, v) else e)
      = fun e => e.1 == k := by
    funext e
    by_cases h : e.1 = key <;> simp [h]
  rw [hcomp]
  cases hf : List.find? (fun e => e.1 == k) (mapTouch m key) with
  | none => simp
  | some e =>
    have hk2 := find?_key _ _ _ hf
    have : ¬ (e.1 = key) := by rw [hk2]; exact hk
    simp [this]

/-- What the loop of `evaluator_get_raw_results` does from index `i0` on: it stops at
`i0 + min n (c - i0)`, the entries from `i0` up to there hold the rows in order, and every
other entry is as before. -/
theorem raw_results_loop_spec (c : Nat) (results : List TestResult) (i0 : Nat)
    (buf : Nat → RawTestResult) :
    (raw_results_loop c results i0 buf).2 = i0 + min results.length (c - i0) ∧
    (∀ i r, results[i]? = some r → i0 + i < c →
      (raw_results_loop c results i0 buf).1 (i0 + i) = ⟨r.threshold, r.tp, r.fp, r.np⟩) ∧
    (∀ j, j < i0 ∨ i0 + min results.length (c - i0) ≤ j →
      (raw_results_loop c results i0 buf).1 j = buf j) := by
  induction results generalizing i0 buf with
  | nil => simp [raw_results_loop]
  | cons row rest ih =>
    unfold raw_results_loop
    by_cases hb : i0 < c
    · simp only [hb, if_true]
      obtain ⟨h1, h2, h3⟩ := ih (i0 + 1)
        (Function.update buf i0 ⟨row.threshold, row.tp, row.fp, row.np⟩)
      refine ⟨?_, ?_, ?_⟩
      · rw [h1]
        simp only [List.length_cons, Nat.min_def]
        split <;> split <;> omega
      · intro i d hd hi
        cases i with
        | zero =>
          simp only [List.getElem?_cons_zero, Option.some.injEq] at hd
          subst hd
          show (raw_results_loop c rest (i0 + 1)
            (Function.update buf i0 ⟨row.threshold, row.tp, row.fp, row.np⟩)).1 i0 = _
          rw [h3 i0 (Or.inl (Nat.lt_succ_self i0))]
          simp
        | succ i =>
          simp only [List.getElem?_cons_succ] at hd
          have := h2 i d hd (by omega)
          rw [show i0 + (i + 1) = i0 + 1 + i by omega]
          exact this
      · intro j hj
        have hj2 : j < i0 + 1 ∨ i0 + 1 + min rest.length (c - (i0 + 1)) ≤ j := by
          simp only [List.length_cons, Nat.min_def] at hj ⊢
          split at hj <;> split <;> omega
        rw [h3 j hj2]
        have hne : j ≠ i0 := by
          simp only [List.length_cons, Nat.min_def] at hj
          split at hj <;> omega
        simp [Function.update, hne]
    · simp only [hb, if_false]
      refine ⟨?_, ?_, ?_⟩
      · have : c - i0 = 0 := by omega
        simp [this]
      · intro i d _ hi
        omega
      · intro j _
        trivial

/-- C16: on a valid detector handle and an in-range model index whose result curve has
`n` rows (with `n` below 2^32, the range of the `unsigned int` size parameter),
`evaluator_get_raw_results` with a null buffer sets `*result_buf_size` to `n`, writes nothing
and changes no state; with a buffer of capacity `c` it copies the rows `0 .. min c n - 1`
verbatim (threshold, tp, fp, np) in curve order, leaves the rest of the buffer alone and
sets `*result_buf_size` to `min c n`; so asking for the size with a null buffer and calling
again with a buffer of that size returns all `n` rows. -/
theorem raw_results_size_then_copy (env : Collab E L B F M) (w : World E L) (detector : Nat)
    (det : E) (model_index c c0 : Nat) (buf : Nat → RawTestResult)
    (hv : is_valid_detector_handle w detector = true) (hd : w.detector detector = some det)
    (hidx : model_index < env.getNumModels det)
    (hn : (env.getResults det model_index).length < UINT_SIZE) :
    (evaluator_get_raw_results env detector none c0 model_index w).2.1 = none ∧
    (evaluator_get_raw_results env detector none c0 model_index w).2.2.1
      = (env.getResults det model_index).length ∧
    (evaluator_get_raw_results env detector none c0 model_index w).2.2.2 = w ∧
    (∃ out, (evaluator_get_raw_results env detector (some buf) c model_index w).2.1 = some out ∧
      (∀ i r, (env.getResults det model_index)[i]? = some r → i < c →
        out i = ⟨r.threshold, r.tp, r.fp, r.np⟩) ∧
      (∀ j, min c (env.getResults det model_index).length ≤ j → out j = buf j)) ∧
    (evaluator_get_raw_results env detector (some buf) c model_index w).2.2.1
      = min c (env.getResults det model_index).length ∧
    (evaluator_get_raw_results env detector (some buf) c model_index w).2.2.2 = w ∧
    (∃ out, (evaluator_get_raw_results env detector (some buf)
        (evaluator_get_raw_results env detector none c0 model_index w).2.2.1
        model_index w).2.1 = some out ∧
      (∀ i r, (env.getResults det model_index)[i]? = some r →
        out i = ⟨r.threshold, r.tp, r.fp, r.np⟩)) ∧
    (evaluator_get_raw_results env detector (some buf)
        (evaluator_get_raw_results env detector none c0 model_index w).2.2.1
        model_index w).2.2.1 = (env.getResults det model_index).length := by
  have hnot : ¬ model_index ≥ env.getNumModels det := by omega
  have hnull : evaluator_get_raw_results env detector none c0 model_index w
      = (if (env.getResults det model_index).isEmpty then ARTOS_DETECT_RES_NO_RESULTS
          else ARTOS_RES_OK, none, (env.getResults det model_index).length, w) := by
    simp only [evaluator_get_raw_results, hv, hd, hnot, Bool.not_true, Bool.false_eq_true,
      if_false, Nat.mod_eq_of_lt hn]
  have hbuf : ∀ k, evaluator_get_raw_results env detector (some buf) k model_index w
      = (if (env.getResults det model_index).isEmpty then ARTOS_DETECT_RES_NO_RESULTS
          else ARTOS_RES_OK,
        some (raw_results_loop k (env.getResults det model_index) 0 buf).1,
        (raw_results_loop k (env.getResults det model_index) 0 buf).2, w) := by
    intro k
    simp only [evaluator_get_raw_results, hv, hd, hnot, Bool.not_true, Bool.false_eq_true,
      if_false]
  rw [hnull, hbuf c, hbuf (env.getResults det model_index).length]
  obtain ⟨a1, a2, a3⟩ := raw_results_loop_spec c (env.getResults det model_index) 0 buf
  obtain ⟨b1, b2, -⟩ := raw_results_loop_spec (env.getResults det model_index).length
    (env.getResults det model_index) 0 buf
  refine ⟨rfl, rfl, rfl, ⟨_, rfl, ?_, ?_⟩, ?_, rfl, ⟨_, rfl, ?_⟩, ?_⟩
  · intro i r hr hi
    simpa using a2 i r hr (by omega)
  · intro j hj
    exact a3 j (Or.inr (by rw [Nat.min_comm] at hj; simpa using hj))
  · rw [a1, Nat.min_comm]; simp
  · intro i r hr
    have hi : i < (env.getResults det model_index).length :=
      (List.getElem?_eq_some_iff.mp hr).1
    simpa using b2 i r hr (by omega)
  · rw [b1]; simp

/-- C17: on a valid detector handle each of `evaluator_get_raw_results`,
`evaluator_get_max_fmeasure`, `evaluator_get_fmeasure_at` and `evaluator_get_ap` returns
`ARTOS_RES_INDEX_OUT_OF_BOUNDS` (-6) exactly when `model_index` is at least the number of
models, `ARTOS_DETECT_RES_NO_RESULTS` (-107) exactly when the index is in range and the
result curve of that model is empty, and `ARTOS_RES_OK` exactly when the index is in range
and the curve is not empty; when the status is not `ARTOS_RES_OK` the `fmeasure`,
`threshold` and `ap` output parameters keep the value they had. -/
theorem evaluator_queries_status (env : Collab E L B F M) (w : World E L) (detector : Nat)
    (det : E) (model_index : Nat) (result_buf : Option (Nat → RawTestResult))
    (result_buf_size : Nat) (fmeasure out_threshold ap : Option double) (threshold : double)
    (hv : is_valid_detector_handle w detector = true) (hd : w.detector detector = some det) :
    (∀ status ∈ [(evaluator_get_raw_results env detector result_buf result_buf_size
          model_index w).1,
        (evaluator_get_max_fmeasure env detector fmeasure out_threshold model_index w).1,
        (evaluator_get_fmeasure_at env detector threshold fmeasure model_index w).1,
        (evaluator_get_ap env detector ap model_index w).1],
      (status = ARTOS_RES_INDEX_OUT_OF_BOUNDS ↔ env.getNumModels det ≤ model_index) ∧
      (status = ARTOS_DETECT_RES_NO_RESULTS ↔
        model_index < env.getNumModels det ∧ env.getResults det model_index = []) ∧
      (status = ARTOS_RES_OK ↔
        model_index < env.getNumModels det ∧ env.getResults det model_index ≠ [])) ∧
    ((evaluator_get_max_fmeasure env detector fmeasure out_threshold model_index w).1
        ≠ ARTOS_RES_OK →
      (evaluator_get_max_fmeasure env detector fmeasure out_threshold model_index w).2.1
        = fmeasure ∧
      (evaluator_get_max_fmeasure env detector fmeasure out_threshold model_index w).2.2.1
        = out_threshold) ∧
    ((evaluator_get_fmeasure_at env detector threshold fmeasure model_index w).1
        ≠ ARTOS_RES_OK →
      (evaluator_get_fmeasure_at env detector threshold fmeasure model_index w).2.1
        = fmeasure) ∧
    ((evaluator_get_ap env detector ap model_index w).1 ≠ ARTOS_RES_OK →
      (evaluator_get_ap env detector ap model_index w).2.1 = ap) ∧
    ARTOS_RES_INDEX_OUT_OF_BOUNDS = -6 ∧ ARTOS_DETECT_RES_NO_RESULTS = -107 := by
  have hcodes : ARTOS_RES_INDEX_OUT_OF_BOUNDS ≠ ARTOS_DETECT_RES_NO_RESULTS ∧
      ARTOS_RES_INDEX_OUT_OF_BOUNDS ≠ ARTOS_RES_OK ∧
      ARTOS_DETECT_RES_NO_RESULTS ≠ ARTOS_RES_OK := by decide
  obtain ⟨c1, c2, c3⟩ := hcodes
  refine ⟨?_, ?_, ?_, ?_, rfl, rfl⟩
  · intro status hs
    simp only [List.mem_cons, List.mem_singleton, List.not_mem_nil, or_false] at hs
    by_cases hidx : env.getNumModels det ≤ model_index
    · have hst : status = ARTOS_RES_INDEX_OUT_OF_BOUNDS := by
        rcases hs with rfl | rfl | rfl | rfl <;>
          simp [evaluator_get_raw_results, evaluator_get_max_fmeasure,
            evaluator_get_fmeasure_at, evaluator_get_ap, hv, hd, hidx]
      subst hst
      refine ⟨by simp [hidx], ?_, ?_⟩
      · constructor
        · intro h; exact absurd h c1
        · rintro ⟨h, -⟩; omega
      · constructor
        · intro h; exact absurd h c2
        · rintro ⟨h, -⟩; omega
    · have hlt : model_index < env.getNumModels det := by omega
      cases hres : env.getResults det model_index with
      | nil =>
        have hst : status = ARTOS_DETECT_RES_NO_RESULTS := by
          rcases hs with rfl | rfl | rfl | rfl
          · cases result_buf <;>
              simp [evaluator_get_raw_results, hv, hd, hidx, hres]
          · simp [evaluator_get_max_fmeasure, hv, hd, hidx, hres]
          · simp [evaluator_get_fmeasure_at, hv, hd, hidx, hres]
          · simp [evaluator_get_ap, hv, hd, hidx, hres]
        subst hst
        refine ⟨?_, by simp [hlt], ?_⟩
        · constructor
          · intro h; exact absurd h.symm c1
          · intro h; omega
        · constructor
          · intro h; exact absurd h c3
          · rintro ⟨-, h⟩; exact absurd rfl h
      | cons r rest =>
        have hst : status = ARTOS_RES_OK := by
          rcases hs with rfl | rfl | rfl | rfl
          · cases result_buf <;>
              simp [evaluator_get_raw_results, hv, hd, hidx, hres]
          · simp [evaluator_get_max_fmeasure, hv, hd, hidx, hres]
          · simp [evaluator_get_fmeasure_at, hv, hd, hidx, hres]
          · simp [evaluator_get_ap, hv, hd, hidx, hres]
        subst hst
        refine ⟨?_, ?_, by simp [hlt]⟩
        · constructor
          · intro h; exact absurd h.symm c2
          · intro h; omega
        · constructor
          · intro h; exact absurd h.symm c3
          · rintro ⟨-, h⟩; cases h
  · intro hne
    by_cases hidx : env.getNumModels det ≤ model_index
    · simp [evaluator_get_max_fmeasure, hv, hd, hidx]
    · cases hres : env.getResults det model_index with
      | nil => simp [evaluator_get_max_fmeasure, hv, hd, hidx, hres]
      | cons r rest =>
        exfalso
        apply hne
        simp [evaluator_get_max_fmeasure, hv, hd, hidx, hres]
  · intro hne
    by_cases hidx : env.getNumModels det ≤ model_index
    · simp [evaluator_get_fmeasure_at, hv, hd, hidx]
    · cases hres : env.getResults det model_index with
      | nil => simp [evaluator_get_fmeasure_at, hv, hd, hidx, hres]
      | cons r rest =>
        exfalso
        apply hne
        simp [evaluator_get_fmeasure_at, hv, hd, hidx, hres]
  · intro hne
    by_cases hidx : env.getNumModels det ≤ model_index
    · simp [evaluator_get_ap, hv, hd, hidx]
    · cases hres : env.getResults det model_index with
      | nil => simp [evaluator_get_ap, hv, hd, hidx, hres]
      | cons r rest =>
        exfalso
        apply hne
        simp [evaluator_get_ap, hv, hd, hidx, hres]

/-- C18: on a valid handle and an image that failed to decode (`empty()` holds),
`learner_add_jpeg` returns `ARTOS_LEARN_RES_INVALID_IMG_DATA` (-203) and
`evaluator_add_positive_jpeg`, `evaluator_add_negative_file_jpeg` and
`evaluator_add_negative_raw` return `ARTOS_DETECT_RES_INVALID_IMG_DATA` (-101); in each case
the whole state, and with it the learner and every sample list, is the one before the
call. -/
theorem undecodable_image_is_rejected (env : Collab E L B F M) (w : World E L)
    (handle : Nat) (img : JPEGImage) (bboxes : Option (Nat → FlatBoundingBox))
    (num_bboxes : Nat) (imagefile : String) (img_data : List Nat)
    (img_width img_height : Nat) (grayscale : Bool) :
    (is_valid_learner_handle w handle = true → img.empty = true →
      learner_add_jpeg env handle img bboxes num_bboxes w
        = (ARTOS_LEARN_RES_INVALID_IMG_DATA, w)) ∧
    (is_valid_detector_handle w handle = true →
      (img.empty = true →
        evaluator_add_positive_jpeg env handle img bboxes num_bboxes w
          = (ARTOS_DETECT_RES_INVALID_IMG_DATA, w)) ∧
      ((env.JPEGImage_file imagefile).empty = true →
        evaluator_add_negative_file_jpeg env handle imagefile w
          = (ARTOS_DETECT_RES_INVALID_IMG_DATA, w)) ∧
      ((env.JPEGImage_raw img_width img_height (if grayscale then 1 else 3) img_data).empty
          = true →
        evaluator_add_negative_raw env handle img_data img_width img_height grayscale w
          = (ARTOS_DETECT_RES_INVALID_IMG_DATA, w))) ∧
    ARTOS_LEARN_RES_INVALID_IMG_DATA = -203 ∧ ARTOS_DETECT_RES_INVALID_IMG_DATA = -101 := by
  refine ⟨?_, ?_, rfl, rfl⟩
  · intro hv he
    have hl : ∃ l, w.learner handle = some l := by
      rcases (is_valid_learner_handle_iff w handle).mp hv with ⟨_, l, hl⟩
      refine ⟨l, ?_⟩
      simp only [World.learner, List.getD_eq_getElem?_getD]
      rw [List.get?_eq_getElem?] at hl
      simp [hl]
    obtain ⟨l, hl⟩ := hl
    simp [learner_add_jpeg, hv, hl, he]
  · intro hv
    refine ⟨?_, ?_, ?_⟩
    · intro he
      simp [evaluator_add_positive_jpeg, hv, he]
    · intro he
      simp [evaluator_add_negative_file_jpeg, hv, he]
    · intro he
      simp only [evaluator_add_negative_raw, hv, Bool.not_true, Bool.false_eq_true, if_false,
        he, if_true]

/-- The sample `evaluator_add_samples_from_synset` creates has one `noAssoc` entry per
box. -/
theorem sampleOfSynsetImage_modelAssoc (env : Collab E L B F M) (simg : SynsetImage) :
    (sampleOfSynsetImage env simg).modelAssoc.length
      = (sampleOfSynsetImage env simg).m_bboxes.length ∧
    ∀ a ∈ (sampleOfSynsetImage env simg).modelAssoc, a = env.noAssoc := by
  unfold sampleOfSynsetImage
  dsimp only
  refine ⟨by simp, ?_⟩
  intro a ha
  exact (List.mem_replicate.mp ha).2

/-- A value below 2^31 is not changed by the conversion from `unsigned int` to `int`. -/
theorem int_of_unsigned_of_lt (v : Nat) (h : v < 2 ^ 31) : int_of_unsigned v = v := by
  unfold int_of_unsigned
  have h2 : v % 2 ^ 32 = v := Nat.mod_eq_of_lt (by omega)
  rw [h2, if_pos h]

/-- C20, amended: on a valid detector handle `d` and a decodable image of size `w x h`,
`evaluator_add_positive_jpeg` returns `ARTOS_RES_OK` and appends exactly one sample to the
positive list of `d`, leaving the positive list of every other handle and all negative
lists unchanged; the boxes of the sample are the given boxes in order, each field
converted from `unsigned int` to `int`, and so the given boxes themselves when every field
is below 2^31, or the single box `(0, 0, w, h)` when the box array is null or `num_bboxes`
is 0; its `modelAssoc` has as many entries as it has boxes, all of them `noAssoc`.  The same
length equality and all-`noAssoc` property holds for the sample
`evaluator_add_positive_file` appends and for every sample
`evaluator_add_samples_from_synset` appends. -/
theorem evaluator_add_positive_appends_sample (env : Collab E L B F M) (w : World E L)
    (detector : Nat) (img : JPEGImage) (bboxes : Option (Nat → FlatBoundingBox))
    (num_bboxes : Nat) (imagefile annotation_file repo_directory synset_id : String)
    (num_negative : Nat) (hv : is_valid_detector_handle w detector = true) :
    (img.empty = false →
      (evaluator_add_positive_jpeg env detector img bboxes num_bboxes w).1 = ARTOS_RES_OK ∧
      (∃ s : Sample,
        mapGet (evaluator_add_positive_jpeg env detector img bboxes
            num_bboxes w).2.eval_positive_samples detector
          = mapGet w.eval_positive_samples detector ++ [s] ∧
        (∀ boxes, bboxes = some boxes → 0 < num_bboxes →
          s.m_bboxes = (List.range num_bboxes).map (fun i =>
            Rectangle.mk (int_of_unsigned (boxes i).left) (int_of_unsigned (boxes i).top)
              (int_of_unsigned (boxes i).width) (int_of_unsigned (boxes i).height)) ∧
          ((∀ i, i < num_bboxes → (boxes i).left < 2 ^ 31 ∧ (boxes i).top < 2 ^ 31 ∧
              (boxes i).width < 2 ^ 31 ∧ (boxes i).height < 2 ^ 31) →
            s.m_bboxes = (List.range num_bboxes).map (fun i =>
              Rectangle.mk (boxes i).left (boxes i).top (boxes i).width (boxes i).height))) ∧
        (bboxes = none ∨ num_bboxes = 0 →
          s.m_bboxes = [Rectangle.mk 0 0 img.width img.height]) ∧
        s.modelAssoc.length = s.m_bboxes.length ∧
        (∀ a ∈ s.modelAssoc, a = env.noAssoc)) ∧
      (∀ k, k ≠ detector →
        mapGet (evaluator_add_positive_jpeg env detector img bboxes
            num_bboxes w).2.eval_positive_samples k
          = mapGet w.eval_positive_samples k) ∧
      (evaluator_add_positive_jpeg env detector img bboxes num_bboxes w).2.eval_negative_samples
        = w.eval_negative_samples) ∧
    ((evaluator_add_positive_file env detector imagefile annotation_file w).1 = ARTOS_RES_OK →
      ∃ s : Sample,
        mapGet (evaluator_add_positive_file env detector imagefile
            annotation_file w).2.eval_positive_samples detector
          = mapGet w.eval_positive_samples detector ++ [s] ∧
        s.modelAssoc.length = s.m_bboxes.length ∧
        (∀ a ∈ s.modelAssoc, a = env.noAssoc)) ∧
    ((evaluator_add_samples_from_synset env detector repo_directory synset_id
        num_negative w).1 = ARTOS_RES_OK →
      ∃ added : List Sample,
        mapGet (evaluator_add_samples_from_synset env detector repo_directory synset_id
            num_negative w).2.eval_positive_samples detector
          = mapGet w.eval_positive_samples detector ++ added ∧
        ∀ s ∈ added, s.modelAssoc.length = s.m_bboxes.length ∧
          (∀ a ∈ s.modelAssoc, a = env.noAssoc)) := by
  refine ⟨?_, ?_, ?_⟩
  · intro hne
    simp only [evaluator_add_positive_jpeg, hv, hne, Bool.not_true, Bool.false_eq_true,
      if_false]
    refine ⟨trivial, ⟨_, mapGet_mapSet_self _ _ _, ?_, ?_, by simp, ?_⟩,
      fun k hk => mapGet_mapSet_other _ _ _ _ hk, trivial⟩
    · intro boxes hb hpos
      subst hb
      refine ⟨by simp [hpos, Rectangle_of_flat], ?_⟩
      intro hsmall
      simp only [hpos, if_true]
      refine List.map_congr_left ?_
      intro i hi
      obtain ⟨h1, h2, h3, h4⟩ := hsmall i (List.mem_range.mp hi)
      simp only [Rectangle_of_flat, int_of_unsigned_of_lt _ h1, int_of_unsigned_of_lt _ h2,
        int_of_unsigned_of_lt _ h3, int_of_unsigned_of_lt _ h4]
    · intro hb
      rcases hb with hb | hb
      · subst hb; rfl
      · subst hb
        cases bboxes <;> simp
    · intro a ha
      exact (List.mem_replicate.mp ha).2
  · intro hok
    unfold evaluator_add_positive_file at hok ⊢
    simp only [hv, Bool.not_true, Bool.false_eq_true, if_false] at hok ⊢
    by_cases h1 : (env.JPEGImage_file imagefile).empty = true
    · simp [h1, ARTOS_DETECT_RES_INVALID_IMG_DATA, ARTOS_RES_OK] at hok
    · by_cases h2 : (env.Scene_file annotation_file).empty = true
      · simp [h1, h2, ARTOS_DETECT_RES_INVALID_ANNOTATIONS, ARTOS_RES_OK] at hok
      · simp only [h1, h2, if_false]
        refine ⟨_, mapGet_mapSet_self _ _ _, by simp, ?_⟩
        intro a ha
        exact (List.mem_replicate.mp ha).2
  · intro hok
    unfold evaluator_add_samples_from_synset at hok ⊢
    simp only [hv, Bool.not_true, Bool.false_eq_true, if_false] at hok ⊢
    by_cases h1 : (!env.hasRepositoryStructure repo_directory) = true
    · simp [h1, ARTOS_IMGREPO_RES_INVALID_REPOSITORY, ARTOS_RES_OK] at hok
    · by_cases h2 : (env.getSynset repo_directory synset_id).id.isEmpty = true
      · simp [h1, h2, ARTOS_IMGREPO_RES_SYNSET_NOT_FOUND, ARTOS_RES_OK] at hok
      · simp only [h1, h2, if_false]
        refine ⟨List.map (sampleOfSynsetImage env) (List.filter (fun simg => !simg.image.empty)
          (env.getSynset repo_directory synset_id).imagesNoBoxes), ?_, ?_⟩
        · by_cases hn : num_negative > 0
          · simp only [hn, if_true]
            exact mapGet_mapSet_self _ _ _
          · simp only [hn, if_false]
            exact mapGet_mapSet_self _ _ _
        · intro s hs
          obtain ⟨simg, -, rfl⟩ := List.mem_map.mp hs
          exact sampleOfSynsetImage_modelAssoc env simg

end EvaluationQueries

/-- Witness for C16: detector 1 of `demoWorld` with the curve `demoCurve` of two rows. -/
theorem raw_results_size_then_copy_witness :
    is_valid_detector_handle demoWorld 1 = true ∧
    0 < resultsEnv.getNumModels 1 ∧
    (evaluator_get_raw_results resultsEnv 1 none 0 0 demoWorld).2.2.1 = 2 ∧
    (evaluator_get_raw_results resultsEnv 1 (some emptyResultBuf) 1 0 demoWorld).2.2.1 = 1 ∧
    (evaluator_get_raw_results resultsEnv 1 (some emptyResultBuf)
      (evaluator_get_raw_results resultsEnv 1 none 0 0 demoWorld).2.2.1 0 demoWorld).2.2.1
      = 2 :=
  ⟨by decide, by decide,
    (raw_results_size_then_copy resultsEnv demoWorld 1 1 0 1 0 emptyResultBuf (by decide)
      (by decide) (by decide) (by decide)).2.1,
    (raw_results_size_then_copy resultsEnv demoWorld 1 1 0 1 0 emptyResultBuf (by decide)
      (by decide) (by decide) (by decide)).2.2.2.2.1,
    (raw_results_size_then_copy resultsEnv demoWorld 1 1 0 1 0 emptyResultBuf (by decide)
      (by decide) (by decide) (by decide)).2.2.2.2.2.2.2⟩

/-- Witness for C17: model index 5 on detector 1 of `demoWorld`, which has one model. -/
theorem evaluator_queries_status_witness :
    is_valid_detector_handle demoWorld 1 = true ∧
    ((evaluator_get_ap demoEnv 1 (some 7) 5 demoWorld).1 = ARTOS_RES_INDEX_OUT_OF_BOUNDS ↔
      demoEnv.getNumModels 1 ≤ 5) ∧
    (evaluator_get_ap demoEnv 1 (some 7) 5 demoWorld).2.1 = some 7 :=
  ⟨by decide,
    ((evaluator_queries_status demoEnv demoWorld 1 1 5 none 0 none none (some 7) 0 (by decide)
      (by decide)).1 (evaluator_get_ap demoEnv 1 (some 7) 5 demoWorld).1 (by simp)).1,
    (evaluator_queries_status demoEnv demoWorld 1 1 5 none 0 none none (some 7) 0 (by decide)
      (by decide)).2.2.2.1 (by decide)⟩

/-- Witness for C18: handle 1 of `demoWorld`, valid in both tables, and `emptyImage`. -/
theorem undecodable_image_is_rejected_witness :
    is_valid_learner_handle demoWorld 1 = true ∧
    is_valid_detector_handle demoWorld 1 = true ∧
    emptyImage.empty = true ∧
    learner_add_jpeg demoEnv 1 emptyImage none 0 demoWorld
      = (ARTOS_LEARN_RES_INVALID_IMG_DATA, demoWorld) ∧
    evaluator_add_positive_jpeg demoEnv 1 emptyImage none 0 demoWorld
      = (ARTOS_DETECT_RES_INVALID_IMG_DATA, demoWorld) :=
  ⟨by decide, by decide, by decide,
    (undecodable_image_is_rejected demoEnv demoWorld 1 emptyImage none 0 "f" [] 0 0 false).1
      (by decide) (by decide),
    ((undecodable_image_is_rejected demoEnv demoWorld 1 emptyImage none 0 "f" [] 0 0 false).2.1
      (by decide)).1 (by decide)⟩

/-- C20, counterexample: on handle 1 of `demoWorld` and a decodable image,
`evaluator_add_positive_jpeg` with the one box `(4294967295, 2147483648, 3000000000, 4)`
returns `ARTOS_RES_OK` and appends a sample whose box is `(-1, -2147483648, -1294967296, 4)`,
not the given box. -/
theorem evaluator_add_positive_jpeg_wraps_large_fields :
    is_valid_detector_handle demoWorld 1 = true ∧
    largeBoxes 0 = ⟨4294967295, 2147483648, 3000000000, 4⟩ ∧
    (evaluator_add_positive_jpeg demoEnv 1 ⟨false, 4, 4⟩ (some largeBoxes) 1 demoWorld).1
      = ARTOS_RES_OK ∧
    (mapGet (evaluator_add_positive_jpeg demoEnv 1 ⟨false, 4, 4⟩ (some largeBoxes) 1
        demoWorld).2.eval_positive_samples 1).map (fun s => s.m_bboxes)
      = (mapGet demoWorld.eval_positive_samples 1).map (fun s => s.m_bboxes)
        ++ [[⟨-1, -2147483648, -1294967296, 4⟩]] ∧
    (⟨-1, -2147483648, -1294967296, 4⟩ : Rectangle)
      ≠ ⟨4294967295, 2147483648, 3000000000, 4⟩ := by
  decide

/-- Witness for C20: two boxes with small fields, and no box, on a 4 x 4 image and
detector 1 of `demoWorld`. -/
theorem evaluator_add_positive_appends_sample_witness :
    is_valid_detector_handle demoWorld 1 = true ∧
    (evaluator_add_positive_jpeg demoEnv 1 ⟨false, 4, 4⟩ (some smallBoxes) 2 demoWorld).1
      = ARTOS_RES_OK ∧
    (∃ s : Sample,
      mapGet (evaluator_add_positive_jpeg demoEnv 1 ⟨false, 4, 4⟩ (some smallBoxes) 2
          demoWorld).2.eval_positive_samples 1
        = mapGet demoWorld.eval_positive_samples 1 ++ [s] ∧
      s.m_bboxes = [⟨0, 1, 2, 3⟩, ⟨1, 1, 2, 3⟩] ∧
      s.modelAssoc = [demoEnv.noAssoc, demoEnv.noAssoc]) ∧
    mapGet (evaluator_add_positive_jpeg demoEnv 1 ⟨false, 4, 4⟩ none 0
      demoWorld).2.eval_positive_samples 2 = mapGet demoWorld.eval_positive_samples 2 := by
  obtain ⟨h1, ⟨s, h2, h3, -, h4, h5⟩, -, -⟩ :=
    (evaluator_add_positive_appends_sample demoEnv demoWorld 1 ⟨false, 4, 4⟩ (some smallBoxes) 2
      "f" "a" "r" "s" 0 (by decide)).1 (by decide)
  have hb : s.m_bboxes = [⟨0, 1, 2, 3⟩, ⟨1, 1, 2, 3⟩] := by
    rw [(h3 smallBoxes rfl (by decide)).2 (by decide)]
    decide
  refine ⟨by decide, h1, ⟨s, h2, hb, ?_⟩,
    ((evaluator_add_positive_appends_sample demoEnv demoWorld 1 ⟨false, 4, 4⟩ none 0 "f" "a" "r"
      "s" 0 (by decide)).1 (by decide)).2.2.1 2 (by decide)⟩
  have hl : s.modelAssoc.length = 2 := by rw [h4, hb]; rfl
  match hm : s.modelAssoc, hl with
  | [a, b], _ =>
    rw [h5 a (by rw [hm]; simp), h5 b (by rw [hm]; simp)]

/-! ## Destroying a detector -/

section DestroyDetector
variable {E L B F M : Type}

/-- After `m.erase(key)` the key has no entry. -/
theorem mapFind_mapErase_self {α : Type} (m : List (Nat × List α)) (key : Nat) :
    mapFind (mapErase m key) key = none := by
  unfold mapFind mapErase
  induction m with
  | nil => rfl
  | cons e rest ih =>
    by_cases h : e.1 = key
    · simp [List.filter_cons, h, ih]
    · simp [List.filter_cons, List.find?_cons, h, ih]

/-- What `m.erase(key)` leaves of every other key is what the map had. -/
theorem mapFind_mapErase_other {α : Type} (m : List (Nat × List α)) (key k : Nat)
    (hk : k ≠ key) : mapFind (mapErase m key) k = mapFind m k := by
  unfold mapFind mapErase
  induction m with
  | nil => rfl
  | cons e rest ih =>
    rw [List.filter_cons]
    cases hb : (e.1 == key) with
    | true =>
      have h1 : e.1 = key := beq_iff_eq.mp hb
      have h2 : (e.1 == k) = false := by
        rw [h1]
        exact beq_false_of_ne (fun h3 => hk h3.symm)
      simp only [Bool.not_true, Bool.false_eq_true, if_false, List.find?_cons, h2]
      exact ih
    | false =>
      simp only [Bool.not_false, if_true, List.find?_cons]
      cases hb2 : (e.1 == k) with
      | true => rfl
      | false => exact ih

/-- Evaluating `m[key]` changes the entry of no other key. -/
theorem mapFind_mapTouch_other {α : Type} (m : List (Nat × List α)) (key k : Nat)
    (hk : k ≠ key) : mapFind (mapTouch m key) k = mapFind m k := by
  unfold mapTouch
  split
  · rfl
  · unfold mapFind
    rw [List.find?_append]
    cases hf : List.find? (fun e => e.1 == k) m with
    | some e => simp
    | none =>
      have : ¬ key = k := fun h3 => hk h3.symm
      simp [List.find?_cons, this]

/-- On a valid handle the last state of `destroy_detector_trail` is the state
`destroy_detector` returns. -/
theorem destroy_detector_trail_last (w : World E L) (detector : Nat)
    (hv : is_valid_detector_handle w detector = true) :
    (destroy_detector_trail detector w).getLast? = some (destroy_detector detector w) := by
  simp [destroy_detector_trail, destroy_detector, hv]

/-- C19, amended: on a valid detector handle `d`, `destroy_detector` deletes the detector,
clears the slot of `d` and only then deletes the samples of `d`, one `delete` per sample of
the positive list; on return the slot of `d` is empty, neither sample cache has an entry
for `d`, and the slot of every other handle, the cache entries of every other handle and
the learners are as before.  On a handle that is not valid `destroy_detector` changes
nothing. -/
theorem destroy_detector_frame (w : World E L) (d : Nat) :
    (is_valid_detector_handle w d = true →
      (∃ w1 w2 w3 w4 : World E L,
        destroy_detector_trail d w = [w1, w2, w3, w4, destroy_detector d w] ∧
        w2.detector d = none ∧
        w2.trace = w.trace ++ [Event.call .deleteDetector] ∧
        w3.trace = w2.trace ++ List.replicate (mapGet w.eval_positive_samples d).length
          (Event.call .deleteSample)) ∧
      (destroy_detector d w).detector d = none ∧
      (destroy_detector d w).trace = w.trace ++ Event.call .deleteDetector ::
        List.replicate (mapGet w.eval_positive_samples d).length (Event.call .deleteSample) ∧
      mapFind (destroy_detector d w).eval_positive_samples d = none ∧
      mapFind (destroy_detector d w).eval_negative_samples d = none ∧
      (destroy_detector d w).detectors = w.detectors.set (d - 1) none ∧
      (∀ k, 0 < k → k ≠ d → (destroy_detector d w).detector k = w.detector k) ∧
      (∀ k, k ≠ d →
        mapFind (destroy_detector d w).eval_positive_samples k
          = mapFind w.eval_positive_samples k ∧
        mapFind (destroy_detector d w).eval_negative_samples k
          = mapFind w.eval_negative_samples k) ∧
      (destroy_detector d w).learners = w.learners) ∧
    (is_valid_detector_handle w d = false → destroy_detector d w = w) := by
  constructor
  · intro hv
    have hslot : (w.detectors.set (d - 1) none).getD (d - 1) none = none := by
      rw [List.getD_eq_getElem?_getD, List.getElem?_set]
      simp only [if_true]
      split <;> rfl
    have hrep : ∀ l : List Sample, l.map (fun _ => Event.call .deleteSample)
        = List.replicate l.length (Event.call .deleteSample) := by
      intro l
      induction l with
      | nil => rfl
      | cons a l ih => simp [List.replicate_succ, ih]
    refine ⟨⟨w.log (.call .deleteDetector),
      { w.log (.call .deleteDetector) with detectors := w.detectors.set (d - 1) none },
      { w.log (.call .deleteDetector) with
        detectors := w.detectors.set (d - 1) none
        eval_positive_samples := mapTouch w.eval_positive_samples d
        trace := (w.log (.call .deleteDetector)).trace ++
          (mapGet (mapTouch w.eval_positive_samples d) d).map
            (fun _ => Event.call .deleteSample) },
      { w.log (.call .deleteDetector) with
        detectors := w.detectors.set (d - 1) none
        eval_positive_samples := mapErase (mapTouch w.eval_positive_samples d) d
        trace := (w.log (.call .deleteDetector)).trace ++
          (mapGet (mapTouch w.eval_positive_samples d) d).map
            (fun _ => Event.call .deleteSample) },
      ?_, ?_, ?_, ?_⟩, ?_, ?_, ?_, ?_, ?_, ?_, ?_, ?_⟩
    · simp only [destroy_detector_trail, destroy_detector, hv, if_true]
      rfl
    · exact hslot
    · rfl
    · show _ ++ _ = _ ++ _
      rw [mapGet_mapTouch, hrep]
    · simp only [destroy_detector, hv, if_true]
      exact hslot
    · simp only [destroy_detector, hv, if_true, World.log]
      rw [mapGet_mapTouch, hrep]
      simp
    · simp only [destroy_detector, hv, if_true]
      exact mapFind_mapErase_self _ _
    · simp only [destroy_detector, hv, if_true]
      exact mapFind_mapErase_self _ _
    · simp only [destroy_detector, hv, if_true]
      rfl
    · intro k hk hkd
      simp only [destroy_detector, hv, if_true]
      show (w.detectors.set (d - 1) none).getD (k - 1) none = w.detectors.getD (k - 1) none
      have hpos : 0 < d := ((is_valid_detector_handle_iff w d).mp hv).1
      have : d - 1 ≠ k - 1 := by omega
      simp [List.getD_eq_getElem?_getD, List.getElem?_set, this]
    · intro k hkd
      simp only [destroy_detector, hv, if_true]
      refine ⟨?_, ?_⟩
      · rw [mapFind_mapErase_other _ _ _ hkd]
        exact mapFind_mapTouch_other _ _ _ hkd
      · exact mapFind_mapErase_other _ _ _ hkd
    · simp only [destroy_detector, hv, if_true]
      rfl
  · intro hv
    simp [destroy_detector, hv]

end DestroyDetector

/-- Counterexample for C19 as stated ("releases all samples before it clears the slot"):
on handle 1 of `demoWorld`, which owns one positive sample, the states `destroy_detector`
passes through show the slot of handle 1 already empty in the second state while the first
sample is deleted only in the third. -/
theorem destroy_detector_clears_slot_first :
    is_valid_detector_handle demoWorld 1 = true ∧
    (mapGet demoWorld.eval_positive_samples 1).length = 1 ∧
    (destroy_detector_trail 1 demoWorld).getLast? = some (destroy_detector 1 demoWorld) ∧
    (destroy_detector_trail 1 demoWorld).map (fun s => (s.detector 1, deletedSamples s.trace))
      = [(some 1, 0), (none, 0), (none, 1), (none, 1), (none, 1)] :=
  ⟨by decide, by decide, rfl, by decide⟩

/-- Witness for C19: handle 1 of `demoWorld` is valid, handle 2 is not. -/
theorem destroy_detector_frame_witness :
    is_valid_detector_handle demoWorld 1 = true ∧
    (destroy_detector 1 demoWorld).detector 1 = none ∧
    mapFind (destroy_detector 1 demoWorld).eval_positive_samples 1 = none ∧
    is_valid_detector_handle demoWorld 2 = false ∧
    destroy_detector 2 demoWorld = demoWorld :=
  ⟨by decide,
    ((destroy_detector_frame demoWorld 1).1 (by decide)).2.1,
    ((destroy_detector_frame demoWorld 1).1 (by decide)).2.2.2.1,
    by decide,
    (destroy_detector_frame demoWorld 2).2 (by decide)⟩

/-! ## Overall steps reported to the progress callback -/

/-- A lower bound on the first overall step may be lowered. -/
theorem stepsMonotone_le (T : Nat) (l : List Event) (lo hi : Nat) (h : lo ≤ hi)
    (hl : stepsMonotone T hi l = true) : stepsMonotone T lo l = true := by
  induction l generalizing lo hi with
  | nil => rfl
  | cons e rest ih =>
    cases e with
    | call m => exact ih lo hi h hl
    | progress c t a => exact ih lo hi h hl
    | overall s n c t a =>
      simp only [stepsMonotone, Bool.and_eq_true, decide_eq_true_eq] at hl ⊢
      exact ⟨⟨⟨by omega, hl.1.1.2⟩, hl.1.2⟩, hl.2⟩

/-- Invocations that all report the step `s` of the total `T`, in front of a trace that
goes on from `s`. -/
theorem stepsMonotone_stage (T s lo : Nat) (new rest : List Event)
    (h : ∀ e ∈ new, ∃ c t a, e = Event.overall s T c t a) (hlo : lo ≤ s) (hs : s ≤ T)
    (hr : stepsMonotone T s rest = true) : stepsMonotone T lo (new ++ rest) = true := by
  induction new generalizing lo with
  | nil => exact stepsMonotone_le T rest lo s hlo hr
  | cons e new ih =>
    obtain ⟨c, t, a, rfl⟩ := h e (List.mem_cons_self _ _)
    simp only [List.cons_append, stepsMonotone, Bool.and_eq_true, decide_eq_true_eq]
    exact ⟨⟨⟨hlo, hs⟩, trivial⟩, ih s (fun x hx => h x (List.mem_cons_of_mem _ hx)) (le_refl s)⟩

/-- Invocations that all report the step of the phase they fall in. -/
theorem phaseSteps_stage (T s n : Nat) (new rest : List Event)
    (h : ∀ e ∈ new, ∃ c t a, e = Event.overall s n c t a) :
    phaseSteps T s (new ++ rest) = phaseSteps T s rest := by
  induction new with
  | nil => rfl
  | cons e new ih =>
    obtain ⟨c, t, a, rfl⟩ := h e (List.mem_cons_self _ _)
    simp only [List.cons_append, phaseSteps, decide_True, Bool.true_and]
    exact ih (fun x hx => h x (List.mem_cons_of_mem _ hx))

/-- The last invocation of a trace is the last invocation of its end, if that has one. -/
theorem lastOverall_append_of_some (a b : List Event) (e : Event)
    (h : lastOverall b = some e) : lastOverall (a ++ b) = some e := by
  unfold lastOverall at h ⊢
  rw [List.filter_append, List.getLast?_append, h]
  rfl

/-- Events that are no invocations at the end of a trace do not change its last
invocation. -/
theorem lastOverall_append_calls (a b : List Event) (h : ∀ e ∈ b, e.isOverall = false) :
    lastOverall (a ++ b) = lastOverall a := by
  unfold lastOverall
  rw [List.filter_append]
  have : List.filter Event.isOverall b = [] := by
    rw [List.filter_eq_nil_iff]
    intro e he
    simp [h e he]
  rw [this, List.append_nil]

/-- The trace of the statements from `learn` to the end of `learn_imagenet` and
`learn_files_jpeg` meets `stepsMonotone` and `phaseSteps`, whatever the lower bound (at
most 1) and the phase at its start. -/
theorem steps_two_stages (T : Nat) (hT : 2 ≤ T) (new1 mid new2 tail : List Event)
    (h1 : ∀ e ∈ new1, ∃ c t a, e = Event.overall 1 T c t a)
    (h2 : ∀ e ∈ new2, ∃ c t a, e = Event.overall 2 T c t a)
    (hmid : (mid = [] ∧ new2 = []) ∨ mid = [Event.call .optimizeThreshold])
    (htail : tail = [] ∨ tail = [Event.call .save] ∨
      ∃ a, tail = [Event.call .save, Event.overall T T 0 0 a])
    (lo ph : Nat) (hlo : lo ≤ 1) :
    stepsMonotone T lo (Event.call .learn :: (new1 ++ (mid ++ (new2 ++ tail)))) = true ∧
    phaseSteps T ph (Event.call .learn :: (new1 ++ (mid ++ (new2 ++ tail)))) = true := by
  have tail2 : stepsMonotone T 2 tail = true ∧ ∀ p, phaseSteps T p tail = true := by
    rcases htail with rfl | rfl | ⟨a, rfl⟩
    · exact ⟨rfl, fun _ => rfl⟩
    · exact ⟨rfl, fun _ => rfl⟩
    · refine ⟨?_, fun _ => ?_⟩
      · simp [stepsMonotone, hT]
      · simp [phaseSteps]
  have tail1 : stepsMonotone T 1 tail = true := stepsMonotone_le T tail 1 2 (by omega) tail2.1
  constructor
  · show stepsMonotone T lo (new1 ++ (mid ++ (new2 ++ tail))) = true
    refine stepsMonotone_stage T 1 lo new1 _ h1 hlo (by omega) ?_
    rcases hmid with ⟨rfl, rfl⟩ | rfl
    · exact tail1
    · show stepsMonotone T 1 (new2 ++ tail) = true
      exact stepsMonotone_stage T 2 1 new2 _ h2 (by omega) hT tail2.1
  · show phaseSteps T 1 (new1 ++ (mid ++ (new2 ++ tail))) = true
    rw [phaseSteps_stage T 1 T new1 _ h1]
    rcases hmid with ⟨rfl, rfl⟩ | rfl
    · exact tail2.2 1
    · show phaseSteps T 2 (new2 ++ tail) = true
      rw [phaseSteps_stage T 2 T new2 _ h2]
      exact tail2.2 2

/-- The first invocation and the calls that add samples, in front of the trace of the
statements from `learn` on. -/
theorem steps_with_prefix (T : Nat) (pre rest : List Event)
    (hpre : ∀ e ∈ pre, (∃ a, e = Event.overall 0 T 0 0 a) ∨
      e = Event.call .addPositiveSamplesFromSynset ∨ e = Event.call .addPositiveSample)
    (hrest : ∀ lo ph, lo ≤ 1 → stepsMonotone T lo rest = true ∧ phaseSteps T ph rest = true) :
    stepsMonotone T 0 (pre ++ rest) = true ∧ phaseSteps T 0 (pre ++ rest) = true := by
  induction pre with
  | nil => exact hrest 0 0 (by omega)
  | cons e pre ih =>
    have ih2 := ih (fun x hx => hpre x (List.mem_cons_of_mem _ hx))
    rcases hpre e (List.mem_cons_self _ _) with ⟨a, rfl⟩ | rfl | rfl
    · simpa [stepsMonotone, phaseSteps] using ih2
    · exact ih2
    · exact ih2

section ProgressSteps
variable {E L B F M : Type}

/-- The trace of the statements from `learn` to the end of `learn_imagenet` and
`learn_files_jpeg`: its invocations report the total of the struct and the step of their
phase, and a successful run with a callback ends with the invocation that reports the
total as step. -/
theorem learn_and_save_steps (env : Collab E L B F M) (opt : L → Stage (Ret Unit × L))
    (learner : L) (p : progress_params) (progress_cb : Option overall_progress_cb_t)
    (modelfile : String) (add : Bool) (max_aspect_clusters max_who_clusters th_opt_mode : Nat)
    (w : World E L) (hs : p.overall_step = 0)
    (hn : p.overall_steps_total = if th_opt_mode = ARTOS_THOPT_NONE then 2 else 3) :
    ∃ rest, (learn_and_save env opt learner p progress_cb modelfile add max_aspect_clusters
        max_who_clusters th_opt_mode w).2.trace = w.trace ++ rest ∧
      (∀ lo ph, lo ≤ 1 → stepsMonotone p.overall_steps_total lo rest = true ∧
        phaseSteps p.overall_steps_total ph rest = true) ∧
      ((learn_and_save env opt learner p progress_cb modelfile add max_aspect_clusters
        max_who_clusters th_opt_mode w).1 = .ok ARTOS_RES_OK →
        ∀ cb, progress_cb = some cb → ∃ a, lastOverall rest
          = some (Event.overall p.overall_steps_total p.overall_steps_total 0 0 a)) := by
  unfold learn_and_save
  dsimp only
  generalize hr1 : runStage _ () (env.learn _ _ _) _ = r1
  obtain ⟨new1, a1, a2, a3, a4, -, a6, a7, -⟩ := runStage_populate_progress_eq _ _ _ _ _ hr1
  obtain ⟨⟨ret1, l1⟩, p1, tr1⟩ := r1
  simp only at a1 a2 a4 a6 a7 ⊢
  subst a1
  rw [hs] at a2 a6
  have hn2 : 2 ≤ p.overall_steps_total := by rw [hn]; split <;> omega
  have h2nil : ∀ e ∈ ([] : List Event),
      ∃ c t a, e = Event.overall 2 p.overall_steps_total c t a := by simp
  have hfin : ∀ (front : List Event) (a : Bool), lastOverall (Event.call Method.learn ::
      (new1 ++ (front ++ [Event.call Method.save, Event.overall p.overall_steps_total
        p.overall_steps_total 0 0 a])))
      = some (Event.overall p.overall_steps_total p.overall_steps_total 0 0 a) := by
    intro front a
    have e1 : Event.call Method.learn :: (new1 ++ (front ++ [Event.call Method.save,
        Event.overall p.overall_steps_total p.overall_steps_total 0 0 a]))
        = (Event.call Method.learn :: (new1 ++ (front ++ [Event.call Method.save])))
          ++ [Event.overall p.overall_steps_total p.overall_steps_total 0 0 a] := by simp
    rw [e1]
    exact lastOverall_append_of_some _ _ _ rfl
  cases ret1 with
  | raise e =>
    cases e with
    | UseBeforeSetupException =>
      refine ⟨Event.call Method.learn :: (new1 ++ ([] ++ ([] ++ []))),
        by simp [World.log, ARTOS_LEARN_RES_FEATURE_EXTRACTOR_NOT_READY, ARTOS_RES_OK],
        fun lo ph hlo => steps_two_stages _ hn2 new1 [] [] [] a2 h2nil (Or.inl ⟨rfl, rfl⟩)
          (Or.inl rfl) lo ph hlo, ?_⟩
      intro h
      simp [ARTOS_LEARN_RES_FEATURE_EXTRACTOR_NOT_READY, ARTOS_RES_OK] at h
    | other =>
      refine ⟨Event.call Method.learn :: (new1 ++ ([] ++ ([] ++ []))), by simp [World.log],
        fun lo ph hlo => steps_two_stages _ hn2 new1 [] [] [] a2 h2nil (Or.inl ⟨rfl, rfl⟩)
          (Or.inl rfl) lo ph hlo, ?_⟩
      intro h
      simp at h
  | ok res =>
    simp only
    by_cases hres : res = ARTOS_RES_OK
    · simp only [hres, ne_eq, not_true_eq_false, if_false]
      by_cases hth : th_opt_mode = ARTOS_THOPT_NONE
      · simp only [hth, not_true_eq_false, if_false]
        cases hsv : env.save l1 modelfile add with
        | false =>
          refine ⟨Event.call Method.learn :: (new1 ++ ([] ++ ([] ++ [Event.call Method.save]))),
            by simp [World.log],
            fun lo ph hlo => steps_two_stages _ hn2 new1 [] [] _ a2 h2nil (Or.inl ⟨rfl, rfl⟩)
              (Or.inr (Or.inl rfl)) lo ph hlo, ?_⟩
          intro h
          simp [ARTOS_RES_FILE_ACCESS_DENIED, ARTOS_RES_OK] at h
        | true =>
          cases progress_cb with
          | none =>
            refine ⟨Event.call Method.learn ::
              (new1 ++ ([] ++ ([] ++ [Event.call Method.save]))), by simp [World.log],
              fun lo ph hlo => steps_two_stages _ hn2 new1 [] [] _ a2 h2nil
                (Or.inl ⟨rfl, rfl⟩) (Or.inr (Or.inl rfl)) lo ph hlo, ?_⟩
            intro _ cb h
            cases h
          | some cb =>
            refine ⟨Event.call Method.learn :: (new1 ++ ([] ++ ([] ++
              [Event.call Method.save, Event.overall p.overall_steps_total
                p.overall_steps_total 0 0 (cb (w.trace ++ Event.call Method.learn ::
                  (new1 ++ [Event.call Method.save])) p.overall_steps_total
                  p.overall_steps_total 0 0)]))),
              by simp [World.log, callOverall, a7],
              fun lo ph hlo => steps_two_stages _ hn2 new1 [] [] _ a2 h2nil
                (Or.inl ⟨rfl, rfl⟩) (Or.inr (Or.inr ⟨_, rfl⟩)) lo ph hlo, ?_⟩
            intro _ cb2 _
            exact ⟨_, hfin [] _⟩
      · simp only [hth, not_false_eq_true, if_true]
        generalize hr2 : runStage _ () (opt _) _ = r2
        obtain ⟨new2, b1, b2, b3, b4, b5, b6, b7, -⟩ :=
          runStage_populate_progress_eq _ _ _ _ _ hr2
        obtain ⟨⟨ret2, l2⟩, p2, tr2⟩ := r2
        simp only at b1 b2 b4 b5 b6 b7 ⊢
        subst b1
        rw [a6, a7] at b2
        cases ret2 with
        | raise e =>
          refine ⟨Event.call Method.learn :: (new1 ++
            ([Event.call Method.optimizeThreshold] ++ (new2 ++ []))), by simp [World.log],
            fun lo ph hlo => steps_two_stages _ hn2 new1 _ new2 [] a2 b2 (Or.inr rfl)
              (Or.inl rfl) lo ph hlo, ?_⟩
          intro h
          simp at h
        | ok u2 =>
          simp only
          cases hsv : env.save l2 modelfile add with
          | false =>
            refine ⟨Event.call Method.learn :: (new1 ++
              ([Event.call Method.optimizeThreshold] ++ (new2 ++ [Event.call Method.save]))),
              by simp [World.log],
              fun lo ph hlo => steps_two_stages _ hn2 new1 _ new2 _ a2 b2 (Or.inr rfl)
                (Or.inr (Or.inl rfl)) lo ph hlo, ?_⟩
            intro h
            simp [ARTOS_RES_FILE_ACCESS_DENIED, ARTOS_RES_OK] at h
          | true =>
            cases progress_cb with
            | none =>
              refine ⟨Event.call Method.learn :: (new1 ++
                ([Event.call Method.optimizeThreshold] ++ (new2 ++ [Event.call Method.save]))),
                by simp [World.log],
                fun lo ph hlo => steps_two_stages _ hn2 new1 _ new2 _ a2 b2 (Or.inr rfl)
                  (Or.inr (Or.inl rfl)) lo ph hlo, ?_⟩
              intro _ cb h
              cases h
            | some cb =>
              refine ⟨Event.call Method.learn :: (new1 ++
                ([Event.call Method.optimizeThreshold] ++ (new2 ++
                  [Event.call Method.save, Event.overall p.overall_steps_total
                    p.overall_steps_total 0 0 (cb (w.trace ++ Event.call Method.learn ::
                      (new1 ++ Event.call Method.optimizeThreshold ::
                        (new2 ++ [Event.call Method.save]))) p.overall_steps_total
                      p.overall_steps_total 0 0)]))),
                by simp [World.log, callOverall, a7, b7],
                fun lo ph hlo => steps_two_stages _ hn2 new1 _ new2 _ a2 b2 (Or.inr rfl)
                  (Or.inr (Or.inr ⟨_, rfl⟩)) lo ph hlo, ?_⟩
              intro _ cb2 _
              have := hfin (Event.call Method.optimizeThreshold :: new2) (cb (w.trace ++
                Event.call Method.learn :: (new1 ++ Event.call Method.optimizeThreshold ::
                  (new2 ++ [Event.call Method.save]))) p.overall_steps_total
                  p.overall_steps_total 0 0)
              exact ⟨_, by simpa using this⟩
    · refine ⟨Event.call Method.learn :: (new1 ++ ([] ++ ([] ++ []))), by simp [World.log, hres],
        fun lo ph hlo => steps_two_stages _ hn2 new1 [] [] [] a2 h2nil (Or.inl ⟨rfl, rfl⟩)
          (Or.inl rfl) lo ph hlo, ?_⟩
      intro h
      simp [hres] at h

end ProgressSteps

/-- The trace of `learn_bg` from `learnMean` on meets `stepsMonotone` for the total 2. -/
theorem steps_bg (new1 mid new2 tail : List Event)
    (h1 : ∀ e ∈ new1, ∃ c t a, e = Event.overall 0 2 c t a)
    (h2 : ∀ e ∈ new2, ∃ c t a, e = Event.overall 1 2 c t a)
    (hmid : mid = [] ∨ ∃ m, mid = [Event.call m])
    (htail : tail = [] ∨ tail = [Event.call .writeToFile] ∨
      ∃ a, tail = [Event.overall 2 2 0 0 a, Event.call .writeToFile]) :
    stepsMonotone 2 0 (Event.call .learnMean :: (new1 ++ (mid ++ (new2 ++ tail)))) = true := by
  have tail1 : stepsMonotone 2 1 tail = true := by
    rcases htail with rfl | rfl | ⟨a, rfl⟩
    · rfl
    · rfl
    · simp [stepsMonotone]
  show stepsMonotone 2 0 (new1 ++ (mid ++ (new2 ++ tail))) = true
  refine stepsMonotone_stage 2 0 0 new1 _ h1 (le_refl 0) (by omega) ?_
  have : stepsMonotone 2 0 (new2 ++ tail) = true :=
    stepsMonotone_stage 2 1 0 new2 _ h2 (by omega) (by omega) tail1
  rcases hmid with rfl | ⟨m, rfl⟩
  · exact this
  · exact this

section ProgressSteps
variable {E L B F M : Type}

/-- The invocations of one call of `learn_bg` report the total 2 and overall steps that
do not decrease, and a successful run with a callback has the invocation that reports step
2 as its last. -/
theorem learn_bg_steps (env : Collab E L B F M) (repo_directory bg_file : String)
    (num_images max_offset : Nat) (progress_cb : Option overall_progress_cb_t)
    (accurate_autocorrelation : Bool) (w : World E L) :
    ∃ new, (learn_bg env repo_directory bg_file num_images max_offset progress_cb
        accurate_autocorrelation w).2.trace = w.trace ++ new ∧
      stepsMonotone 2 0 new = true ∧
      ((learn_bg env repo_directory bg_file num_images max_offset progress_cb
        accurate_autocorrelation w).1 = .ok ARTOS_RES_OK →
        ∀ cb, progress_cb = some cb →
          ∃ a, lastOverall new = some (Event.overall 2 2 0 0 a)) := by
  have hcodes : ARTOS_IMGREPO_RES_INVALID_REPOSITORY ≠ ARTOS_RES_OK ∧
      ARTOS_LEARN_RES_FEATURE_EXTRACTOR_NOT_READY ≠ ARTOS_RES_OK ∧
      ARTOS_RES_ABORTED ≠ ARTOS_RES_OK := by decide
  obtain ⟨k1, k2, k3⟩ := hcodes
  have h1nil : ∀ e ∈ ([] : List Event), ∃ c t a, e = Event.overall 1 2 c t a := by simp
  unfold learn_bg
  split
  · exact ⟨[], by simp, rfl, fun h => absurd (Ret.ok.inj h) k1⟩
  · dsimp only
    generalize hr1 : runStage _ () (env.learnMean _ _ _) _ = r1
    obtain ⟨new1, a1, a2, -, -, -, a6, a7, -⟩ := runStage_populate_progress_eq _ _ _ _ _ hr1
    obtain ⟨⟨ret1, bg1, it1⟩, p1, tr1⟩ := r1
    simp only at a1 a2 a6 a7 ⊢
    subst a1
    have short : ∀ r : Ret Int, r ≠ .ok ARTOS_RES_OK →
        ∃ new, (w.log (Event.call Method.learnMean)).trace ++ new1 = w.trace ++ new ∧
          stepsMonotone 2 0 new = true ∧
          (r = .ok ARTOS_RES_OK → ∀ cb, progress_cb = some cb →
            ∃ a, lastOverall new = some (Event.overall 2 2 0 0 a)) := by
      intro r hr
      exact ⟨Event.call Method.learnMean :: (new1 ++ ([] ++ ([] ++ []))), by simp [World.log],
        steps_bg new1 [] [] [] a2 h1nil (Or.inl rfl) (Or.inl rfl), fun h => absurd h hr⟩
    cases ret1 with
    | raise e =>
      cases e with
      | UseBeforeSetupException => exact short _ (fun h => k2 (Ret.ok.inj h))
      | other => exact short _ (fun h => by cases h)
    | ok u =>
      cases hab1 : p1.aborted with
      | true => exact short _ (fun h => k3 (Ret.ok.inj h))
      | false =>
        simp only [Bool.false_eq_true, if_false]
        cases accurate_autocorrelation with
        | true =>
          simp only [Bool.false_eq_true, if_false, if_true]
          generalize hr2 : runStage _ () (env.learnCovariance_accurate _ _ _ _) _ = r2
          obtain ⟨new2, b1, b2, -, -, -, -, b7, -⟩ := runStage_populate_progress_eq _ _ _ _ _ hr2
          obtain ⟨⟨ret2, bg2, it2⟩, p2, tr2⟩ := r2
          simp only at b1 b2 b7 ⊢
          subst b1
          rw [a6, a7] at b2
          rw [a7] at b7
          cases ret2 with
          | raise e =>
            exact ⟨Event.call Method.learnMean ::
              (new1 ++ ([Event.call Method.learnCovariance_accurate] ++ (new2 ++ []))),
              by simp [World.log],
              steps_bg new1 _ new2 [] a2 b2 (Or.inr ⟨Method.learnCovariance_accurate, rfl⟩) (Or.inl rfl),
              fun h => by cases h⟩
          | ok u2 =>
            cases hab2 : p2.aborted with
            | true =>
              exact ⟨Event.call Method.learnMean ::
                (new1 ++ ([Event.call Method.learnCovariance_accurate] ++ (new2 ++ []))),
                by simp [World.log],
                steps_bg new1 _ new2 [] a2 b2 (Or.inr ⟨Method.learnCovariance_accurate, rfl⟩) (Or.inl rfl),
                fun h => absurd (Ret.ok.inj h) k3⟩
            | false =>
              cases progress_cb with
              | none =>
                exact ⟨Event.call Method.learnMean :: (new1 ++ ([Event.call Method.learnCovariance_accurate] ++
                  (new2 ++ [Event.call Method.writeToFile]))),
                  by simp [World.log],
                  steps_bg new1 _ new2 _ a2 b2 (Or.inr ⟨Method.learnCovariance_accurate, rfl⟩)
                    (Or.inr (Or.inl rfl)),
                  fun _ cb h => by cases h⟩
              | some cb =>
                refine ⟨Event.call Method.learnMean :: (new1 ++ ([Event.call Method.learnCovariance_accurate] ++
                  (new2 ++ [Event.overall 2 2 0 0
                    (cb (w.trace ++ Event.call Method.learnMean ::
                      (new1 ++ Event.call Method.learnCovariance_accurate :: new2)) 2 2 0 0),
                    Event.call Method.writeToFile]))),
                  by simp [World.log, callOverall, b7],
                  steps_bg new1 _ new2 _ a2 b2 (Or.inr ⟨Method.learnCovariance_accurate, rfl⟩)
                    (Or.inr (Or.inr ⟨_, rfl⟩)),
                  fun _ cb2 _ => ⟨cb (w.trace ++ Event.call Method.learnMean ::
                      (new1 ++ Event.call Method.learnCovariance_accurate :: new2)) 2 2 0 0, ?_⟩⟩
                have e1 : Event.call Method.learnMean ::
                    (new1 ++ ([Event.call Method.learnCovariance_accurate] ++
                    (new2 ++ [Event.overall 2 2 0 0
                      (cb (w.trace ++ Event.call Method.learnMean ::
                        (new1 ++ Event.call Method.learnCovariance_accurate :: new2)) 2 2 0 0),
                      Event.call Method.writeToFile])))
                    = (Event.call Method.learnMean ::
                        (new1 ++ ([Event.call Method.learnCovariance_accurate] ++ new2)))
                      ++ [Event.overall 2 2 0 0
                        (cb (w.trace ++ Event.call Method.learnMean ::
                          (new1 ++ Event.call Method.learnCovariance_accurate :: new2)) 2 2 0 0),
                        Event.call Method.writeToFile] := by simp
                rw [e1]
                exact lastOverall_append_of_some _ _ _ rfl
        | false =>
          simp only [Bool.false_eq_true, if_false, if_true]
          generalize hr2 : runStage _ () (env.learnCovariance _ _ _ _) _ = r2
          obtain ⟨new2, b1, b2, -, -, -, -, b7, -⟩ := runStage_populate_progress_eq _ _ _ _ _ hr2
          obtain ⟨⟨ret2, bg2, it2⟩, p2, tr2⟩ := r2
          simp only at b1 b2 b7 ⊢
          subst b1
          rw [a6, a7] at b2
          rw [a7] at b7
          cases ret2 with
          | raise e =>
            exact ⟨Event.call Method.learnMean ::
              (new1 ++ ([Event.call Method.learnCovariance] ++ (new2 ++ []))),
              by simp [World.log],
              steps_bg new1 _ new2 [] a2 b2 (Or.inr ⟨Method.learnCovariance, rfl⟩) (Or.inl rfl),
              fun h => by cases h⟩
          | ok u2 =>
            cases hab2 : p2.aborted with
            | true =>
              exact ⟨Event.call Method.learnMean ::
                (new1 ++ ([Event.call Method.learnCovariance] ++ (new2 ++ []))),
                by simp [World.log],
                steps_bg new1 _ new2 [] a2 b2 (Or.inr ⟨Method.learnCovariance, rfl⟩) (Or.inl rfl),
                fun h => absurd (Ret.ok.inj h) k3⟩
            | false =>
              cases progress_cb with
              | none =>
                exact ⟨Event.call Method.learnMean :: (new1 ++ ([Event.call Method.learnCovariance] ++
                  (new2 ++ [Event.call Method.writeToFile]))),
                  by simp [World.log],
                  steps_bg new1 _ new2 _ a2 b2 (Or.inr ⟨Method.learnCovariance, rfl⟩)
                    (Or.inr (Or.inl rfl)),
                  fun _ cb h => by cases h⟩
              | some cb =>
                refine ⟨Event.call Method.learnMean :: (new1 ++ ([Event.call Method.learnCovariance] ++
                  (new2 ++ [Event.overall 2 2 0 0
                    (cb (w.trace ++ Event.call Method.learnMean ::
                      (new1 ++ Event.call Method.learnCovariance :: new2)) 2 2 0 0),
                    Event.call Method.writeToFile]))),
                  by simp [World.log, callOverall, b7],
                  steps_bg new1 _ new2 _ a2 b2 (Or.inr ⟨Method.learnCovariance, rfl⟩)
                    (Or.inr (Or.inr ⟨_, rfl⟩)),
                  fun _ cb2 _ => ⟨cb (w.trace ++ Event.call Method.learnMean ::
                      (new1 ++ Event.call Method.learnCovariance :: new2)) 2 2 0 0, ?_⟩⟩
                have e1 : Event.call Method.learnMean ::
                    (new1 ++ ([Event.call Method.learnCovariance] ++
                    (new2 ++ [Event.overall 2 2 0 0
                      (cb (w.trace ++ Event.call Method.learnMean ::
                        (new1 ++ Event.call Method.learnCovariance :: new2)) 2 2 0 0),
                      Event.call Method.writeToFile])))
                    = (Event.call Method.learnMean ::
                        (new1 ++ ([Event.call Method.learnCovariance] ++ new2)))
                      ++ [Event.overall 2 2 0 0
                        (cb (w.trace ++ Event.call Method.learnMean ::
                          (new1 ++ Event.call Method.learnCovariance :: new2)) 2 2 0 0),
                        Event.call Method.writeToFile] := by simp
                rw [e1]
                exact lastOverall_append_of_some _ _ _ rfl

end ProgressSteps

section ProgressSteps
variable {E L B F M : Type}

/-- The loop of `learn_files_jpeg` adds nothing but calls of `addPositiveSample` to the
trace. -/
theorem add_files_calls (env : Collab E L B F M) (imagefiles : Nat → String)
    (bounding_boxes : Option (Nat → FlatBoundingBox)) (idx : List Nat)
    (st : L × Rectangle × World E L) :
    ∃ calls, (add_files env imagefiles bounding_boxes idx st).2.2.trace
        = st.2.2.trace ++ calls ∧ ∀ e ∈ calls, e = Event.call .addPositiveSample := by
  induction idx generalizing st with
  | nil => exact ⟨[], by simp [add_files], by simp⟩
  | cons i rest ih =>
    obtain ⟨learner, bbox, w⟩ := st
    cases bounding_boxes with
    | none =>
      unfold add_files
      dsimp only
      split
      · obtain ⟨calls, h1, h2⟩ := ih (env.addPositiveSample1 learner
          (env.JPEGImage_file (imagefiles i)) bbox, bbox, w.log (.call .addPositiveSample))
        refine ⟨Event.call Method.addPositiveSample :: calls, ?_, ?_⟩
        · rw [h1]; simp [World.log]
        · intro e he
          rcases List.mem_cons.mp he with rfl | he
          · rfl
          · exact h2 e he
      · exact ih _
    | some boxes =>
      unfold add_files
      dsimp only
      split
      · obtain ⟨calls, h1, h2⟩ := ih (env.addPositiveSample1 learner
          (env.JPEGImage_file (imagefiles i))
          (Rectangle_of_flat (boxes i)), Rectangle_of_flat (boxes i),
          w.log (.call .addPositiveSample))
        refine ⟨Event.call Method.addPositiveSample :: calls, ?_, ?_⟩
        · rw [h1]; simp [World.log]
        · intro e he
          rcases List.mem_cons.mp he with rfl | he
          · rfl
          · exact h2 e he
      · exact ih _

/-- The invocations of one call of `learn_imagenet` report the total fixed at the start
and the step of their phase; a successful run with a callback starts with the invocation
of step 0 and has the invocation that reports the total as step as its last. -/
theorem learn_imagenet_steps (env : Collab E L B F M)
    (repo_directory synset_id bg_file modelfile : String) (add : Bool)
    (max_aspect_clusters max_who_clusters th_opt_num_positive th_opt_num_negative
      th_opt_mode : Nat) (progress_cb : Option overall_progress_cb_t) (debug : Bool)
    (w : World E L) :
    ∃ new, (learn_imagenet env repo_directory synset_id bg_file modelfile add
        max_aspect_clusters max_who_clusters th_opt_num_positive th_opt_num_negative
        th_opt_mode progress_cb debug w).2.trace = w.trace ++ new ∧
      stepsMonotone (if th_opt_mode = ARTOS_THOPT_NONE then 2 else 3) 0 new = true ∧
      phaseSteps (if th_opt_mode = ARTOS_THOPT_NONE then 2 else 3) 0 new = true ∧
      ((learn_imagenet env repo_directory synset_id bg_file modelfile add
        max_aspect_clusters max_who_clusters th_opt_num_positive th_opt_num_negative
        th_opt_mode progress_cb debug w).1 = .ok ARTOS_RES_OK →
        ∀ cb, progress_cb = some cb →
          (∃ a, new.head? = some (Event.overall 0
            (if th_opt_mode = ARTOS_THOPT_NONE then 2 else 3) 0 0 a)) ∧
          ∃ a, lastOverall new = some (Event.overall
            (if th_opt_mode = ARTOS_THOPT_NONE then 2 else 3)
            (if th_opt_mode = ARTOS_THOPT_NONE then 2 else 3) 0 0 a)) := by
  have hcodes : ARTOS_IMGREPO_RES_INVALID_REPOSITORY ≠ ARTOS_RES_OK ∧
      ARTOS_IMGREPO_RES_SYNSET_NOT_FOUND ≠ ARTOS_RES_OK ∧
      ARTOS_LEARN_RES_INVALID_BG_FILE ≠ ARTOS_RES_OK ∧
      ARTOS_IMGREPO_RES_EXTRACTION_FAILED ≠ ARTOS_RES_OK := by decide
  obtain ⟨k1, k2, k3, k4⟩ := hcodes
  have hnil : ∀ lo ph, lo ≤ 1 →
      stepsMonotone (if th_opt_mode = ARTOS_THOPT_NONE then 2 else 3) lo [] = true ∧
      phaseSteps (if th_opt_mode = ARTOS_THOPT_NONE then 2 else 3) ph [] = true :=
    fun _ _ _ => ⟨rfl, rfl⟩
  unfold learn_imagenet
  split
  · exact ⟨[], by simp, rfl, rfl, fun h => absurd (Ret.ok.inj h) k1⟩
  · dsimp only
    split
    · exact ⟨[], by simp, rfl, rfl, fun h => absurd (Ret.ok.inj h) k2⟩
    · split
      · exact ⟨[], by simp, rfl, rfl, fun h => absurd (Ret.ok.inj h) k3⟩
      · cases progress_cb with
        | none =>
          have hpre : ∀ e ∈ [Event.call Method.addPositiveSamplesFromSynset],
              (∃ a, e = Event.overall 0 (if th_opt_mode = ARTOS_THOPT_NONE then 2 else 3) 0 0 a) ∨
              e = Event.call .addPositiveSamplesFromSynset ∨
              e = Event.call .addPositiveSample := by
            intro e he
            simp only [List.mem_singleton] at he
            exact Or.inr (Or.inl he)
          dsimp only
          split
          · refine ⟨[Event.call Method.addPositiveSamplesFromSynset] ++ [],
              by simp [World.log], ?_⟩
            have := steps_with_prefix _ _ [] hpre hnil
            exact ⟨this.1, this.2, fun h => absurd (Ret.ok.inj h) k4⟩
          · obtain ⟨rest, h1, h2, h3⟩ := learn_and_save_steps env
              (fun l => env.optimizeThreshold l th_opt_num_positive th_opt_num_negative)
              (env.addPositiveSamplesFromSynset (env.mk_ImageNetModelLearner
                (env.StationaryBackground_file bg_file) repo_directory
                (th_opt_mode == ARTOS_THOPT_LOOCV) debug)
                (env.getSynset repo_directory synset_id) none).2
              { cb := none, overall_step := 0,
                overall_steps_total := if th_opt_mode = ARTOS_THOPT_NONE then 2 else 3,
                aborted := false }
              none modelfile add max_aspect_clusters max_who_clusters th_opt_mode
              (w.log (.call .addPositiveSamplesFromSynset)) rfl rfl
            refine ⟨[Event.call Method.addPositiveSamplesFromSynset] ++ rest, ?_, ?_⟩
            · rw [h1]; simp [World.log]
            · have := steps_with_prefix _ _ rest hpre h2
              exact ⟨this.1, this.2, fun _ cb h => by cases h⟩
        | some cb =>
          have hpre : ∀ e ∈ [Event.overall 0 (if th_opt_mode = ARTOS_THOPT_NONE then 2 else 3) 0 0
                (cb w.trace 0 (if th_opt_mode = ARTOS_THOPT_NONE then 2 else 3) 0 0),
                Event.call Method.addPositiveSamplesFromSynset],
              (∃ a, e = Event.overall 0 (if th_opt_mode = ARTOS_THOPT_NONE then 2 else 3) 0 0 a) ∨
              e = Event.call .addPositiveSamplesFromSynset ∨
              e = Event.call .addPositiveSample := by
            intro e he
            simp only [List.mem_cons, List.mem_singleton, List.not_mem_nil, or_false] at he
            rcases he with rfl | rfl
            · exact Or.inl ⟨_, rfl⟩
            · exact Or.inr (Or.inl rfl)
          dsimp only
          split
          · refine ⟨[Event.overall 0 (if th_opt_mode = ARTOS_THOPT_NONE then 2 else 3) 0 0
                (cb w.trace 0 (if th_opt_mode = ARTOS_THOPT_NONE then 2 else 3) 0 0),
                Event.call Method.addPositiveSamplesFromSynset] ++ [],
              by simp [World.log, callOverall], ?_⟩
            have := steps_with_prefix _ _ [] hpre hnil
            exact ⟨this.1, this.2, fun h => absurd (Ret.ok.inj h) k4⟩
          · obtain ⟨rest, h1, h2, h3⟩ := learn_and_save_steps env
              (fun l => env.optimizeThreshold l th_opt_num_positive th_opt_num_negative)
              (env.addPositiveSamplesFromSynset (env.mk_ImageNetModelLearner
                (env.StationaryBackground_file bg_file) repo_directory
                (th_opt_mode == ARTOS_THOPT_LOOCV) debug)
                (env.getSynset repo_directory synset_id) none).2
              { cb := some cb, overall_step := 0,
                overall_steps_total := if th_opt_mode = ARTOS_THOPT_NONE then 2 else 3,
                aborted := false }
              (some cb) modelfile add max_aspect_clusters max_who_clusters th_opt_mode
              ((callOverall cb 0 (if th_opt_mode = ARTOS_THOPT_NONE then 2 else 3) 0 0 w).log
                (.call .addPositiveSamplesFromSynset)) rfl rfl
            refine ⟨[Event.overall 0 (if th_opt_mode = ARTOS_THOPT_NONE then 2 else 3) 0 0
                (cb w.trace 0 (if th_opt_mode = ARTOS_THOPT_NONE then 2 else 3) 0 0),
                Event.call Method.addPositiveSamplesFromSynset] ++ rest, ?_, ?_⟩
            · rw [h1]; simp [World.log, callOverall]
            · have := steps_with_prefix _ _ rest hpre h2
              refine ⟨this.1, this.2, fun hok cb2 hcb => ⟨⟨_, rfl⟩, ?_⟩⟩
              obtain ⟨a, ha⟩ := h3 hok cb2 hcb
              exact ⟨a, lastOverall_append_of_some _ _ _ ha⟩

/-- The invocations of one call of `learn_files_jpeg` report the total fixed at the start
and the step of their phase; a successful run with a callback starts with the invocation
of step 0 and has the invocation that reports the total as step as its last. -/
theorem learn_files_jpeg_steps (env : Collab E L B F M) (imagefiles : Nat → String)
    (num_imagefiles : Nat) (bounding_boxes : Option (Nat → FlatBoundingBox))
    (bg_file modelfile : String) (add : Bool)
    (max_aspect_clusters max_who_clusters th_opt_mode : Nat)
    (progress_cb : Option overall_progress_cb_t) (debug : Bool) (w : World E L) :
    ∃ new, (learn_files_jpeg env imagefiles num_imagefiles bounding_boxes bg_file modelfile
        add max_aspect_clusters max_who_clusters th_opt_mode progress_cb debug w).2.trace
        = w.trace ++ new ∧
      stepsMonotone (if th_opt_mode = ARTOS_THOPT_NONE then 2 else 3) 0 new = true ∧
      phaseSteps (if th_opt_mode = ARTOS_THOPT_NONE then 2 else 3) 0 new = true ∧
      ((learn_files_jpeg env imagefiles num_imagefiles bounding_boxes bg_file modelfile
        add max_aspect_clusters max_who_clusters th_opt_mode progress_cb debug w).1
          = .ok ARTOS_RES_OK →
        ∀ cb, progress_cb = some cb →
          (∃ a, new.head? = some (Event.overall 0
            (if th_opt_mode = ARTOS_THOPT_NONE then 2 else 3) 0 0 a)) ∧
          ∃ a, lastOverall new = some (Event.overall
            (if th_opt_mode = ARTOS_THOPT_NONE then 2 else 3)
            (if th_opt_mode = ARTOS_THOPT_NONE then 2 else 3) 0 0 a)) := by
  have k3 : ARTOS_LEARN_RES_INVALID_BG_FILE ≠ ARTOS_RES_OK := by decide
  unfold learn_files_jpeg
  dsimp only
  split
  · exact ⟨[], by simp, rfl, rfl, fun h => absurd (Ret.ok.inj h) k3⟩
  · cases progress_cb with
    | none =>
      dsimp only
      obtain ⟨calls, c1, c2⟩ := add_files_calls env imagefiles bounding_boxes
        (List.range num_imagefiles)
        (env.mk_ModelLearner (env.StationaryBackground_file bg_file)
          (th_opt_mode == ARTOS_THOPT_LOOCV) debug, env.Rectangle_new, w)
      obtain ⟨rest, h1, h2, h3⟩ := learn_and_save_steps env (fun l => env.optimizeThreshold0 l)
        (add_files env imagefiles bounding_boxes (List.range num_imagefiles)
          (env.mk_ModelLearner (env.StationaryBackground_file bg_file)
            (th_opt_mode == ARTOS_THOPT_LOOCV) debug, env.Rectangle_new, w)).1
        { cb := none, overall_step := 0,
          overall_steps_total := if th_opt_mode = ARTOS_THOPT_NONE then 2 else 3,
          aborted := false }
        none modelfile add max_aspect_clusters max_who_clusters th_opt_mode
        (add_files env imagefiles bounding_boxes (List.range num_imagefiles)
          (env.mk_ModelLearner (env.StationaryBackground_file bg_file)
            (th_opt_mode == ARTOS_THOPT_LOOCV) debug, env.Rectangle_new, w)).2.2 rfl rfl
      refine ⟨calls ++ rest, ?_, ?_⟩
      · rw [h1, c1]; simp
      · have := steps_with_prefix _ calls rest
          (fun e he => Or.inr (Or.inr (c2 e he))) h2
        exact ⟨this.1, this.2, fun _ cb h => by cases h⟩
    | some cb =>
      dsimp only
      obtain ⟨calls, c1, c2⟩ := add_files_calls env imagefiles bounding_boxes
        (List.range num_imagefiles)
        (env.mk_ModelLearner (env.StationaryBackground_file bg_file)
          (th_opt_mode == ARTOS_THOPT_LOOCV) debug, env.Rectangle_new,
          callOverall cb 0 (if th_opt_mode = ARTOS_THOPT_NONE then 2 else 3) 0 0 w)
      obtain ⟨rest, h1, h2, h3⟩ := learn_and_save_steps env (fun l => env.optimizeThreshold0 l)
        (add_files env imagefiles bounding_boxes (List.range num_imagefiles)
          (env.mk_ModelLearner (env.StationaryBackground_file bg_file)
            (th_opt_mode == ARTOS_THOPT_LOOCV) debug, env.Rectangle_new,
            callOverall cb 0 (if th_opt_mode = ARTOS_THOPT_NONE then 2 else 3) 0 0 w)).1
        { cb := some cb, overall_step := 0,
          overall_steps_total := if th_opt_mode = ARTOS_THOPT_NONE then 2 else 3,
          aborted := false }
        (some cb) modelfile add max_aspect_clusters max_who_clusters th_opt_mode
        (add_files env imagefiles bounding_boxes (List.range num_imagefiles)
          (env.mk_ModelLearner (env.StationaryBackground_file bg_file)
            (th_opt_mode == ARTOS_THOPT_LOOCV) debug, env.Rectangle_new,
            callOverall cb 0 (if th_opt_mode = ARTOS_THOPT_NONE then 2 else 3) 0 0 w)).2.2
        rfl rfl
      refine ⟨(Event.overall 0 (if th_opt_mode = ARTOS_THOPT_NONE then 2 else 3) 0 0
          (cb w.trace 0 (if th_opt_mode = ARTOS_THOPT_NONE then 2 else 3) 0 0) :: calls)
          ++ rest, ?_, ?_⟩
      · rw [h1, c1]; simp [callOverall, World.log]
      · have := steps_with_prefix _ (Event.overall 0
          (if th_opt_mode = ARTOS_THOPT_NONE then 2 else 3) 0 0
          (cb w.trace 0 (if th_opt_mode = ARTOS_THOPT_NONE then 2 else 3) 0 0) :: calls) rest
          (fun e he => by
            rcases List.mem_cons.mp he with rfl | he
            · exact Or.inl ⟨_, rfl⟩
            · exact Or.inr (Or.inr (c2 e he))) h2
        refine ⟨this.1, this.2, fun hok cb2 hcb => ⟨⟨_, rfl⟩, ?_⟩⟩
        obtain ⟨a, ha⟩ := h3 hok cb2 hcb
        exact ⟨a, lastOverall_append_of_some _ _ _ ha⟩

end ProgressSteps

section ProgressSteps
variable {E L B F M : Type}

/-- C11: in `learn_imagenet` and `learn_files_jpeg` the total of overall steps is fixed
before any work to 2 when `th_opt_mode` is `ARTOS_THOPT_NONE` and to 3 otherwise, in
`learn_bg` to 2.  Every invocation of the overall progress callback during the call
reports that total, and the overall step it reports is not below the step of the
invocation before it and not above the total (`stepsMonotone`).  In `learn_imagenet` and
`learn_files_jpeg` the step is 0 before `learn`, 1 during `learn`, 2 during
`optimizeThreshold` and the total after `save` (`phaseSteps`).  A run that returns
`ARTOS_RES_OK` with a callback starts, in `learn_imagenet` and `learn_files_jpeg`, with the
invocation of step 0, and its last invocation reports the total as step. -/
theorem overall_steps_stay_within_total (env : Collab E L B F M)
    (repo_directory synset_id bg_file modelfile : String) (add : Bool)
    (max_aspect_clusters max_who_clusters th_opt_num_positive th_opt_num_negative
      th_opt_mode : Nat) (imagefiles : Nat → String) (num_imagefiles : Nat)
    (bounding_boxes : Option (Nat → FlatBoundingBox)) (num_images max_offset : Nat)
    (accurate_autocorrelation : Bool) (progress_cb : Option overall_progress_cb_t)
    (debug : Bool) (w : World E L) :
    (∃ new, (learn_imagenet env repo_directory synset_id bg_file modelfile add
        max_aspect_clusters max_who_clusters th_opt_num_positive th_opt_num_negative
        th_opt_mode progress_cb debug w).2.trace = w.trace ++ new ∧
      stepsMonotone (if th_opt_mode = ARTOS_THOPT_NONE then 2 else 3) 0 new = true ∧
      phaseSteps (if th_opt_mode = ARTOS_THOPT_NONE then 2 else 3) 0 new = true ∧
      ((learn_imagenet env repo_directory synset_id bg_file modelfile add
        max_aspect_clusters max_who_clusters th_opt_num_positive th_opt_num_negative
        th_opt_mode progress_cb debug w).1 = .ok ARTOS_RES_OK →
        ∀ cb, progress_cb = some cb →
          (∃ a, new.head? = some (Event.overall 0
            (if th_opt_mode = ARTOS_THOPT_NONE then 2 else 3) 0 0 a)) ∧
          ∃ a, lastOverall new = some (Event.overall
            (if th_opt_mode = ARTOS_THOPT_NONE then 2 else 3)
            (if th_opt_mode = ARTOS_THOPT_NONE then 2 else 3) 0 0 a))) ∧
    (∃ new, (learn_files_jpeg env imagefiles num_imagefiles bounding_boxes bg_file modelfile
        add max_aspect_clusters max_who_clusters th_opt_mode progress_cb debug w).2.trace
        = w.trace ++ new ∧
      stepsMonotone (if th_opt_mode = ARTOS_THOPT_NONE then 2 else 3) 0 new = true ∧
      phaseSteps (if th_opt_mode = ARTOS_THOPT_NONE then 2 else 3) 0 new = true ∧
      ((learn_files_jpeg env imagefiles num_imagefiles bounding_boxes bg_file modelfile
        add max_aspect_clusters max_who_clusters th_opt_mode progress_cb debug w).1
          = .ok ARTOS_RES_OK →
        ∀ cb, progress_cb = some cb →
          (∃ a, new.head? = some (Event.overall 0
            (if th_opt_mode = ARTOS_THOPT_NONE then 2 else 3) 0 0 a)) ∧
          ∃ a, lastOverall new = some (Event.overall
            (if th_opt_mode = ARTOS_THOPT_NONE then 2 else 3)
            (if th_opt_mode = ARTOS_THOPT_NONE then 2 else 3) 0 0 a))) ∧
    (∃ new, (learn_bg env repo_directory bg_file num_images max_offset progress_cb
        accurate_autocorrelation w).2.trace = w.trace ++ new ∧
      stepsMonotone 2 0 new = true ∧
      ((learn_bg env repo_directory bg_file num_images max_offset progress_cb
        accurate_autocorrelation w).1 = .ok ARTOS_RES_OK →
        ∀ cb, progress_cb = some cb →
          ∃ a, lastOverall new = some (Event.overall 2 2 0 0 a))) :=
  ⟨learn_imagenet_steps env repo_directory synset_id bg_file modelfile add max_aspect_clusters
      max_who_clusters th_opt_num_positive th_opt_num_negative th_opt_mode progress_cb debug w,
    learn_files_jpeg_steps env imagefiles num_imagefiles bounding_boxes bg_file modelfile add
      max_aspect_clusters max_who_clusters th_opt_mode progress_cb debug w,
    learn_bg_steps env repo_directory bg_file num_images max_offset progress_cb
      accurate_autocorrelation w⟩

end ProgressSteps

/-- Witness for C11: successful runs of `learn_imagenet` (with threshold optimization,
total 3) and `learn_bg` (total 2) on `demoEnv` with a callback that always asks to go
on. -/
theorem overall_steps_stay_within_total_witness :
    (learn_imagenet demoEnv "r" "s" "bg" "m" false 1 1 1 1 1 (some alwaysGoOverall) false
      demoWorld).1 = .ok ARTOS_RES_OK ∧
    (learn_bg demoEnv "r" "bg" 1 1 (some alwaysGoOverall) false demoWorld).1
      = .ok ARTOS_RES_OK ∧
    (∃ new, (learn_imagenet demoEnv "r" "s" "bg" "m" false 1 1 1 1 1 (some alwaysGoOverall)
        false demoWorld).2.trace = demoWorld.trace ++ new ∧
      stepsMonotone 3 0 new = true ∧ phaseSteps 3 0 new = true ∧
      (∃ a, new.head? = some (Event.overall 0 3 0 0 a)) ∧
      ∃ a, lastOverall new = some (Event.overall 3 3 0 0 a)) ∧
    (∃ new, (learn_bg demoEnv "r" "bg" 1 1 (some alwaysGoOverall) false demoWorld).2.trace
        = demoWorld.trace ++ new ∧
      stepsMonotone 2 0 new = true ∧
      ∃ a, lastOverall new = some (Event.overall 2 2 0 0 a)) := by
  have h := overall_steps_stay_within_total demoEnv "r" "s" "bg" "m" false 1 1 1 1 1
    (fun _ => "f") 0 none 1 1 false (some alwaysGoOverall) false demoWorld
  obtain ⟨⟨new, h1, h2, h3, h4⟩, -, ⟨new3, g1, g2, g3⟩⟩ := h
  have hok1 : (learn_imagenet demoEnv "r" "s" "bg" "m" false 1 1 1 1 1 (some alwaysGoOverall)
      false demoWorld).1 = .ok ARTOS_RES_OK := by decide
  have hok3 : (learn_bg demoEnv "r" "bg" 1 1 (some alwaysGoOverall) false demoWorld).1
      = .ok ARTOS_RES_OK := by decide
  exact ⟨hok1, hok3, ⟨new, h1, h2, h3, (h4 hok1 _ rfl).1, (h4 hok1 _ rfl).2⟩,
    ⟨new3, g1, g2, g3 hok3 _ rfl⟩⟩

/-! ## Boxes read from an annotation file -/

/-- The C function `round` leaves an integer as it is. -/
theorem c_round_intCast (n : Int) : c_round (n : Rat) = n := by
  unfold c_round
  simp only [Rat.num_intCast, Rat.den_intCast, Nat.cast_one, mul_one]
  split
  · omega
  · next h =>
    have hn : n < 0 := by
      have := not_le.mp h
      exact_mod_cast this
    omega

/-- Rounding to the nearest integer leaves an integer as it is. -/
theorem roundHalfEven_intCast (n : Int) : roundHalfEven (n : Rat) = n := by
  unfold roundHalfEven
  simp

/-- An integer of absolute value below 2^53 is a `double`: `to_double` leaves it as it
is. -/
theorem to_double_intCast (k : Int) (hk : |k| < 2 ^ 53) : to_double (k : Rat) = k := by
  unfold to_double
  by_cases h0 : (k : Rat) = 0
  · simp [h0]
  · rw [if_neg h0]
    have hpos : (0 : Rat) < |(k : Rat)| := abs_pos.mpr h0
    have hlt : |(k : Rat)| < (2 : Rat) ^ (53 : Int) := by
      have : ((|k| : Int) : Rat) < ((2 ^ 53 : Int) : Rat) := by exact_mod_cast hk
      rw [Int.cast_abs] at this
      rw [zpow_ofNat]
      exact_mod_cast this
    have he : Int.log 2 |(k : Rat)| < 53 := by
      have h1 := Int.zpow_log_le_self (b := 2) (by norm_num) hpos
      have h2 : ((2 : Nat) : Rat) ^ Int.log 2 |(k : Rat)| < ((2 : Nat) : Rat) ^ (53 : Int) := by
        simpa using lt_of_le_of_lt h1 hlt
      exact (zpow_lt_zpow_iff_right₀ (by norm_num)).mp h2
    obtain ⟨j, hj⟩ : ∃ j : Nat, 52 - Int.log 2 |(k : Rat)| = (j : Int) :=
      ⟨(52 - Int.log 2 |(k : Rat)|).toNat, (Int.toNat_of_nonneg (by omega)).symm⟩
    have he2 : Int.log 2 |(k : Rat)| - 52 = -(j : Int) := by omega
    rw [hj, he2]
    have hcast : (k : Rat) * (2 : Rat) ^ ((j : Nat) : Int) = ((k * 2 ^ j : Int) : Rat) := by
      push_cast
      rw [zpow_natCast]
    rw [hcast, roundHalfEven_intCast]
    push_cast
    rw [zpow_neg, zpow_natCast, mul_assoc, mul_inv_cancel₀ (by positivity), mul_one]

/-- Scaling by an integer factor multiplies every field of the box by it, as long as the
products are below 2^53 in absolute value. -/
theorem scaleBox_intCast (k : Int) (b : Rectangle) (hx : |b.x * k| < 2 ^ 53)
    (hy : |b.y * k| < 2 ^ 53) (hw : |b.width * k| < 2 ^ 53) (hh : |b.height * k| < 2 ^ 53) :
    scaleBox (k : Rat) b = ⟨b.x * k, b.y * k, b.width * k, b.height * k⟩ := by
  simp only [scaleBox, ← Int.cast_mul, to_double_intCast _ hx, to_double_intCast _ hy,
    to_double_intCast _ hw, to_double_intCast _ hh, c_round_intCast]

/-- The condition of line 586, spelled out. -/
theorem keepBox_iff (img : JPEGImage) (b : Rectangle) :
    keepBox img b = true ↔
      b.x > 0 ∧ b.y > 0 ∧ b.x < img.width ∧ b.y < img.height ∧ b.width > 0 ∧ b.height > 0 := by
  simp only [keepBox, Bool.and_eq_true, decide_eq_true_eq]
  tauto

/-- The scale and the scaled boxes of the annotation of `annotatedEnv`: the quotient
200 / 100 and all products are integers, which the rounding to `double` leaves as they
are. -/
theorem annotatedEnv_scaled :
    to_double (((200 : Int) : double) / ((100 : Nat) : double)) = ((2 : Int) : Rat) ∧
    scaleBox ((2 : Int) : Rat) ⟨10, 10, 200, 50⟩ = ⟨20, 20, 400, 100⟩ ∧
    scaleBox ((2 : Int) : Rat) ⟨0, 30, 20, 20⟩ = ⟨0, 60, 40, 40⟩ ∧
    scaleBox ((2 : Int) : Rat) ⟨40, 30, 20, 20⟩ = ⟨80, 60, 40, 40⟩ ∧
    scaleBox ((2 : Int) : Rat) ⟨60, 10, 5, 5⟩ = ⟨120, 20, 10, 10⟩ := by
  have hq : (((200 : Int) : double) / ((100 : Nat) : double)) = ((2 : Int) : Rat) := by
    norm_num
  refine ⟨?_, ?_, ?_, ?_, ?_⟩
  · rw [hq]
    exact to_double_intCast 2 (by decide)
  · exact scaleBox_intCast 2 ⟨10, 10, 200, 50⟩ (by decide) (by decide) (by decide) (by decide)
  · exact scaleBox_intCast 2 ⟨0, 30, 20, 20⟩ (by decide) (by decide) (by decide) (by decide)
  · exact scaleBox_intCast 2 ⟨40, 30, 20, 20⟩ (by decide) (by decide) (by decide) (by decide)
  · exact scaleBox_intCast 2 ⟨60, 10, 5, 5⟩ (by decide) (by decide) (by decide) (by decide)

/-- The nearest integer of a rational strictly between `n - 1/2` and `n + 1/2` is `n`. -/
theorem roundHalfEven_eq (r : Rat) (n : Int) (h1 : (n : Rat) - 1 / 2 < r)
    (h2 : r < (n : Rat) + 1 / 2) : roundHalfEven r = n := by
  unfold roundHalfEven
  have hf : ⌊r⌋ = n ∨ ⌊r⌋ = n - 1 := by
    have a1 : (n : Rat) - 1 ≤ r := by linarith
    have a2 : r < (n : Rat) + 1 := by linarith
    have b1 : n - 1 ≤ ⌊r⌋ := Int.le_floor.mpr (by push_cast; exact a1)
    have b2 : ⌊r⌋ < n + 1 := Int.floor_lt.mpr (by push_cast; exact a2)
    omega
  rcases hf with hf | hf
  · have hlt : r - (⌊r⌋ : Rat) < 1 / 2 := by rw [hf]; linarith
    rw [if_pos hlt, hf]
  · have hnlt : ¬ r - (⌊r⌋ : Rat) < 1 / 2 := by
      rw [hf]; push_cast; linarith
    have hgt : 1 / 2 < r - (⌊r⌋ : Rat) := by
      rw [hf]; push_cast; linarith
    rw [if_neg hnlt, if_pos hgt, hf]
    omega

/-- The `double` of a rational `q` with `2 ^ e ≤ |q| < 2 ^ (e + 1)` whose multiple of
`2 ^ (52 - e)` lies strictly between `n - 1/2` and `n + 1/2`. -/
theorem to_double_eq (q : Rat) (e n : Int) (he1 : (2 : Rat) ^ e ≤ |q|)
    (he2 : |q| < (2 : Rat) ^ (e + 1)) (h1 : (n : Rat) - 1 / 2 < q * (2 : Rat) ^ (52 - e))
    (h2 : q * (2 : Rat) ^ (52 - e) < (n : Rat) + 1 / 2) :
    to_double q = n * (2 : Rat) ^ (e - 52) := by
  have hpos : (0 : Rat) < |q| := lt_of_lt_of_le (by positivity) he1
  have hq : q ≠ 0 := abs_pos.mp hpos
  have hlog : Int.log 2 |q| = e := by
    have a1 : e ≤ Int.log 2 |q| := (Int.zpow_le_iff_le_log (by norm_num) hpos).mp (by simpa using he1)
    have a2 : Int.log 2 |q| < e + 1 :=
      (Int.lt_zpow_iff_log_lt (by norm_num) hpos).mp (by simpa using he2)
    omega
  unfold to_double
  rw [if_neg hq, hlog, roundHalfEven_eq _ n h1 h2]

/-- The scale 1300 / 600 as a `double`, and the scaled values of 100 and 27: in `double`
arithmetic 27 * (1300 / 600) is below 58.5 and rounds to 58, where the exact product is
58.5 and would round to 59. -/
theorem rounding_example :
    to_double (((1300 : Int) : double) / ((600 : Nat) : double))
      = 4878899596318037 / 2251799813685248 ∧
    c_round (to_double (((100 : Int) : double) * (4878899596318037 / 2251799813685248))) = 217 ∧
    c_round (to_double (((27 : Int) : double) * (4878899596318037 / 2251799813685248))) = 58 ∧
    c_round (((27 : Int) : double) * (((1300 : Int) : double) / ((600 : Nat) : double))) = 59 := by
  refine ⟨?_, ?_, ?_, ?_⟩
  · rw [to_double_eq _ 1 4878899596318037 (by norm_num [abs_of_pos])
      (by norm_num [abs_of_pos]) (by norm_num) (by norm_num)]
    norm_num
  · rw [to_double_eq _ 7 7623280619246933 (by norm_num [abs_of_pos])
      (by norm_num [abs_of_pos]) (by norm_num) (by norm_num)]
    have : ((7623280619246933 : Int) : Rat) * (2 : Rat) ^ ((7 : Int) - 52)
        = 7623280619246933 / 35184372088832 := by norm_num
    rw [this]
    unfold c_round
    norm_num
  · rw [to_double_eq _ 5 8233143068786687 (by norm_num [abs_of_pos])
      (by norm_num [abs_of_pos]) (by norm_num) (by norm_num)]
    have : ((8233143068786687 : Int) : Rat) * (2 : Rat) ^ ((5 : Int) - 52)
        = 8233143068786687 / 140737488355328 := by norm_num
    rw [this]
    unfold c_round
    norm_num
  · have : (((27 : Int) : double) * (((1300 : Int) : double) / ((600 : Nat) : double)))
        = 117 / 2 := by norm_num
    rw [this]
    unfold c_round
    norm_num

section AnnotatedBoxes
variable {E L B F M : Type}

/-- What `evaluator_add_positive_file` returns on a valid handle, a decodable image and a
readable annotation file. -/
theorem evaluator_add_positive_file_ok (env : Collab E L B F M) (w : World E L)
    (detector : Nat) (imagefile annotation_file : String) (img : JPEGImage) (scene : Scene)
    (hv : is_valid_detector_handle w detector = true)
    (himg : env.JPEGImage_file imagefile = img) (hscene : env.Scene_file annotation_file = scene)
    (hi : img.empty = false) (hs : scene.empty = false) :
    evaluator_add_positive_file env detector imagefile annotation_file w
      = (ARTOS_RES_OK, { w with
          eval_positive_samples := mapSet w.eval_positive_samples detector
            (mapGet w.eval_positive_samples detector ++
              [{ m_img := some img, m_simg := none,
                 m_bboxes := (scene.objects.map (fun obj =>
                    scaleBox (to_double ((scene.width : double) / (img.width : double)))
                      obj.bndbox)).filter (keepBox img),
                 modelAssoc := List.replicate ((scene.objects.map (fun obj =>
                    scaleBox (to_double ((scene.width : double) / (img.width : double)))
                      obj.bndbox)).filter (keepBox img)).length env.noAssoc }]) }) := by
  subst himg hscene
  simp only [evaluator_add_positive_file, hv, hi, hs, Bool.not_true, Bool.false_eq_true,
    if_false]

/-- C21: in `evaluator_add_positive_file`, on a valid handle, a decodable image of
positive width and a readable annotation file, where every scaled field is in the range of
`int`, exactly one sample is appended to the positive list of the handle.  With `scale`
the `double` quotient scene width / image width, the scaled box of an object has the fields
`round(field * scale)`, each product a `double`.  The boxes of the sample are the scaled
boxes, in the order of the annotation, that satisfy `x > 0`, `y > 0`, `x < image width`,
`y < image height`, `width > 0` and `height > 0`: a scaled box is stored if and only if it
meets that condition.  So no stored box has `x = 0` or `y = 0`, and when no scaled box
meets the condition the sample is appended with no box (and no `modelAssoc` entry) at
all. -/
theorem positive_file_keeps_inner_boxes (env : Collab E L B F M) (w : World E L)
    (detector : Nat) (imagefile annotation_file : String) (img : JPEGImage) (scene : Scene)
    (scale : double)
    (hv : is_valid_detector_handle w detector = true)
    (himg : env.JPEGImage_file imagefile = img) (hscene : env.Scene_file annotation_file = scene)
    (hi : img.empty = false) (hs : scene.empty = false) (hwidth : 0 < img.width)
    (hscale : scale = to_double ((scene.width : double) / (img.width : double)))
    (hfits : ∀ obj ∈ scene.objects,
      fits_int (c_round (to_double (obj.bndbox.x * scale))) = true ∧
      fits_int (c_round (to_double (obj.bndbox.y * scale))) = true ∧
      fits_int (c_round (to_double (obj.bndbox.width * scale))) = true ∧
      fits_int (c_round (to_double (obj.bndbox.height * scale))) = true) :
    (evaluator_add_positive_file env detector imagefile annotation_file w).1 = ARTOS_RES_OK ∧
    ∃ s : Sample,
      mapGet (evaluator_add_positive_file env detector imagefile
          annotation_file w).2.eval_positive_samples detector
        = mapGet w.eval_positive_samples detector ++ [s] ∧
      s.m_bboxes = (scene.objects.map (fun obj => Rectangle.mk
          (c_round (to_double (obj.bndbox.x * scale)))
          (c_round (to_double (obj.bndbox.y * scale)))
          (c_round (to_double (obj.bndbox.width * scale)))
          (c_round (to_double (obj.bndbox.height * scale))))).filter
        (fun b : Rectangle => decide (b.x > 0 ∧ b.y > 0 ∧ b.x < (img.width : Int) ∧
          b.y < (img.height : Int) ∧ b.width > 0 ∧ b.height > 0)) ∧
      (∀ b, b ∈ s.m_bboxes ↔
        (∃ obj ∈ scene.objects, b = Rectangle.mk
          (c_round (to_double (obj.bndbox.x * scale)))
          (c_round (to_double (obj.bndbox.y * scale)))
          (c_round (to_double (obj.bndbox.width * scale)))
          (c_round (to_double (obj.bndbox.height * scale)))) ∧
        b.x > 0 ∧ b.y > 0 ∧ b.x < img.width ∧ b.y < img.height ∧
          b.width > 0 ∧ b.height > 0) ∧
      (∀ b, b.x = 0 ∨ b.y = 0 → b ∉ s.m_bboxes) ∧
      s.m_bboxes.Sublist (scene.objects.map (fun obj => Rectangle.mk
          (c_round (to_double (obj.bndbox.x * scale)))
          (c_round (to_double (obj.bndbox.y * scale)))
          (c_round (to_double (obj.bndbox.width * scale)))
          (c_round (to_double (obj.bndbox.height * scale))))) ∧
      ((∀ obj ∈ scene.objects, ¬ (
          c_round (to_double (obj.bndbox.x * scale)) > 0 ∧
          c_round (to_double (obj.bndbox.y * scale)) > 0 ∧
          c_round (to_double (obj.bndbox.x * scale)) < img.width ∧
          c_round (to_double (obj.bndbox.y * scale)) < img.height ∧
          c_round (to_double (obj.bndbox.width * scale)) > 0 ∧
          c_round (to_double (obj.bndbox.height * scale)) > 0)) →
        s.m_bboxes = [] ∧ s.modelAssoc = []) := by
  rw [evaluator_add_positive_file_ok env w detector imagefile annotation_file img scene hv himg
    hscene hi hs, ← hscale]
  have hfilter : (fun b : Rectangle => decide (b.x > 0 ∧ b.y > 0 ∧ b.x < (img.width : Int) ∧
      b.y < (img.height : Int) ∧ b.width > 0 ∧ b.height > 0)) = keepBox img := by
    funext b
    rw [Bool.eq_iff_iff, decide_eq_true_eq]
    exact (keepBox_iff img b).symm
  have hmap : (fun obj : SceneObject => Rectangle.mk
      (c_round (to_double (obj.bndbox.x * scale)))
      (c_round (to_double (obj.bndbox.y * scale)))
      (c_round (to_double (obj.bndbox.width * scale)))
      (c_round (to_double (obj.bndbox.height * scale))))
      = fun obj => scaleBox scale obj.bndbox := rfl
  rw [hfilter, hmap]
  have hnil : (∀ obj ∈ scene.objects, ¬ (
      c_round (to_double (obj.bndbox.x * scale)) > 0 ∧
      c_round (to_double (obj.bndbox.y * scale)) > 0 ∧
      c_round (to_double (obj.bndbox.x * scale)) < img.width ∧
      c_round (to_double (obj.bndbox.y * scale)) < img.height ∧
      c_round (to_double (obj.bndbox.width * scale)) > 0 ∧
      c_round (to_double (obj.bndbox.height * scale)) > 0)) →
      (scene.objects.map (fun obj => scaleBox scale obj.bndbox)).filter (keepBox img) = [] := by
    intro hall
    rw [List.filter_eq_nil_iff]
    intro b hb
    obtain ⟨obj, ho, rfl⟩ := List.mem_map.mp hb
    intro hk
    exact hall obj ho ((keepBox_iff img _).mp hk)
  refine ⟨rfl, _, mapGet_mapSet_self _ _ _, rfl, ?_, ?_, List.filter_sublist _, ?_⟩
  · intro b
    simp only [List.mem_filter, List.mem_map, keepBox_iff]
    constructor
    · rintro ⟨⟨obj, ho, rfl⟩, hk⟩
      exact ⟨⟨obj, ho, rfl⟩, hk⟩
    · rintro ⟨⟨obj, ho, rfl⟩, hk⟩
      exact ⟨⟨obj, ho, rfl⟩, hk⟩
  · intro b hb hmem
    have := (keepBox_iff img b).mp (List.mem_filter.mp hmem).2
    omega
  · intro hall
    refine ⟨hnil hall, ?_⟩
    show List.replicate _ _ = []
    rw [hnil hall]
    rfl

end AnnotatedBoxes

/-- Witness for C21: handle 1 of `demoWorld` with the collaborators `roundingEnv`: an
image of 600 x 600 pixels, a scene of width 1300, and the objects `(100, 100, 27, 27)` and
`(0, 100, 27, 27)`.  The first is stored as `(217, 217, 58, 58)`, where the width 58 is the
rounding of the `double` product 27 * (1300 / 600); the second, whose scaled `x` is 0, is
dropped. -/
theorem positive_file_keeps_inner_boxes_witness :
    is_valid_detector_handle demoWorld 1 = true ∧
    roundingEnv.JPEGImage_file "i" = ⟨false, 600, 600⟩ ∧
    roundingEnv.Scene_file "a" = ⟨false, 1300, [⟨⟨100, 100, 27, 27⟩⟩, ⟨⟨0, 100, 27, 27⟩⟩]⟩ ∧
    (evaluator_add_positive_file roundingEnv 1 "i" "a" demoWorld).1 = ARTOS_RES_OK ∧
    ∃ s : Sample,
      mapGet (evaluator_add_positive_file roundingEnv 1 "i" "a"
          demoWorld).2.eval_positive_samples 1
        = mapGet demoWorld.eval_positive_samples 1 ++ [s] ∧
      s.m_bboxes = [⟨217, 217, 58, 58⟩] ∧
      (∀ b, b.x = 0 ∨ b.y = 0 → b ∉ s.m_bboxes) := by
  obtain ⟨q, r100, r27, -⟩ := rounding_example
  have r0 : c_round (to_double (((0 : Int) : double)
      * (4878899596318037 / 2251799813685248))) = 0 := by
    rw [Int.cast_zero, zero_mul]
    have : to_double 0 = ((0 : Int) : Rat) := by
      unfold to_double
      simp
    rw [this, c_round_intCast]
  obtain ⟨h1, s, h2, h3, -, h4, -, -⟩ := positive_file_keeps_inner_boxes roundingEnv demoWorld 1
    "i" "a" ⟨false, 600, 600⟩
    ⟨false, 1300, [⟨⟨100, 100, 27, 27⟩⟩, ⟨⟨0, 100, 27, 27⟩⟩]⟩
    (4878899596318037 / 2251799813685248) (by decide) rfl rfl rfl rfl (by decide) q.symm
    (by
      intro obj ho
      simp only [List.mem_cons, List.mem_singleton, List.not_mem_nil, or_false] at ho
      rcases ho with rfl | rfl
      · simp only [r100, r27]; decide
      · simp only [r0, r100, r27]; decide)
  refine ⟨by decide, rfl, rfl, h1, s, h2, ?_, h4⟩
  rw [h3]
  simp only [List.map_cons, List.map_nil, r0, r100, r27]
  decide

/-- C22, evaluated: on handle 1 of `demoWorld` with an image of 100 x 100 pixels and an
annotation of scene width 200, `evaluator_add_positive_file` stores the annotated box
`(10, 10, 200, 50)` as `(20, 20, 400, 100)`: every field is multiplied by scene width /
image width = 2.  Multiplied by image width / scene width and rounded, the box is
`(5, 5, 100, 25)`, which spans the image width. -/
theorem positive_file_scale_is_inverted :
    is_valid_detector_handle demoWorld 1 = true ∧
    annotatedEnv.JPEGImage_file "i" = ⟨false, 100, 100⟩ ∧
    annotatedEnv.Scene_file "a"
      = ⟨false, 200, [⟨⟨10, 10, 200, 50⟩⟩, ⟨⟨0, 30, 20, 20⟩⟩, ⟨⟨40, 30, 20, 20⟩⟩,
          ⟨⟨60, 10, 5, 5⟩⟩]⟩ ∧
    (evaluator_add_positive_file annotatedEnv 1 "i" "a" demoWorld).1 = ARTOS_RES_OK ∧
    (mapGet (evaluator_add_positive_file annotatedEnv 1 "i" "a"
        demoWorld).2.eval_positive_samples 1).map (fun s => s.m_bboxes)
      = [[⟨0, 0, 4, 4⟩], [⟨20, 20, 400, 100⟩, ⟨80, 60, 40, 40⟩]] ∧
    scaleBox (((annotatedEnv.JPEGImage_file "i").width : double)
        / ((annotatedEnv.Scene_file "a").width : double)) ⟨10, 10, 200, 50⟩
      = ⟨5, 5, 100, 25⟩ := by
  obtain ⟨q, b1, b2, b3, b4⟩ := annotatedEnv_scaled
  have hclaim : scaleBox (((100 : Nat) : double) / ((200 : Int) : double)) ⟨10, 10, 200, 50⟩
      = ⟨5, 5, 100, 25⟩ := by
    have e1 : (((10 : Int) : Rat) * (((100 : Nat) : double) / ((200 : Int) : double)))
        = ((5 : Int) : Rat) := by norm_num
    have e2 : (((200 : Int) : Rat) * (((100 : Nat) : double) / ((200 : Int) : double)))
        = ((100 : Int) : Rat) := by norm_num
    have e3 : (((50 : Int) : Rat) * (((100 : Nat) : double) / ((200 : Int) : double)))
        = ((25 : Int) : Rat) := by norm_num
    simp only [scaleBox, e1, e2, e3, to_double_intCast 5 (by decide),
      to_double_intCast 100 (by decide), to_double_intCast 25 (by decide), c_round_intCast]
  refine ⟨by decide, rfl, rfl, ?_, ?_, hclaim⟩
  · rw [evaluator_add_positive_file_ok annotatedEnv demoWorld 1 "i" "a" ⟨false, 100, 100⟩
      ⟨false, 200, [⟨⟨10, 10, 200, 50⟩⟩, ⟨⟨0, 30, 20, 20⟩⟩, ⟨⟨40, 30, 20, 20⟩⟩,
        ⟨⟨60, 10, 5, 5⟩⟩]⟩ (by decide) rfl rfl rfl rfl]
  · rw [evaluator_add_positive_file_ok annotatedEnv demoWorld 1 "i" "a" ⟨false, 100, 100⟩
      ⟨false, 200, [⟨⟨10, 10, 200, 50⟩⟩, ⟨⟨0, 30, 20, 20⟩⟩, ⟨⟨40, 30, 20, 20⟩⟩,
        ⟨⟨60, 10, 5, 5⟩⟩]⟩ (by decide) rfl rfl rfl rfl]
    simp only [mapGet_mapSet_self, q, b1, b2, b3, b4, List.map_append, List.map_cons,
      List.map_nil]
    decide

end Artos
